import Mathlib

/-!
The result tree of freesasa, `src/result_node.c`.

A shallow embedding of the result tree (root, computation run, structure, chain, residue,
atom) and of the functions that build, aggregate, join and free it.

Modelling conventions

* A C `double` is a rational number: every area is taken in exact arithmetic.
* A C `int` is an `Int`; the index arithmetic of the file (`last - first + 1`, `++i`) is far
  from the bounds of `int` and is not reduced modulo `2^32`.
* A C string is a `String` (without the character NUL); a `char *` that may be `NULL` is an
  `Option String`.
* The pointers `children` and `next` own what they point to, so an owning pointer is a value
  of `NodePtr`: either `NULL` or a node together with the values of its two owning pointers.
  The `parent` pointer does not own: it is the address of the parent, and every node records
  the address `malloc` returned for it.
* `malloc` and `strdup` are requests to an allocator that is an input of the model
  (`Env.malloc_fails`, `Env.malloc_garbage`); the number of requests made so far is threaded
  through every function that allocates, and it is the address of a block.
* A function that can abort (a failed `assert`) or dereference `NULL` returns `Option`;
  `none` is that abnormal end.  Messages printed by `fail_msg` and `mem_fail` are not modelled.
-/

/-! ## Data model -/

/-- Node types, `freesasa_node_type` of `freesasa.h`. -/
inductive freesasa_node_type
  | FREESASA_NODE_ATOM
  | FREESASA_NODE_RESIDUE
  | FREESASA_NODE_CHAIN
  | FREESASA_NODE_STRUCTURE
  | FREESASA_NODE_RESULT
  | FREESASA_NODE_ROOT
  deriving DecidableEq, Repr

/-- Atom classes, `freesasa_atom_class` of `freesasa.h`. -/
inductive freesasa_atom_class
  | FREESASA_ATOM_APOLAR
  | FREESASA_ATOM_POLAR
  | FREESASA_ATOM_UNKNOWN
  deriving DecidableEq, Repr

open freesasa_node_type freesasa_atom_class

/-- Return code of a successful call (`freesasa.h`). -/
def FREESASA_SUCCESS : Int := 0

/-- Return code of a failed call (`freesasa.h`); `fail_msg` and `mem_fail` return it. -/
def FREESASA_FAIL : Int := -1

/-- The area record `freesasa_nodearea`: a borrowed name and six areas. -/
structure freesasa_nodearea where
  name : Option String
  total : ℚ
  main_chain : ℚ
  side_chain : ℚ
  polar : ℚ
  apolar : ℚ
  unknown : ℚ
  deriving DecidableEq, Repr

/-- The constant `freesasa_nodearea_null = {NULL, 0, 0, 0, 0, 0, 0}`. -/
def freesasa_nodearea_null : freesasa_nodearea :=
  { name := none, total := 0, main_chain := 0, side_chain := 0,
    polar := 0, apolar := 0, unknown := 0 }

/-- The anonymous union of `struct freesasa_result_node`.  `zero_prop` is the union as the
compound literal of `result_node_new` leaves it, before any member is written.  The member
`result_prop.parameters` is never written or read in this file and is left out. -/
inductive node_prop
  | zero_prop
  | atom_prop (is_polar : Int) (is_bb : Int) (radius : ℚ)
  | residue_prop (reference : Option freesasa_nodearea) (number : Option String) (n_atoms : Int)
  | chain_prop (n_residues : Int)
  | structure_prop (n_chains : Int) (chain_labels : Option String)
  | result_prop (classified_by : Option String) (n_structures : Int)
  deriving DecidableEq, Repr

open node_prop

/-- The fields of `struct freesasa_result_node` that are not owning pointers, and the
address of the node. -/
structure freesasa_result_node where
  addr : Nat
  name : Option String
  type : freesasa_node_type
  prop : node_prop
  area : Option freesasa_nodearea
  parent : Option Nat
  deriving DecidableEq, Repr

/-- An owning `freesasa_result_node *`: `NULL`, or a node with the values of its `children`
and `next` pointers. -/
inductive NodePtr
  | NULL
  | node (d : freesasa_result_node) (children : NodePtr) (next : NodePtr)
  deriving DecidableEq, Repr

open NodePtr

/-- The structure collaborator, `freesasa_structure`, as the accessors this file calls.
Its code is in another file of the repository. -/
structure freesasa_structure where
  atom_name : Int → String
  atom_class : Int → freesasa_atom_class
  atom_radius : Int → ℚ
  residue_name : Int → String
  residue_number : Int → String
  residue_atoms : Int → Int × Int
  residue_reference : Int → Option freesasa_nodearea
  chain_labels : String
  chain_residues : Char → Int × Int
  n_chains : Int
  classifier_name : String

/-- The result collaborator, `freesasa_result`: the per-atom areas `sasa[i]`. -/
structure freesasa_result where
  sasa : Int → ℚ

/-- What the file takes from its environment: the classifier function
`freesasa_atom_is_backbone` and the allocator.  `malloc_fails k` says whether request
number `k` returns `NULL`; `malloc_garbage k` is the indeterminate content of block `k`
when it is used as an area record. -/
structure Env where
  freesasa_atom_is_backbone : String → Int
  malloc_fails : Nat → Bool
  malloc_garbage : Nat → freesasa_nodearea

/-! ## Node creation and destruction -/

/-- `result_node_new`: one request for the node and, when a name is given, one for the
copy of the name. -/
def result_node_new (E : Env) (name : Option String) (k : Nat) : NodePtr × Nat :=
  if E.malloc_fails k then (NULL, k + 1)
  else
    match name with
    | none =>
      (node { addr := k, name := none, type := FREESASA_NODE_ATOM, prop := zero_prop,
              area := none, parent := none } NULL NULL, k + 1)
    | some s =>
      if E.malloc_fails (k + 1) then (NULL, k + 2)
      else
        (node { addr := k, name := some s, type := FREESASA_NODE_ATOM, prop := zero_prop,
                area := none, parent := none } NULL NULL, k + 2)

/-- The loop of `result_node_free` over a sibling chain: the addresses of the node blocks
released, in the order of the calls to `free(node)`. -/
def free_siblings : NodePtr → List Nat
  | NULL => []
  | node d children next => (free_siblings children ++ [d.addr]) ++ free_siblings next

/-- `result_node_free`: releases the children of `node`, then `node`; returns the addresses
of the node blocks released. -/
def result_node_free : NodePtr → List Nat
  | NULL => []
  | node d children _ => free_siblings children ++ [d.addr]

/-! ## Areas -/

/-- `freesasa_atom_nodearea`: writes the area of atom `atom_index` into the record `area`
(the argument is the prior content of the record).  The first assignment clears
`main_chain`, `side_chain`, `polar` and `apolar`; `unknown` is written only in the last
case of the switch. -/
def freesasa_atom_nodearea (E : Env) (area : freesasa_nodearea) (S : freesasa_structure)
    (R : freesasa_result) (atom_index : Int) : freesasa_nodearea :=
  let a := R.sasa atom_index
  let area := { area with main_chain := 0, side_chain := 0, polar := 0, apolar := 0 }
  let area := { area with name := some (S.atom_name atom_index) }
  let area := { area with total := a }
  let area :=
    if E.freesasa_atom_is_backbone (S.atom_name atom_index) ≠ 0 then
      { area with main_chain := a }
    else { area with side_chain := a }
  match S.atom_class atom_index with
  | FREESASA_ATOM_APOLAR => { area with apolar := a }
  | FREESASA_ATOM_POLAR => { area with polar := a }
  | FREESASA_ATOM_UNKNOWN => { area with unknown := a }

/-- `freesasa_add_nodearea`: adds the six areas of `term` to `sum`; the name of `sum`
stays. -/
def freesasa_add_nodearea (sum term : freesasa_nodearea) : freesasa_nodearea :=
  { sum with
    total := sum.total + term.total
    side_chain := sum.side_chain + term.side_chain
    main_chain := sum.main_chain + term.main_chain
    polar := sum.polar + term.polar
    apolar := sum.apolar + term.apolar
    unknown := sum.unknown + term.unknown }

/-- The loop of `freesasa_range_nodearea`: `n` iterations from atom `i`, on the running
`area` and the local record `term`. -/
def range_nodearea_loop (E : Env) (S : freesasa_structure) (R : freesasa_result) :
    Nat → Int → freesasa_nodearea → freesasa_nodearea → freesasa_nodearea
  | 0, _, area, _ => area
  | n + 1, i, area, term =>
    let term := freesasa_atom_nodearea E term S R i
    range_nodearea_loop E S R n (i + 1) (freesasa_add_nodearea area term) term

/-- `freesasa_range_nodearea`: adds the areas of the atoms `first_atom .. last_atom` to
`area`; `none` when `assert(first_atom <= last_atom)` fails. -/
def freesasa_range_nodearea (E : Env) (area : freesasa_nodearea) (S : freesasa_structure)
    (R : freesasa_result) (first_atom last_atom : Int) : Option freesasa_nodearea :=
  if first_atom ≤ last_atom then
    some (range_nodearea_loop E S R (last_atom - first_atom + 1).toNat first_atom area
      freesasa_nodearea_null)
  else none

/-- The `while (child)` loop of `result_node_add_area`: adds the area of every node of the
sibling chain to `sum`; `none` when a child has no area (`term` is `NULL`). -/
def add_children_area : freesasa_nodearea → NodePtr → Option freesasa_nodearea
  | sum, NULL => some sum
  | sum, node d _ next =>
    match d.area with
    | none => none
    | some term => add_children_area (freesasa_add_nodearea sum term) next

/-- `result_node_add_area`: returns the status, the node after the call and the request
counter.  Nothing happens for the types RESULT and ATOM; otherwise an area record is
requested, and on success it is set to the null area named after the node plus the
areas of the children. -/
def result_node_add_area (E : Env) (nd : NodePtr) (k : Nat) : Option (Int × NodePtr × Nat) :=
  match nd with
  | NULL => none
  | node d children next =>
    if d.type = FREESASA_NODE_RESULT ∨ d.type = FREESASA_NODE_ATOM then
      some (FREESASA_SUCCESS, node d children next, k)
    else if E.malloc_fails k then
      some (FREESASA_FAIL, node { d with area := none } children next, k + 1)
    else
      match add_children_area { freesasa_nodearea_null with name := d.name } children with
      | none => none
      | some a => some (FREESASA_SUCCESS, node { d with area := some a } children next, k + 1)

/-! ## Generators -/

/-- The type `node_generator`: from an index and the request counter to the pointer
returned (`NULL` on failure) and the new counter; `none` is an abnormal end. -/
abbrev node_generator :=
  freesasa_structure → freesasa_result → Int → Nat → Option (NodePtr × Nat)

/-- The `for` loop of `result_node_gen_children`, seen from the node `child` points to:
`n` is the number of iterations left and `i` the next index.  Returns whether the loop
ran to its end, the value `child->next` ends with, and the counter.  A generated node
gets `parent`; its `next` is what the rest of the loop builds. -/
def gen_children_loop (ng : node_generator) (S : freesasa_structure) (R : freesasa_result)
    (parent : Nat) : Nat → Int → Nat → Option (Bool × NodePtr × Nat)
  | 0, _, k => some (true, NULL, k)
  | n + 1, i, k =>
    match ng S R i k with
    | none => none
    | some (NULL, k1) => some (false, NULL, k1)
    | some (node d children _, k1) =>
      match gen_children_loop ng S R parent n (i + 1) k1 with
      | none => none
      | some (ok, rest, k2) => some (ok, node { d with parent := some parent } children rest, k2)

/-- `result_node_gen_children`: returns whether the pointer returned is not `NULL`, the
parent after the call and the counter.  The loop `for (i = first+1; i <= last; ++i)` makes
`last - first` iterations, none when `last <= first`.  The status of
`result_node_add_area` is dropped, as in the source. -/
def result_node_gen_children (E : Env) (parent : NodePtr) (S : freesasa_structure)
    (R : freesasa_result) (first last : Int) (ng : node_generator) (k : Nat) :
    Option (Bool × NodePtr × Nat) :=
  match ng S R first k with
  | none => none
  | some (NULL, k1) => some (false, parent, k1)
  | some (node fd fchildren _, k1) =>
    match parent with
    | NULL => none
    | node pd _ pnext =>
      match gen_children_loop ng S R pd.addr (last - first).toNat (first + 1) k1 with
      | none => none
      | some (false, rest, k2) =>
        some (false, node pd (node { fd with parent := some pd.addr } fchildren rest) pnext, k2)
      | some (true, rest, k2) =>
        match result_node_add_area E
            (node pd (node { fd with parent := some pd.addr } fchildren rest) pnext) k2 with
        | none => none
        | some (_, parent1, k3) => some (true, parent1, k3)

/-- `result_node_atom`. -/
def result_node_atom (E : Env) : node_generator := fun S R atom_index k =>
  match result_node_new E (some (S.atom_name atom_index)) k with
  | (NULL, k1) => some (NULL, k1)
  | (node d children next, k1) =>
    let d := { d with type := FREESASA_NODE_ATOM }
    let is_polar : Int := if S.atom_class atom_index = FREESASA_ATOM_POLAR then 1 else 0
    let is_bb : Int := E.freesasa_atom_is_backbone (S.atom_name atom_index)
    let d := { d with prop := atom_prop is_polar is_bb (S.atom_radius atom_index) }
    if E.malloc_fails k1 then some (NULL, k1 + 1)
    else
      let area := freesasa_atom_nodearea E (E.malloc_garbage k1) S R atom_index
      some (node { d with area := some area } children next, k1 + 1)

/-- `result_node_residue`. -/
def result_node_residue (E : Env) : node_generator := fun S R residue_index k =>
  match result_node_new E (some (S.residue_name residue_index)) k with
  | (NULL, k1) => some (NULL, k1)
  | (node d children next, k1) =>
    let d := { d with type := FREESASA_NODE_RESIDUE }
    let first := (S.residue_atoms residue_index).1
    let last := (S.residue_atoms residue_index).2
    if E.malloc_fails k1 then some (NULL, k1 + 1)
    else
      let number := some (S.residue_number residue_index)
      match S.residue_reference residue_index with
      | some ref =>
        if E.malloc_fails (k1 + 1) then some (NULL, k1 + 2)
        else
          let d := { d with prop := residue_prop (some ref) number (last - first + 1) }
          match result_node_gen_children E (node d children next) S R first last
              (result_node_atom E) (k1 + 2) with
          | none => none
          | some (false, _, k2) => some (NULL, k2)
          | some (true, residue, k2) => some (residue, k2)
      | none =>
        let d := { d with prop := residue_prop none number (last - first + 1) }
        match result_node_gen_children E (node d children next) S R first last
            (result_node_atom E) (k1 + 1) with
        | none => none
        | some (false, _, k2) => some (NULL, k2)
        | some (true, residue, k2) => some (residue, k2)

/-- The character `chains[chain_index]` for an index inside the string. -/
def chain_label (chains : String) (chain_index : Int) : Option Char :=
  if 0 ≤ chain_index then chains.data.get? chain_index.toNat else none

/-- `result_node_chain`: `none` when `assert(strlen(chains) > chain_index)` fails, which
covers every index outside the string.  The atom range of the chain is read in the source
and never used; it is left out. -/
def result_node_chain (E : Env) : node_generator := fun S R chain_index k =>
  match chain_label S.chain_labels chain_index with
  | none => none
  | some c =>
    match result_node_new E (some (String.singleton c)) k with
    | (NULL, k1) => some (NULL, k1)
    | (node d children next, k1) =>
      let d := { d with type := FREESASA_NODE_CHAIN }
      let first_residue := (S.chain_residues c).1
      let last_residue := (S.chain_residues c).2
      let d := { d with prop := chain_prop (last_residue - first_residue + 1) }
      match result_node_gen_children E (node d children next) S R first_residue last_residue
          (result_node_residue E) k1 with
      | none => none
      | some (false, _, k2) => some (NULL, k2)
      | some (true, chain, k2) => some (chain, k2)

/-- `result_node_structure`; the index is not used. -/
def result_node_structure (E : Env) : node_generator := fun S R _ k =>
  match result_node_new E (some S.chain_labels) k with
  | (NULL, k1) => some (NULL, k1)
  | (node d children next, k1) =>
    let d := { d with type := FREESASA_NODE_STRUCTURE }
    if E.malloc_fails k1 then some (NULL, k1 + 1)
    else
      let d := { d with prop := structure_prop S.n_chains (some S.chain_labels) }
      match result_node_gen_children E (node d children next) S R 0 (S.n_chains - 1)
          (result_node_chain E) (k1 + 1) with
      | none => none
      | some (false, _, k2) => some (NULL, k2)
      | some (true, result_node, k2) => some (result_node, k2)

/-! ## The public tree functions -/

/-- `freesasa_result_tree_new`. -/
def freesasa_result_tree_new (E : Env) (k : Nat) : NodePtr × Nat :=
  match result_node_new E none k with
  | (NULL, k1) => (NULL, k1)
  | (node d children next, k1) => (node { d with type := FREESASA_NODE_ROOT } children next, k1)

/-- `freesasa_result_tree_add_result`: returns the status, the tree after the call and the
counter.  `none` when a generator ends abnormally or when one of the two pointers read on
the success path, `result_node` and `tree`, is `NULL`. -/
def freesasa_result_tree_add_result (E : Env) (tree : NodePtr) (R : freesasa_result)
    (S : freesasa_structure) (name : Option String) (k : Nat) : Option (Int × NodePtr × Nat) :=
  match result_node_new E name k with
  | (NULL, k1) => some (FREESASA_FAIL, tree, k1)
  | (node d children next, k1) =>
    let d := { d with type := FREESASA_NODE_RESULT }
    if E.malloc_fails k1 then some (FREESASA_FAIL, tree, k1 + 1)
    else
      let d := { d with prop := result_prop (some S.classifier_name) 1 }
      match result_node_gen_children E (node d children next) S R 0 0
          (result_node_structure E) (k1 + 1) with
      | none => none
      | some (false, _, k2) => some (FREESASA_FAIL, tree, k2)
      | some (true, NULL, _) => none
      | some (true, node rd rchildren _, k2) =>
        match tree with
        | NULL => none
        | node td tchildren tnext =>
          some (FREESASA_SUCCESS, node td (node rd rchildren tchildren) tnext, k2)

/-- The walk `while (child->next) child = child->next; child->next = tail` of
`freesasa_result_tree_join`, from a node that is not `NULL`: the chain with `tail` linked
after its last node. -/
def join_last : NodePtr → NodePtr → NodePtr
  | NULL, tail => tail
  | node d children NULL, tail => node d children tail
  | node d children (node d1 c1 n1), tail => node d children (join_last (node d1 c1 n1) tail)

/-- `freesasa_result_tree_join`: `tree2` is the caller's handle (`none` when the pointer
to the handle is `NULL`).  Returns the status, `tree1` after the call and the handle after
the call; `none` when an `assert` fails or `child` is `NULL` at `child->next = ...`. -/
def freesasa_result_tree_join (tree1 : NodePtr) (tree2 : Option NodePtr) :
    Option (Int × NodePtr × NodePtr) :=
  match tree1, tree2 with
  | node d1 children1 next1, some (node d2 children2 _) =>
    if d1.type = FREESASA_NODE_ROOT ∧ d2.type = FREESASA_NODE_ROOT then
      match children1 with
      | NULL => none
      | node cd cchildren cnext =>
        some (FREESASA_SUCCESS, node d1 (join_last (node cd cchildren cnext) children2) next1,
              NULL)
    else none
  | _, _ => none

/-- `freesasa_result_node_free`: the status and the addresses of the node blocks released. -/
def freesasa_result_node_free (root : NodePtr) : Int × List Nat :=
  match root with
  | NULL => (FREESASA_SUCCESS, [])
  | node d children next =>
    if d.parent ≠ none then (FREESASA_FAIL, [])
    else (FREESASA_SUCCESS, result_node_free (node d children next))

/-! ## Accessors -/

/-- `freesasa_result_node_area`: `none` when the `assert` on the type fails; the inner
option is the pointer returned. -/
def freesasa_result_node_area (d : freesasa_result_node) : Option (Option freesasa_nodearea) :=
  if d.type ≠ FREESASA_NODE_ROOT then some d.area else none

/-- `freesasa_result_node_residue_n_atoms`: `none` when the `assert` on the type fails or
the union does not hold a residue. -/
def freesasa_result_node_residue_n_atoms (d : freesasa_result_node) : Option Int :=
  if d.type = FREESASA_NODE_RESIDUE then
    match d.prop with
    | residue_prop _ _ n_atoms => some n_atoms
    | _ => none
  else none

/-- `freesasa_result_node_chain_n_residues`. -/
def freesasa_result_node_chain_n_residues (d : freesasa_result_node) : Option Int :=
  if d.type = FREESASA_NODE_CHAIN then
    match d.prop with
    | chain_prop n_residues => some n_residues
    | _ => none
  else none

/-- `freesasa_result_node_structure_n_chains`. -/
def freesasa_result_node_structure_n_chains (d : freesasa_result_node) : Option Int :=
  if d.type = FREESASA_NODE_STRUCTURE then
    match d.prop with
    | structure_prop n_chains _ => some n_chains
    | _ => none
  else none

/-- `freesasa_result_node_structure_chain_labels`; the inner option is the pointer
returned. -/
def freesasa_result_node_structure_chain_labels (d : freesasa_result_node) :
    Option (Option String) :=
  if d.type = FREESASA_NODE_STRUCTURE then
    match d.prop with
    | structure_prop _ chain_labels => some chain_labels
    | _ => none
  else none

/-- `freesasa_result_node_classified_by`; the inner option is the pointer returned. -/
def freesasa_result_node_classified_by (d : freesasa_result_node) : Option (Option String) :=
  if d.type = FREESASA_NODE_RESULT then
    match d.prop with
    | result_prop classified_by _ => some classified_by
    | _ => none
  else none

/-- `freesasa_result_node_atom_is_polar`. -/
def freesasa_result_node_atom_is_polar (d : freesasa_result_node) : Option Int :=
  if d.type = FREESASA_NODE_ATOM then
    match d.prop with
    | atom_prop is_polar _ _ => some is_polar
    | _ => none
  else none

/-- `freesasa_result_node_atom_is_mainchain`. -/
def freesasa_result_node_atom_is_mainchain (d : freesasa_result_node) : Option Int :=
  if d.type = FREESASA_NODE_ATOM then
    match d.prop with
    | atom_prop _ is_bb _ => some is_bb
    | _ => none
  else none

/-- `freesasa_result_node_atom_radius`. -/
def freesasa_result_node_atom_radius (d : freesasa_result_node) : Option ℚ :=
  if d.type = FREESASA_NODE_ATOM then
    match d.prop with
    | atom_prop _ _ radius => some radius
    | _ => none
  else none

/-- `freesasa_result_node_residue_number`; the inner option is the pointer returned. -/
def freesasa_result_node_residue_number (d : freesasa_result_node) : Option (Option String) :=
  if d.type = FREESASA_NODE_RESIDUE then
    match d.prop with
    | residue_prop _ number _ => some number
    | _ => none
  else none

/-- `freesasa_result_node_residue_reference`; the inner option is the pointer returned. -/
def freesasa_result_node_residue_reference (d : freesasa_result_node) :
    Option (Option freesasa_nodearea) :=
  if d.type = FREESASA_NODE_RESIDUE then
    match d.prop with
    | residue_prop reference _ _ => some reference
    | _ => none
  else none

/-- Whether the union holds the member that belongs to the type of the node, as it does in
every node a generator returns.  An accessor reads the union through the member of its own
type; what it would read through another member is not modelled. -/
def well_tagged (d : freesasa_result_node) : Bool :=
  match d.type, d.prop with
  | FREESASA_NODE_ATOM, atom_prop _ _ _ => true
  | FREESASA_NODE_RESIDUE, residue_prop _ _ _ => true
  | FREESASA_NODE_CHAIN, chain_prop _ => true
  | FREESASA_NODE_STRUCTURE, structure_prop _ _ => true
  | FREESASA_NODE_RESULT, result_prop _ _ => true
  | FREESASA_NODE_ROOT, zero_prop => true
  | _, _ => false

/-! ## Views of a tree used to state properties -/

/-- The nodes of a sibling chain in order: the fields of each node and its `children`
pointer.  The direct children of a node are the sibling chain of its `children`. -/
def sibling_list : NodePtr → List (freesasa_result_node × NodePtr)
  | NULL => []
  | node d children next => (d, children) :: sibling_list next

/-- The fields of every node of a sibling chain and of all the subtrees below it, each
node before its children and its later siblings. -/
def all_nodes : NodePtr → List freesasa_result_node
  | NULL => []
  | node d children next => d :: (all_nodes children ++ all_nodes next)

/-- The `children` pointer of a node. -/
def NodePtr.child_ptr : NodePtr → NodePtr
  | NULL => NULL
  | node _ children _ => children

/-- The fields of the node a pointer points to. -/
def NodePtr.fields : NodePtr → Option freesasa_result_node
  | NULL => none
  | node d _ _ => some d

/-- Whether a pointer is `NULL`. -/
def NodePtr.is_null : NodePtr → Bool
  | NULL => true
  | node _ _ _ => false

/-! ## Concrete inputs -/

/-- A structure with one chain "A" of one residue "MET" with the two atoms 0 and 1, both
named "N" and polar. -/
def small_structure : freesasa_structure where
  atom_name := fun _ => "N"
  atom_class := fun _ => FREESASA_ATOM_POLAR
  atom_radius := fun _ => 2
  residue_name := fun _ => "MET"
  residue_number := fun _ => "1"
  residue_atoms := fun _ => (0, 1)
  residue_reference := fun _ => none
  chain_labels := "A"
  chain_residues := fun _ => (0, 0)
  n_chains := 1
  classifier_name := "classifier"

/-- A result in which every atom has area 3. -/
def small_result : freesasa_result where
  sasa := fun _ => 3

/-- An environment whose allocator never fails and hands out zeroed blocks; "N" is a
backbone atom. -/
def good_env : Env where
  freesasa_atom_is_backbone := fun s => if s = "N" then 1 else 0
  malloc_fails := fun _ => false
  malloc_garbage := fun _ => freesasa_nodearea_null

/-- As `good_env`, but a fresh block holds 5 where the field `unknown` of an area lies. -/
def garbage_env : Env where
  freesasa_atom_is_backbone := fun s => if s = "N" then 1 else 0
  malloc_fails := fun _ => false
  malloc_garbage := fun _ => { freesasa_nodearea_null with unknown := 5 }

/-- As `good_env`, but request number `j` alone returns `NULL`. -/
def failing_env (j : Nat) : Env where
  freesasa_atom_is_backbone := fun s => if s = "N" then 1 else 0
  malloc_fails := fun k => decide (k = j)
  malloc_garbage := fun _ => freesasa_nodearea_null

/-- A root as `freesasa_result_tree_new` returns it at address 0. -/
def empty_root : NodePtr :=
  node { addr := 0, name := none, type := FREESASA_NODE_ROOT, prop := zero_prop,
         area := none, parent := none } NULL NULL

/-- An area record of `total` that is all main chain and all polar. -/
def small_area (name : String) (total : ℚ) : freesasa_nodearea :=
  { name := some name, total := total, main_chain := total, side_chain := 0,
    polar := total, apolar := 0, unknown := 0 }

/-- The fields of an atom node of `small_structure` built under `good_env`. -/
def small_atom (addr : Nat) (parent : Option Nat) : freesasa_result_node :=
  { addr := addr, name := some "N", type := FREESASA_NODE_ATOM, prop := atom_prop 1 1 2,
    area := some (small_area "N" 3), parent := parent }

/-- The two atom nodes of the residue at address `p`, the first at address `k`. -/
def small_atoms (k p : Nat) : NodePtr :=
  node (small_atom k (some p)) NULL (node (small_atom (k + 3) (some p)) NULL NULL)

/-- The fields of the residue node of `small_structure` built at address `k`. -/
def small_residue (k : Nat) (parent : Option Nat) : freesasa_result_node :=
  { addr := k, name := some "MET", type := FREESASA_NODE_RESIDUE,
    prop := residue_prop none (some "1") 2, area := some (small_area "MET" 6),
    parent := parent }

/-- The fields of the chain node of `small_structure` built at address `k`. -/
def small_chain (k : Nat) (parent : Option Nat) : freesasa_result_node :=
  { addr := k, name := some "A", type := FREESASA_NODE_CHAIN, prop := chain_prop 1,
    area := some (small_area "A" 6), parent := parent }

/-- The child list of the chain node at address `k`: its one residue. -/
def small_chain_children (k : Nat) : NodePtr :=
  node (small_residue (k + 2) (some k)) (small_atoms (k + 5) (k + 2)) NULL

/-- The fields of the structure node of `small_structure` built at address `k`, with the
area `area`. -/
def small_struct (k : Nat) (parent : Option Nat) (area : Option freesasa_nodearea) :
    freesasa_result_node :=
  { addr := k, name := some "A", type := FREESASA_NODE_STRUCTURE,
    prop := structure_prop 1 (some "A"), area := area, parent := parent }

/-- The child list of the structure node at address `k`: its one chain. -/
def small_struct_children (k : Nat) : NodePtr :=
  node (small_chain (k + 3) (some k)) (small_chain_children (k + 3)) NULL

/-- The fields of the run node built at address `k` under the name "run". -/
def small_run (k : Nat) : freesasa_result_node :=
  { addr := k, name := some "run", type := FREESASA_NODE_RESULT,
    prop := result_prop (some "classifier") 1, area := none, parent := none }

/-- The run node built at address `k`, with the area `area` on its structure node and
`next` as its next sibling. -/
def small_run_node (k : Nat) (area : Option freesasa_nodearea) (next : NodePtr) : NodePtr :=
  node (small_run k) (node (small_struct (k + 3) (some k) area) (small_struct_children (k + 3)) NULL)
    next

/-- The root `empty_root` with the child list `children`. -/
def root_with (children : NodePtr) : NodePtr :=
  node { addr := 0, name := none, type := FREESASA_NODE_ROOT, prop := zero_prop,
         area := none, parent := none } children NULL

/-- Modelled from the spec: the code of the structure collaborator is not in this file.  The
spec calls the value of `freesasa_structure_n_chains` the chain-label count, so a structure
is consistent when `n_chains` is the length of its chain-label string. -/
def structure_consistent (S : freesasa_structure) : Prop :=
  S.n_chains = (S.chain_labels.length : Int)

/-! ## Sums used to state the aggregation properties -/

/-- The total of the area of a node, 0 when it has none. -/
def area_total (d : freesasa_result_node) : ℚ :=
  match d.area with
  | some a => a.total
  | none => 0

/-- The sum of `area.total` over the atom nodes of a sibling chain and of the subtrees
below it. -/
def leaf_total : NodePtr → ℚ
  | NULL => 0
  | node d children next =>
    (if d.type = FREESASA_NODE_ATOM then area_total d else leaf_total children) + leaf_total next

/-- The sum of `f` over the `n` indices from `i` on. -/
def index_sum (f : Int → ℚ) : Nat → Int → ℚ
  | 0, _ => 0
  | n + 1, i => f i + index_sum f n (i + 1)

/-- The number of indices of the range `first .. last`. -/
def range_count (r : Int × Int) : Nat := (r.2 - r.1 + 1).toNat

/-- The sum of `sasa[i]` over the atoms of residue `r`. -/
def residue_sasa (S : freesasa_structure) (R : freesasa_result) (r : Int) : ℚ :=
  index_sum R.sasa (range_count (S.residue_atoms r)) (S.residue_atoms r).1

/-- The sum of `sasa[i]` over the atoms of the residues of the chain with label `ch`. -/
def chain_sasa (S : freesasa_structure) (R : freesasa_result) (ch : Char) : ℚ :=
  index_sum (residue_sasa S R) (range_count (S.chain_residues ch)) (S.chain_residues ch).1

/-- The sum of `sasa[i]` over the atoms of the residues of the chain at position `j` of the
label string; 0 when there is no such position. -/
def chain_index_sasa (S : freesasa_structure) (R : freesasa_result) (j : Int) : ℚ :=
  match chain_label S.chain_labels j with
  | some ch => chain_sasa S R ch
  | none => 0

/-- The sum of `sasa[i]` over the atoms of the residues of the chains `0 .. n_chains - 1`. -/
def structure_sasa (S : freesasa_structure) (R : freesasa_result) : ℚ :=
  index_sum (chain_index_sasa S R) S.n_chains.toNat 0

/-- Every range the build of `S` goes through is non-empty: there is a chain, every chain
position holds a label whose residue range is non-empty, and so is the atom range of each
residue of that range. -/
def ranges_nonempty (S : freesasa_structure) : Prop :=
  1 ≤ S.n_chains ∧
  ∀ (j : Int) (ch : Char), 0 ≤ j → j < S.n_chains → chain_label S.chain_labels j = some ch →
    (S.chain_residues ch).1 ≤ (S.chain_residues ch).2 ∧
    ∀ r : Int, (S.chain_residues ch).1 ≤ r → r ≤ (S.chain_residues ch).2 →
      (S.residue_atoms r).1 ≤ (S.residue_atoms r).2

/-- The sum of `area.total` over the atom nodes of the subtree of one node: its own total
for an atom, the sum over its children otherwise. -/
def node_leaf_total (d : freesasa_result_node) (children : NodePtr) : ℚ :=
  if d.type = FREESASA_NODE_ATOM then area_total d else leaf_total children

/-- Every node of the sibling chain that has an area has, as its total, the sum over the
atom nodes of its subtree. -/
def areas_ok (p : NodePtr) : Prop :=
  ∀ x ∈ sibling_list p, ∀ a, x.1.area = some a → a.total = node_leaf_total x.1 x.2

/-- What a generator `ng` guarantees when each node it returns for index `i` has the leaf
sum `f i` and, if it has an area, the total `f i`. -/
def gen_ok (ng : node_generator) (S : freesasa_structure) (R : freesasa_result)
    (f : Int → ℚ) : Prop :=
  ∀ (i : Int) (k : Nat) (d : freesasa_result_node) (c n : NodePtr) (k1 : Nat),
    ng S R i k = some (node d c n, k1) →
    node_leaf_total d c = f i ∧ ∀ a, d.area = some a → a.total = f i

/-- The number of calls of the generator that `result_node_gen_children` makes on the range
`first .. last`: one for `first` and one for each index of the loop. -/
def gen_count (r : Int × Int) : Nat := (r.2 - r.1).toNat + 1

/-- The sum of `sasa[i]` over the atoms generated for residue `r`. -/
def residue_gen_sasa (S : freesasa_structure) (R : freesasa_result) (r : Int) : ℚ :=
  index_sum R.sasa (gen_count (S.residue_atoms r)) (S.residue_atoms r).1

/-- The sum of `sasa[i]` over the atoms generated for the chain with label `ch`. -/
def chain_gen_sasa (S : freesasa_structure) (R : freesasa_result) (ch : Char) : ℚ :=
  index_sum (residue_gen_sasa S R) (gen_count (S.chain_residues ch)) (S.chain_residues ch).1

/-- The sum of `sasa[i]` over the atoms generated for the chain at position `j`. -/
def chain_index_gen_sasa (S : freesasa_structure) (R : freesasa_result) (j : Int) : ℚ :=
  match chain_label S.chain_labels j with
  | some ch => chain_gen_sasa S R ch
  | none => 0

/-- The sum of `sasa[i]` over the atoms generated for the structure. -/
def structure_gen_sasa (S : freesasa_structure) (R : freesasa_result) : ℚ :=
  index_sum (chain_index_gen_sasa S R) (gen_count (0, S.n_chains - 1)) 0

/-! ## Trees built through the public functions -/

/-- The trees produced by `freesasa_result_tree_new` followed by successful calls of
`freesasa_result_tree_add_result`, under any environment, structure, result and name. -/
inductive result_tree : NodePtr → Prop
  | new (E : Env) (k : Nat) (d : freesasa_result_node) (c n : NodePtr) (k1 : Nat) :
      freesasa_result_tree_new E k = (node d c n, k1) → result_tree (node d c n)
  | add (E : Env) (tree : NodePtr) (R : freesasa_result) (S : freesasa_structure)
      (name : Option String) (k : Nat) (tree1 : NodePtr) (k1 : Nat) :
      result_tree tree →
      freesasa_result_tree_add_result E tree R S name k = some (FREESASA_SUCCESS, tree1, k1) →
      result_tree tree1

/-- A property of area records that every atom area has, that the null area has under any
name, and that `freesasa_add_nodearea` keeps. -/
def area_invariant (Q : freesasa_nodearea → Prop) : Prop :=
  (∀ (E : Env) (g : freesasa_nodearea) (S : freesasa_structure) (R : freesasa_result)
      (i : Int), Q (freesasa_atom_nodearea E g S R i)) ∧
  (∀ name : Option String, Q { freesasa_nodearea_null with name := name }) ∧
  (∀ s t : freesasa_nodearea, Q s → Q t → Q (freesasa_add_nodearea s t))

/-- The area of the node, if it has one, satisfies `Q`. -/
def node_area_ok (Q : freesasa_nodearea → Prop) (d : freesasa_result_node) : Prop :=
  ∀ a, d.area = some a → Q a

/-- Every node a generator returns, and every node below it, has an area that satisfies
`Q` if it has one. -/
def gen_areas_ok (Q : freesasa_nodearea → Prop) (ng : node_generator)
    (S : freesasa_structure) (R : freesasa_result) : Prop :=
  ∀ (i : Int) (k : Nat) (d : freesasa_result_node) (c n : NodePtr) (k1 : Nat),
    ng S R i k = some (node d c n, k1) →
    node_area_ok Q d ∧ ∀ e ∈ all_nodes c, node_area_ok Q e

/-! ## Views used to state the aggregation and generation contracts -/

/-- The area records of the nodes of a sibling chain that have one, in order. -/
def child_areas (p : NodePtr) : List freesasa_nodearea :=
  (sibling_list p).filterMap (fun x => x.1.area)

/-- Calls the generator on the `n` indices from `i` on, in ascending order, each call
starting from the counter the one before left.  Returns the fields and the `children`
pointer of each node generated, `none` as soon as a call returns `NULL` or ends
abnormally. -/
def generate_in_order (ng : node_generator) (S : freesasa_structure) (R : freesasa_result) :
    Nat → Int → Nat → Option (List (freesasa_result_node × NodePtr) × Nat)
  | 0, _, k => some ([], k)
  | n + 1, i, k =>
    match ng S R i k with
    | some (node d children _, k1) =>
      match generate_in_order ng S R n (i + 1) k1 with
      | some (l, k2) => some ((d, children) :: l, k2)
      | none => none
    | _ => none

/-- The sibling chain made of the nodes of the list in order, each with its parent set to
the address `parent`; the last one has no next sibling. -/
def link_children (parent : Nat) : List (freesasa_result_node × NodePtr) → NodePtr
  | [] => NULL
  | (d, children) :: l => node { d with parent := some parent } children (link_children parent l)

/-- As `small_structure`, with the two chains "A" (residue 0) and "B" (residue 1). -/
def two_chain_structure : freesasa_structure :=
  { small_structure with
    chain_labels := "AB"
    chain_residues := fun ch => if ch = 'A' then (0, 0) else (1, 1)
    n_chains := 2 }

/-- The child list of the structure node of `two_chain_structure` built at address `k`:
chain "A" at `k + 3`, then chain "B" at `k + 16`. -/
def two_chain_children (k : Nat) : NodePtr :=
  node (small_chain (k + 3) (some k)) (small_chain_children (k + 3))
    (node { small_chain (k + 16) (some k) with
            name := some "B", area := some (small_area "B" 6) }
      (small_chain_children (k + 16)) NULL)

/-- The fields of the structure node of `two_chain_structure` built at address `k`. -/
def two_chain_struct (k : Nat) : freesasa_result_node :=
  { addr := k, name := some "AB", type := FREESASA_NODE_STRUCTURE,
    prop := structure_prop 2 (some "AB"), area := some (small_area "AB" 12), parent := none }

/-- A structure shaped like the one of the test: one chain "A" of 76 residues with 8 atoms
each; residue 0 is "MET" with number "1" and atom 0 is "N", polar, of radius 2. -/
def ubq_structure : freesasa_structure where
  atom_name := fun i => if i = 0 then "N" else "CA"
  atom_class := fun i => if i = 0 then FREESASA_ATOM_POLAR else FREESASA_ATOM_APOLAR
  atom_radius := fun _ => 2
  residue_name := fun r => if r = 0 then "MET" else "GLY"
  residue_number := fun r => if r = 0 then "1" else "2"
  residue_atoms := fun r => (8 * r, 8 * r + 7)
  residue_reference := fun _ => none
  chain_labels := "A"
  chain_residues := fun _ => (0, 75)
  n_chains := 1
  classifier_name := "classifier"

/-- The trees produced by `freesasa_result_tree_new` followed by successful calls of
`freesasa_result_tree_add_result` and of `freesasa_result_tree_join`. -/
inductive joined_tree : NodePtr → Prop
  | new (E : Env) (k : Nat) (d : freesasa_result_node) (c n : NodePtr) (k1 : Nat) :
      freesasa_result_tree_new E k = (node d c n, k1) → joined_tree (node d c n)
  | add (E : Env) (tree : NodePtr) (R : freesasa_result) (S : freesasa_structure)
      (name : Option String) (k : Nat) (tree1 : NodePtr) (k1 : Nat) :
      joined_tree tree →
      freesasa_result_tree_add_result E tree R S name k = some (FREESASA_SUCCESS, tree1, k1) →
      joined_tree tree1
  | join (tree1 tree2 : NodePtr) (st : Int) (t1 h2 : NodePtr) :
      joined_tree tree1 → joined_tree tree2 →
      freesasa_result_tree_join tree1 (some tree2) = some (st, t1, h2) →
      joined_tree t1

/-- What holds of the area of every node of a built tree: a node that has an area is a
structure, chain, residue or atom node, and an atom node has an area. -/
def area_by_type (d : freesasa_result_node) : Prop :=
  (d.area ≠ none →
    d.type = FREESASA_NODE_STRUCTURE ∨ d.type = FREESASA_NODE_CHAIN ∨
    d.type = FREESASA_NODE_RESIDUE ∨ d.type = FREESASA_NODE_ATOM) ∧
  (d.type = FREESASA_NODE_ATOM → d.area ≠ none)

/-- Every node a generator returns, and every node below it, satisfies `P`. -/
def gen_nodes_ok (P : freesasa_result_node → Prop) (ng : node_generator)
    (S : freesasa_structure) (R : freesasa_result) : Prop :=
  ∀ (i : Int) (k : Nat) (d : freesasa_result_node) (c n : NodePtr) (k1 : Nat),
    ng S R i k = some (node d c n, k1) → P d ∧ ∀ e ∈ all_nodes c, P e

/-- Every node of the sibling chain and below it has as parent the node whose child list
holds it, when the chain is the child list of the node at address `q`. -/
def parents_ok : NodePtr → Nat → Prop
  | NULL, _ => True
  | node d children next, q =>
    d.parent = some q ∧ parents_ok children d.addr ∧ parents_ok next q

/-- As `small_structure`, with a reference area of total 10 for every residue. -/
def ref_structure : freesasa_structure :=
  { small_structure with residue_reference := fun _ => some (small_area "MET" 10) }

/-- The fields of the residue node of `ref_structure` built at address `k`. -/
def ref_residue (k : Nat) : freesasa_result_node :=
  { small_residue k none with
    prop := residue_prop (some (small_area "MET" 10)) (some "1") 2 }

/-- As `small_structure`, with the empty atom range [0,-1] for every residue. -/
def empty_range_structure : freesasa_structure :=
  { small_structure with residue_atoms := fun _ => (0, -1) }

/-- The fields of the residue node of `empty_range_structure` built at address `k`: atom
count 0 and the area of its one atom. -/
def empty_range_residue (k : Nat) : freesasa_result_node :=
  { small_residue k none with
    prop := residue_prop none (some "1") 0, area := some (small_area "MET" 3) }

/-- The root `empty_root` carrying the null area record. -/
def root_with_null_area : NodePtr :=
  node { addr := 0, name := none, type := FREESASA_NODE_ROOT, prop := zero_prop,
         area := some freesasa_nodearea_null, parent := none } NULL NULL

/-- As `small_structure`, with atom 0 of class unknown and the other atoms polar. -/
def mixed_class_structure : freesasa_structure :=
  { small_structure with
    atom_class := fun i => if i = 0 then FREESASA_ATOM_UNKNOWN else FREESASA_ATOM_POLAR }

/-- As `small_structure`, with the side-chain atom name "CB" for every atom. -/
def side_chain_structure : freesasa_structure :=
  { small_structure with atom_name := fun _ => "CB" }

/-- A result in which every atom is buried: area 0. -/
def buried_result : freesasa_result where
  sasa := fun _ => 0

/-- The fields of the atom node of `side_chain_structure` and `buried_result` built at
address `k`. -/
def buried_atom (k : Nat) : freesasa_result_node :=
  { addr := k, name := some "CB", type := FREESASA_NODE_ATOM, prop := atom_prop 1 0 2,
    area := some { name := some "CB", total := 0, main_chain := 0, side_chain := 0,
                   polar := 0, apolar := 0, unknown := 0 },
    parent := none }

/-- A residue node at address 0 without children, as `result_node_residue` has it when it
calls `result_node_gen_children`. -/
def childless_residue : NodePtr :=
  node { small_residue 0 none with area := none } NULL NULL

/-- The node `childless_residue` with the one atom child built at address 3. -/
def residue_with_one_atom : NodePtr :=
  node { small_residue 0 none with area := none }
    (node (small_atom 3 (some 0)) NULL NULL) NULL

/-! ## Lemmas on node creation, aggregation and child generation -/

theorem result_node_new_node (E : Env) (name : Option String) (k : Nat)
    (d : freesasa_result_node) (c n : NodePtr) (k1 : Nat)
    (h : result_node_new E name k = (node d c n, k1)) :
    d = { addr := k, name := name, type := FREESASA_NODE_ATOM, prop := zero_prop,
          area := none, parent := none } ∧ c = NULL ∧ n = NULL := by
  unfold result_node_new at h
  split at h
  · simp at h
  · split at h
    · simp at h
      obtain ⟨⟨h1, h2, h3⟩, _⟩ := h
      exact ⟨h1.symm, h2.symm, h3.symm⟩
    · split at h
      · simp at h
      · simp at h
        obtain ⟨⟨h1, h2, h3⟩, _⟩ := h
        exact ⟨h1.symm, h2.symm, h3.symm⟩

theorem result_node_add_area_node (E : Env) (d : freesasa_result_node) (c n : NodePtr)
    (k : Nat) (st : Int) (p : NodePtr) (k1 : Nat)
    (h : result_node_add_area E (node d c n) k = some (st, p, k1)) :
    ∃ a, p = node { d with area := a } c n := by
  unfold result_node_add_area at h
  simp only at h
  split at h
  · simp at h
    exact ⟨d.area, by rw [← h.2.1]⟩
  · split at h
    · simp at h
      exact ⟨none, h.2.1.symm⟩
    · split at h
      · simp at h
      · rename_i a _
        simp at h
        exact ⟨some a, h.2.1.symm⟩

theorem gen_children_loop_length (ng : node_generator) (S : freesasa_structure)
    (R : freesasa_result) (parent : Nat) :
    ∀ (n : Nat) (i : Int) (k : Nat) (rest : NodePtr) (k1 : Nat),
      gen_children_loop ng S R parent n i k = some (true, rest, k1) →
      (sibling_list rest).length = n := by
  intro n
  induction n with
  | zero =>
    intro i k rest k1 h
    simp [gen_children_loop] at h
    rw [← h.1]; rfl
  | succ n ih =>
    intro i k rest k1 h
    rw [gen_children_loop] at h
    split at h
    · simp at h
    · simp at h
    · split at h
      · simp at h
      · rename_i ok rest1 k2 heq
        simp at h
        obtain ⟨h1, h2, _⟩ := h
        subst h1
        rw [← h2]
        simp [sibling_list, ih _ _ _ _ heq]

theorem gen_children_inv (E : Env) (pd : freesasa_result_node) (pc pn : NodePtr)
    (S : freesasa_structure) (R : freesasa_result) (first last : Int) (ng : node_generator)
    (k : Nat) (p : NodePtr) (k1 : Nat)
    (h : result_node_gen_children E (node pd pc pn) S R first last ng k = some (true, p, k1)) :
    ∃ fd fc fn k2 rest k3 st,
      ng S R first k = some (node fd fc fn, k2) ∧
      gen_children_loop ng S R pd.addr (last - first).toNat (first + 1) k2
        = some (true, rest, k3) ∧
      result_node_add_area E
        (node pd (node { fd with parent := some pd.addr } fc rest) pn) k3 = some (st, p, k1) := by
  unfold result_node_gen_children at h
  split at h
  · simp at h
  · simp at h
  · rename_i fd fc fn k2 hng
    simp only at h
    split at h
    · simp at h
    · simp at h
    · rename_i rest k3 hloop
      split at h
      · simp at h
      · rename_i st p1 k4 harea
        simp at h
        obtain ⟨h1, h2⟩ := h
        subst h1 h2
        exact ⟨fd, fc, fn, k2, rest, k3, st, hng, hloop, harea⟩

theorem gen_children_success (E : Env) (pd : freesasa_result_node) (pc pn : NodePtr)
    (S : freesasa_structure) (R : freesasa_result) (first last : Int) (ng : node_generator)
    (k : Nat) (p : NodePtr) (k1 : Nat)
    (h : result_node_gen_children E (node pd pc pn) S R first last ng k = some (true, p, k1)) :
    ∃ a c, p = node { pd with area := a } c pn ∧
      (sibling_list c).length = (last - first).toNat + 1 ∧
      ∃ fd fc fn k2, ng S R first k = some (node fd fc fn, k2) := by
  obtain ⟨fd, fc, fn, k2, rest, k3, st, hng, hloop, harea⟩ :=
    gen_children_inv _ _ _ _ _ _ _ _ _ _ _ _ h
  obtain ⟨a, ha⟩ := result_node_add_area_node _ _ _ _ _ _ _ _ harea
  refine ⟨a, _, ha, ?_, fd, fc, fn, k2, hng⟩
  simp [sibling_list, gen_children_loop_length _ _ _ _ _ _ _ _ _ hloop]

theorem result_node_residue_inv (E : Env) (S : freesasa_structure) (R : freesasa_result)
    (r : Int) (k : Nat) (d : freesasa_result_node) (c n : NodePtr) (k1 : Nat)
    (h : result_node_residue E S R r k = some (node d c n, k1)) :
    ∃ k2, result_node_gen_children E
        (node { addr := k, name := some (S.residue_name r), type := FREESASA_NODE_RESIDUE,
                prop := residue_prop (S.residue_reference r) (some (S.residue_number r))
                  ((S.residue_atoms r).2 - (S.residue_atoms r).1 + 1),
                area := none, parent := none } NULL NULL)
        S R (S.residue_atoms r).1 (S.residue_atoms r).2 (result_node_atom E) k2
      = some (true, node d c n, k1) := by
  unfold result_node_residue at h
  simp only at h
  split at h
  · simp at h
  · rename_i d0 c0 n0 k0 hnew
    obtain ⟨hd, hc, hn⟩ := result_node_new_node _ _ _ _ _ _ _ hnew
    subst hd hc hn
    split at h
    · simp at h
    · split at h
      · rename_i ref href
        split at h
        · simp at h
        · split at h
          · simp at h
          · simp at h
          · rename_i p k2 hgen
            simp at h
            obtain ⟨h1, h2⟩ := h
            subst h1 h2
            rw [href]
            exact ⟨_, hgen⟩
      · rename_i href
        split at h
        · simp at h
        · simp at h
        · rename_i p k2 hgen
          simp at h
          obtain ⟨h1, h2⟩ := h
          subst h1 h2
          rw [href]
          exact ⟨_, hgen⟩

theorem result_node_chain_inv (E : Env) (S : freesasa_structure) (R : freesasa_result)
    (i : Int) (k : Nat) (d : freesasa_result_node) (c n : NodePtr) (k1 : Nat)
    (h : result_node_chain E S R i k = some (node d c n, k1)) :
    ∃ ch k2, chain_label S.chain_labels i = some ch ∧
      result_node_gen_children E
        (node { addr := k, name := some (String.singleton ch), type := FREESASA_NODE_CHAIN,
                prop := chain_prop ((S.chain_residues ch).2 - (S.chain_residues ch).1 + 1),
                area := none, parent := none } NULL NULL)
        S R (S.chain_residues ch).1 (S.chain_residues ch).2 (result_node_residue E) k2
      = some (true, node d c n, k1) := by
  unfold result_node_chain at h
  simp only at h
  split at h
  · simp at h
  · rename_i ch hch
    split at h
    · simp at h
    · rename_i d0 c0 n0 k0 hnew
      obtain ⟨hd, hc, hn⟩ := result_node_new_node _ _ _ _ _ _ _ hnew
      subst hd hc hn
      split at h
      · simp at h
      · simp at h
      · rename_i p k2 hgen
        simp at h
        obtain ⟨h1, h2⟩ := h
        subst h1 h2
        exact ⟨ch, _, hch, hgen⟩

theorem result_node_structure_inv (E : Env) (S : freesasa_structure) (R : freesasa_result)
    (i : Int) (k : Nat) (d : freesasa_result_node) (c n : NodePtr) (k1 : Nat)
    (h : result_node_structure E S R i k = some (node d c n, k1)) :
    ∃ k2, result_node_gen_children E
        (node { addr := k, name := some S.chain_labels, type := FREESASA_NODE_STRUCTURE,
                prop := structure_prop S.n_chains (some S.chain_labels),
                area := none, parent := none } NULL NULL)
        S R 0 (S.n_chains - 1) (result_node_chain E) k2
      = some (true, node d c n, k1) := by
  unfold result_node_structure at h
  simp only at h
  split at h
  · simp at h
  · rename_i d0 c0 n0 k0 hnew
    obtain ⟨hd, hc, hn⟩ := result_node_new_node _ _ _ _ _ _ _ hnew
    subst hd hc hn
    split at h
    · simp at h
    · split at h
      · simp at h
      · simp at h
      · rename_i p k2 hgen
        simp at h
        obtain ⟨h1, h2⟩ := h
        subst h1 h2
        exact ⟨_, hgen⟩

theorem join_last_list (d : freesasa_result_node) :
    ∀ (c n tail : NodePtr),
      sibling_list (join_last (node d c n) tail) = sibling_list (node d c n) ++ sibling_list tail := by
  intro c n
  induction n generalizing d c with
  | NULL => intro tail; simp [join_last, sibling_list]
  | node d1 c1 n1 _ ih2 =>
    intro tail
    rw [join_last]
    simp only [sibling_list, List.cons_append, List.cons.injEq, true_and]
    have := ih2 d1 c1 tail
    simpa [sibling_list] using this

theorem free_siblings_mem (x : Nat) :
    ∀ p : NodePtr, x ∈ free_siblings p ↔ x ∈ (all_nodes p).map (fun d => d.addr) := by
  intro p
  induction p with
  | NULL => simp [free_siblings, all_nodes]
  | node d c n ihc ihn =>
    simp only [free_siblings, all_nodes, List.mem_append, List.map_cons, List.map_append,
      List.mem_cons, ihc, ihn, List.mem_singleton]
    tauto

/-! ## Aggregation: the total of a node is the sum over its atom leaves -/

theorem index_sum_congr (f g : Int → ℚ) :
    ∀ (n : Nat) (i : Int), (∀ j, i ≤ j → j < i + n → f j = g j) →
      index_sum f n i = index_sum g n i := by
  intro n
  induction n with
  | zero => intro i _; rfl
  | succ n ih =>
    intro i h
    simp only [index_sum]
    rw [h i (le_refl _) (by push_cast; omega), ih (i + 1)]
    intro j h1 h2
    exact h j (by omega) (by push_cast; omega)

theorem add_children_area_total :
    ∀ (p : NodePtr) (sum a : freesasa_nodearea),
      add_children_area sum p = some a → areas_ok p →
      a.total = sum.total + leaf_total p := by
  intro p
  induction p with
  | NULL =>
    intro sum a h _
    simp [add_children_area] at h
    simp [leaf_total, h]
  | node d c n _ ihn =>
    intro sum a h hok
    rw [add_children_area] at h
    split at h
    · simp at h
    · rename_i term hterm
      have hn : areas_ok n := by
        intro x hx
        exact hok x (by simp [sibling_list, hx])
      have ht : term.total = node_leaf_total d c :=
        hok (d, c) (by simp [sibling_list]) term hterm
      rw [ihn _ _ h hn]
      simp only [freesasa_add_nodearea, leaf_total]
      rw [ht]
      simp only [node_leaf_total]
      ring

theorem result_node_add_area_inv (E : Env) (d : freesasa_result_node) (c n : NodePtr)
    (k : Nat) (st : Int) (p : NodePtr) (k1 : Nat)
    (h : result_node_add_area E (node d c n) k = some (st, p, k1)) :
    ∃ a1, p = node { d with area := a1 } c n ∧
      (a1 = d.area ∨ a1 = none ∨
        ∃ a, a1 = some a ∧
          add_children_area { freesasa_nodearea_null with name := d.name } c = some a) := by
  unfold result_node_add_area at h
  simp only at h
  split at h
  · simp at h
    exact ⟨d.area, by rw [← h.2.1], Or.inl rfl⟩
  · split at h
    · simp at h
      exact ⟨none, h.2.1.symm, Or.inr (Or.inl rfl)⟩
    · split at h
      · simp at h
      · rename_i a ha
        simp at h
        exact ⟨some a, h.2.1.symm, Or.inr (Or.inr ⟨a, rfl, ha⟩)⟩

theorem gen_children_loop_total (ng : node_generator) (S : freesasa_structure)
    (R : freesasa_result) (f : Int → ℚ) (hng : gen_ok ng S R f) (parent : Nat) :
    ∀ (n : Nat) (i : Int) (k : Nat) (rest : NodePtr) (k1 : Nat),
      gen_children_loop ng S R parent n i k = some (true, rest, k1) →
      leaf_total rest = index_sum f n i ∧ areas_ok rest := by
  intro n
  induction n with
  | zero =>
    intro i k rest k1 h
    simp [gen_children_loop] at h
    rw [← h.1]
    exact ⟨rfl, by intro x hx; simp [sibling_list] at hx⟩
  | succ n ih =>
    intro i k rest k1 h
    rw [gen_children_loop] at h
    split at h
    · simp at h
    · simp at h
    · rename_i d c nx k2 hgen
      split at h
      · simp at h
      · rename_i ok rest1 k3 heq
        simp at h
        obtain ⟨h1, h2, _⟩ := h
        subst h1
        obtain ⟨htot, hok⟩ := ih _ _ _ _ heq
        obtain ⟨hleaf, harea⟩ := hng _ _ _ _ _ _ hgen
        rw [← h2]
        constructor
        · simp only [leaf_total, index_sum, htot]
          have : node_leaf_total d c = f i := hleaf
          simp only [node_leaf_total, area_total] at this
          simp only [area_total]
          rw [this]
        · intro x hx
          simp only [sibling_list, List.mem_cons] at hx
          rcases hx with hx | hx
          · subst hx
            intro a ha
            have h3 := harea a ha
            rw [h3, ← hleaf]
            rfl
          · exact hok x hx

theorem gen_children_total (E : Env) (ng : node_generator) (S : freesasa_structure)
    (R : freesasa_result) (f : Int → ℚ) (hng : gen_ok ng S R f)
    (pd : freesasa_result_node) (pc pn : NodePtr) (first last : Int) (k : Nat)
    (d : freesasa_result_node) (c n : NodePtr) (k1 : Nat)
    (hty : pd.type ≠ FREESASA_NODE_ATOM) (hpa : pd.area = none)
    (h : result_node_gen_children E (node pd pc pn) S R first last ng k
      = some (true, node d c n, k1)) :
    d.type = pd.type ∧ d.prop = pd.prop ∧ d.name = pd.name ∧ d.addr = pd.addr ∧ n = pn ∧
    leaf_total c = index_sum f ((last - first).toNat + 1) first ∧
    node_leaf_total d c = index_sum f ((last - first).toNat + 1) first ∧
    ∀ a, d.area = some a → a.total = index_sum f ((last - first).toNat + 1) first := by
  obtain ⟨fd, fc, fn, k2, rest, k3, st, hfirst, hloop, harea⟩ :=
    gen_children_inv _ _ _ _ _ _ _ _ _ _ _ _ h
  obtain ⟨htot, hok⟩ := gen_children_loop_total ng S R f hng _ _ _ _ _ _ hloop
  obtain ⟨hleaf, hfa⟩ := hng _ _ _ _ _ _ hfirst
  obtain ⟨a1, hp, ha1⟩ := result_node_add_area_inv _ _ _ _ _ _ _ _ harea
  simp only [node.injEq] at hp
  obtain ⟨hd, hc, hn⟩ := hp
  subst hd hc hn
  have hc : leaf_total (node { fd with parent := some pd.addr } fc rest)
      = index_sum f ((last - first).toNat + 1) first := by
    simp only [leaf_total, index_sum, htot]
    have : node_leaf_total fd fc = f first := hleaf
    simp only [node_leaf_total, area_total] at this
    simp only [area_total]
    rw [this]
  have hcok : areas_ok (node { fd with parent := some pd.addr } fc rest) := by
    intro x hx
    simp only [sibling_list, List.mem_cons] at hx
    rcases hx with hx | hx
    · subst hx
      intro a ha
      have h3 := hfa a ha
      rw [h3, ← hleaf]
      rfl
    · exact hok x hx
  refine ⟨rfl, rfl, rfl, rfl, rfl, hc, ?_, ?_⟩
  · simp only [node_leaf_total, hty, if_false]
    exact hc
  · intro a ha
    simp only at ha
    rcases ha1 with h1 | h1 | ⟨a2, h1, h2⟩
    · rw [h1, hpa] at ha; simp at ha
    · rw [h1] at ha; simp at ha
    · rw [h1] at ha
      simp only [Option.some.injEq] at ha
      subst ha
      rw [add_children_area_total _ _ _ h2 hcok, hc]
      simp [freesasa_nodearea_null]

theorem freesasa_atom_nodearea_total (E : Env) (area : freesasa_nodearea)
    (S : freesasa_structure) (R : freesasa_result) (i : Int) :
    (freesasa_atom_nodearea E area S R i).total = R.sasa i := by
  unfold freesasa_atom_nodearea
  simp only
  split <;> split <;> rfl

theorem atom_gen_ok (E : Env) (S : freesasa_structure) (R : freesasa_result) :
    gen_ok (result_node_atom E) S R R.sasa := by
  intro i k d c n k1 h
  unfold result_node_atom at h
  simp only at h
  split at h
  · simp at h
  · rename_i d0 c0 n0 k0 hnew
    obtain ⟨hd, hc, hn⟩ := result_node_new_node _ _ _ _ _ _ _ hnew
    subst hd hc hn
    split at h
    · simp at h
    · simp at h
      obtain ⟨⟨hd, _, _⟩, _⟩ := h
      subst hd
      constructor
      · simp [node_leaf_total, area_total, freesasa_atom_nodearea_total]
      · intro a ha
        simp only [Option.some.injEq] at ha
        rw [← ha, freesasa_atom_nodearea_total]

theorem residue_gen_ok (E : Env) (S : freesasa_structure) (R : freesasa_result) :
    gen_ok (result_node_residue E) S R (residue_gen_sasa S R) := by
  intro i k d c n k1 h
  obtain ⟨k2, hgen⟩ := result_node_residue_inv _ _ _ _ _ _ _ _ _ h
  obtain ⟨_, _, _, _, _, _, h1, h2⟩ :=
    gen_children_total E _ S R _ (atom_gen_ok E S R) _ _ _ _ _ _ _ _ _ _
      (by simp) rfl hgen
  exact ⟨h1, h2⟩

theorem chain_gen_ok (E : Env) (S : freesasa_structure) (R : freesasa_result) :
    gen_ok (result_node_chain E) S R (chain_index_gen_sasa S R) := by
  intro i k d c n k1 h
  obtain ⟨ch, k2, hch, hgen⟩ := result_node_chain_inv _ _ _ _ _ _ _ _ _ h
  obtain ⟨_, _, _, _, _, _, h1, h2⟩ :=
    gen_children_total E _ S R _ (residue_gen_ok E S R) _ _ _ _ _ _ _ _ _ _
      (by simp) rfl hgen
  simp only [chain_index_gen_sasa, hch]
  exact ⟨h1, h2⟩

theorem structure_gen_ok (E : Env) (S : freesasa_structure) (R : freesasa_result) :
    gen_ok (result_node_structure E) S R (fun _ => structure_gen_sasa S R) := by
  intro i k d c n k1 h
  obtain ⟨k2, hgen⟩ := result_node_structure_inv _ _ _ _ _ _ _ _ _ h
  obtain ⟨_, _, _, _, _, _, h1, h2⟩ :=
    gen_children_total E _ S R _ (chain_gen_ok E S R) _ _ _ _ _ _ _ _ _ _
      (by simp) rfl hgen
  exact ⟨h1, h2⟩

theorem gen_count_nonempty (r : Int × Int) (h : r.1 ≤ r.2) : gen_count r = range_count r := by
  unfold gen_count range_count
  omega

theorem structure_gen_sasa_eq (S : freesasa_structure) (R : freesasa_result)
    (hr : ranges_nonempty S) : structure_gen_sasa S R = structure_sasa S R := by
  obtain ⟨hn, hch⟩ := hr
  unfold structure_gen_sasa structure_sasa
  have hcount : gen_count (0, S.n_chains - 1) = S.n_chains.toNat := by
    unfold gen_count
    simp only
    omega
  rw [hcount]
  apply index_sum_congr
  intro j hj0 hj1
  unfold chain_index_gen_sasa chain_index_sasa
  cases hl : chain_label S.chain_labels j with
  | none => rfl
  | some ch =>
    simp only
    obtain ⟨hres, hat⟩ := hch j ch hj0 (by omega) hl
    unfold chain_gen_sasa chain_sasa
    rw [gen_count_nonempty _ hres]
    apply index_sum_congr
    intro r hr0 hr1
    unfold residue_gen_sasa residue_sasa
    rw [gen_count_nonempty]
    apply hat r hr0
    unfold range_count at hr1
    omega

theorem add_result_inv (E : Env) (tree : NodePtr) (R : freesasa_result)
    (S : freesasa_structure) (name : Option String) (k : Nat) (tree1 : NodePtr) (k1 : Nat)
    (h : freesasa_result_tree_add_result E tree R S name k
      = some (FREESASA_SUCCESS, tree1, k1)) :
    ∃ td tc tn rd rc rn k2, tree = node td tc tn ∧ tree1 = node td (node rd rc tc) tn ∧
      result_node_gen_children E
        (node { addr := k, name := name, type := FREESASA_NODE_RESULT,
                prop := result_prop (some S.classifier_name) 1, area := none,
                parent := none } NULL NULL)
        S R 0 0 (result_node_structure E) k2 = some (true, node rd rc rn, k1) := by
  unfold freesasa_result_tree_add_result at h
  simp only at h
  split at h
  · simp [FREESASA_SUCCESS, FREESASA_FAIL] at h
  · rename_i d0 c0 n0 k0 hnew
    obtain ⟨hd, hc, hn⟩ := result_node_new_node _ _ _ _ _ _ _ hnew
    subst hd hc hn
    split at h
    · simp [FREESASA_SUCCESS, FREESASA_FAIL] at h
    · split at h
      · simp at h
      · simp [FREESASA_SUCCESS, FREESASA_FAIL] at h
      · simp at h
      · rename_i rd rc rn k2 hgen
        split at h
        · simp at h
        · rename_i td tc tn
          simp at h
          obtain ⟨h1, h2⟩ := h
          subst h1 h2
          exact ⟨td, tc, tn, rd, rc, rn, _, rfl, rfl, hgen⟩

/-- Aggregation, whenever the structure node has an area: after a successful
`freesasa_result_tree_add_result` the new first child of the root is a run node whose only
child is a structure node; if that node has an area, its total is the sum of the totals of
the atom leaves below it, and when every range is non-empty it is the sum of `sasa[i]`
over the atoms of the residues of the chains. -/
theorem structure_total_is_leaf_sum (E : Env) (tree : NodePtr) (R : freesasa_result)
    (S : freesasa_structure) (name : Option String) (k : Nat) (tree1 : NodePtr) (k1 : Nat)
    (h : freesasa_result_tree_add_result E tree R S name k
      = some (FREESASA_SUCCESS, tree1, k1)) :
    ∃ td tc tn rd sd sc,
      tree = node td tc tn ∧ tree1 = node td (node rd (node sd sc NULL) tc) tn ∧
      rd.type = FREESASA_NODE_RESULT ∧ sd.type = FREESASA_NODE_STRUCTURE ∧
      ∀ a, sd.area = some a →
        a.total = leaf_total sc ∧ (ranges_nonempty S → a.total = structure_sasa S R) := by
  obtain ⟨td, tc, tn, rd, rc, rn, k2, ht, ht1, hgen⟩ := add_result_inv _ _ _ _ _ _ _ _ h
  obtain ⟨fd, fc, fn, k3, rest, k4, st, hfirst, hloop, harea⟩ :=
    gen_children_inv _ _ _ _ _ _ _ _ _ _ _ _ hgen
  simp only [sub_self, Int.toNat_zero, gen_children_loop, Option.some.injEq, Prod.mk.injEq,
    true_and] at hloop
  obtain ⟨hrest, _⟩ := hloop
  subst hrest
  obtain ⟨a1, hp, _⟩ := result_node_add_area_inv _ _ _ _ _ _ _ _ harea
  simp only [node.injEq] at hp
  obtain ⟨hrd, hrc, _⟩ := hp
  obtain ⟨k5, hsgen⟩ := result_node_structure_inv _ _ _ _ _ _ _ _ _ hfirst
  obtain ⟨hty, _, _, _, _, hleaf, _, hsa⟩ :=
    gen_children_total E _ S R _ (chain_gen_ok E S R) _ _ _ _ _ _ _ _ _ _
      (by simp) rfl hsgen
  refine ⟨td, tc, tn, rd, { fd with parent := some k }, fc, ht, ?_, ?_, hty, ?_⟩
  · rw [ht1, hrc]
  · rw [hrd]
  · intro a ha
    have h1 := hsa a ha
    refine ⟨by rw [h1, hleaf], ?_⟩
    intro hr
    rw [h1, ← structure_gen_sasa_eq S R hr]
    rfl

/-! ## Invariants of the area records of a built tree -/

theorem add_children_area_keeps (Q : freesasa_nodearea → Prop) (hQ : area_invariant Q) :
    ∀ (p : NodePtr) (sum a : freesasa_nodearea),
      add_children_area sum p = some a → Q sum →
      (∀ x ∈ sibling_list p, node_area_ok Q x.1) → Q a := by
  intro p
  induction p with
  | NULL =>
    intro sum a h hs _
    simp [add_children_area] at h
    rw [← h]; exact hs
  | node d c n _ ihn =>
    intro sum a h hs hall
    rw [add_children_area] at h
    split at h
    · simp at h
    · rename_i term hterm
      apply ihn _ _ h
      · exact hQ.2.2 _ _ hs (hall (d, c) (by simp [sibling_list]) term hterm)
      · intro x hx
        exact hall x (by simp [sibling_list, hx])

theorem sibling_list_subset_all_nodes :
    ∀ (p : NodePtr) (x : freesasa_result_node × NodePtr),
      x ∈ sibling_list p → x.1 ∈ all_nodes p := by
  intro p
  induction p with
  | NULL => intro x hx; simp [sibling_list] at hx
  | node d c n _ ihn =>
    intro x hx
    simp only [sibling_list, List.mem_cons] at hx
    simp only [all_nodes, List.mem_cons, List.mem_append]
    rcases hx with hx | hx
    · left; rw [hx]
    · right; right; exact ihn x hx

theorem gen_children_loop_areas (Q : freesasa_nodearea → Prop) (ng : node_generator)
    (S : freesasa_structure) (R : freesasa_result) (hng : gen_areas_ok Q ng S R)
    (parent : Nat) :
    ∀ (n : Nat) (i : Int) (k : Nat) (ok : Bool) (rest : NodePtr) (k1 : Nat),
      gen_children_loop ng S R parent n i k = some (ok, rest, k1) →
      ∀ e ∈ all_nodes rest, node_area_ok Q e := by
  intro n
  induction n with
  | zero =>
    intro i k ok rest k1 h
    simp [gen_children_loop] at h
    rw [← h.2.1]
    intro e he
    simp [all_nodes] at he
  | succ n ih =>
    intro i k ok rest k1 h
    rw [gen_children_loop] at h
    split at h
    · simp at h
    · simp at h
      rw [← h.2.1]
      intro e he
      simp [all_nodes] at he
    · rename_i d c nx k2 hgen
      split at h
      · simp at h
      · rename_i ok1 rest1 k3 heq
        simp at h
        obtain ⟨_, h2, _⟩ := h
        obtain ⟨hd, hc⟩ := hng _ _ _ _ _ _ hgen
        rw [← h2]
        intro e he
        simp only [all_nodes, List.mem_cons, List.mem_append] at he
        rcases he with he | he | he
        · rw [he]; exact hd
        · exact hc e he
        · exact ih _ _ _ _ _ heq e he

theorem gen_children_areas (Q : freesasa_nodearea → Prop) (hQ : area_invariant Q) (E : Env)
    (ng : node_generator) (S : freesasa_structure) (R : freesasa_result)
    (hng : gen_areas_ok Q ng S R) (pd : freesasa_result_node) (pc pn : NodePtr)
    (first last : Int) (k : Nat) (d : freesasa_result_node) (c n : NodePtr) (k1 : Nat)
    (hpa : pd.area = none)
    (h : result_node_gen_children E (node pd pc pn) S R first last ng k
      = some (true, node d c n, k1)) :
    node_area_ok Q d ∧ ∀ e ∈ all_nodes c, node_area_ok Q e := by
  obtain ⟨fd, fc, fn, k2, rest, k3, st, hfirst, hloop, harea⟩ :=
    gen_children_inv _ _ _ _ _ _ _ _ _ _ _ _ h
  obtain ⟨hfd, hfc⟩ := hng _ _ _ _ _ _ hfirst
  have hrest := gen_children_loop_areas Q ng S R hng _ _ _ _ _ _ _ hloop
  obtain ⟨a1, hp, ha1⟩ := result_node_add_area_inv _ _ _ _ _ _ _ _ harea
  simp only [node.injEq] at hp
  obtain ⟨hd, hc, _⟩ := hp
  subst hd hc
  have hall : ∀ e ∈ all_nodes (node { fd with parent := some pd.addr } fc rest),
      node_area_ok Q e := by
    intro e he
    simp only [all_nodes, List.mem_cons, List.mem_append] at he
    rcases he with he | he | he
    · rw [he]; exact hfd
    · exact hfc e he
    · exact hrest e he
  refine ⟨?_, hall⟩
  intro a ha
  simp only at ha
  rcases ha1 with h1 | h1 | ⟨a2, h1, h2⟩
  · rw [h1, hpa] at ha; simp at ha
  · rw [h1] at ha; simp at ha
  · rw [h1] at ha
    simp only [Option.some.injEq] at ha
    subst ha
    apply add_children_area_keeps Q hQ _ _ _ h2 (hQ.2.1 _)
    intro x hx
    exact hall _ (sibling_list_subset_all_nodes _ x hx)

theorem atom_areas_ok (Q : freesasa_nodearea → Prop) (hQ : area_invariant Q) (E : Env)
    (S : freesasa_structure) (R : freesasa_result) :
    gen_areas_ok Q (result_node_atom E) S R := by
  intro i k d c n k1 h
  unfold result_node_atom at h
  simp only at h
  split at h
  · simp at h
  · rename_i d0 c0 n0 k0 hnew
    obtain ⟨hd, hc, hn⟩ := result_node_new_node _ _ _ _ _ _ _ hnew
    subst hd hc hn
    split at h
    · simp at h
    · simp at h
      obtain ⟨⟨hd, hc, _⟩, _⟩ := h
      subst hd hc
      constructor
      · intro a ha
        simp only [Option.some.injEq] at ha
        rw [← ha]
        exact hQ.1 _ _ _ _ _
      · intro e he
        simp [all_nodes] at he

theorem residue_areas_ok (Q : freesasa_nodearea → Prop) (hQ : area_invariant Q) (E : Env)
    (S : freesasa_structure) (R : freesasa_result) :
    gen_areas_ok Q (result_node_residue E) S R := by
  intro i k d c n k1 h
  obtain ⟨k2, hgen⟩ := result_node_residue_inv _ _ _ _ _ _ _ _ _ h
  exact gen_children_areas Q hQ E _ S R (atom_areas_ok Q hQ E S R) _ _ _ _ _ _ _ _ _ _ rfl hgen

theorem chain_areas_ok (Q : freesasa_nodearea → Prop) (hQ : area_invariant Q) (E : Env)
    (S : freesasa_structure) (R : freesasa_result) :
    gen_areas_ok Q (result_node_chain E) S R := by
  intro i k d c n k1 h
  obtain ⟨ch, k2, _, hgen⟩ := result_node_chain_inv _ _ _ _ _ _ _ _ _ h
  exact gen_children_areas Q hQ E _ S R (residue_areas_ok Q hQ E S R) _ _ _ _ _ _ _ _ _ _ rfl
    hgen

theorem structure_areas_ok (Q : freesasa_nodearea → Prop) (hQ : area_invariant Q) (E : Env)
    (S : freesasa_structure) (R : freesasa_result) :
    gen_areas_ok Q (result_node_structure E) S R := by
  intro i k d c n k1 h
  obtain ⟨k2, hgen⟩ := result_node_structure_inv _ _ _ _ _ _ _ _ _ h
  exact gen_children_areas Q hQ E _ S R (chain_areas_ok Q hQ E S R) _ _ _ _ _ _ _ _ _ _ rfl hgen

theorem result_tree_areas (Q : freesasa_nodearea → Prop) (hQ : area_invariant Q)
    (t : NodePtr) (ht : result_tree t) : ∀ e ∈ all_nodes t, node_area_ok Q e := by
  induction ht with
  | new E k d c n k1 h =>
    unfold freesasa_result_tree_new at h
    split at h
    · simp at h
    · rename_i d0 c0 n0 k0 hnew
      obtain ⟨hd, hc, hn⟩ := result_node_new_node _ _ _ _ _ _ _ hnew
      subst hd hc hn
      simp at h
      obtain ⟨⟨hd, hc, hn⟩, _⟩ := h
      subst hd hc hn
      intro e he
      simp only [all_nodes, List.append_nil, List.mem_singleton] at he
      rw [he]
      intro a ha
      simp at ha
  | add E tree R S name k tree1 k1 _ h ih =>
    obtain ⟨td, tc, tn, rd, rc, rn, k2, ht, ht1, hgen⟩ := add_result_inv _ _ _ _ _ _ _ _ h
    obtain ⟨hrd, hrc⟩ :=
      gen_children_areas Q hQ E _ S R (structure_areas_ok Q hQ E S R) _ _ _ _ _ _ _ _ _ _ rfl
        hgen
    subst ht ht1
    intro e he
    simp only [all_nodes, List.mem_cons, List.mem_append] at he
    rcases he with he | (he | he | he) | he
    · exact ih e (by simp [all_nodes, he])
    · rw [he]; exact hrd
    · exact hrc e he
    · exact ih e (by simp [all_nodes, he])
    · exact ih e (by simp [all_nodes, he])

theorem main_side_invariant :
    area_invariant (fun a => a.total = a.main_chain + a.side_chain) := by
  refine ⟨?_, ?_, ?_⟩
  · intro E g S R i
    unfold freesasa_atom_nodearea
    simp only
    split <;> split <;> simp
  · intro name
    simp [freesasa_nodearea_null]
  · intro s t hs ht
    simp only [freesasa_add_nodearea, hs, ht]
    ring

/-- The half of the split invariant that the code keeps: in every tree produced by
`freesasa_result_tree_new` and successful calls of `freesasa_result_tree_add_result`,
every node that has an area has `total = main_chain + side_chain`. -/
theorem built_tree_main_side_split (t : NodePtr) (ht : result_tree t) :
    ∀ d ∈ all_nodes t, ∀ a, d.area = some a → a.total = a.main_chain + a.side_chain :=
  result_tree_areas _ main_side_invariant t ht

/-! ## Shape of what the generators return -/

theorem result_node_new_counter (E : Env) (name : String) (k : Nat)
    (d : freesasa_result_node) (c n : NodePtr) (k1 : Nat)
    (h : result_node_new E (some name) k = (node d c n, k1)) : k1 = k + 2 := by
  unfold result_node_new at h
  split at h
  · simp at h
  · simp only at h
    split at h
    · simp at h
    · simp at h
      exact h.2.symm

theorem result_node_atom_inv (E : Env) (S : freesasa_structure) (R : freesasa_result)
    (i : Int) (k : Nat) (d : freesasa_result_node) (c n : NodePtr) (k1 : Nat)
    (h : result_node_atom E S R i k = some (node d c n, k1)) :
    d = { addr := k, name := some (S.atom_name i), type := FREESASA_NODE_ATOM,
          prop := atom_prop (if S.atom_class i = FREESASA_ATOM_POLAR then 1 else 0)
            (E.freesasa_atom_is_backbone (S.atom_name i)) (S.atom_radius i),
          area := some (freesasa_atom_nodearea E (E.malloc_garbage (k + 2)) S R i),
          parent := none } ∧ c = NULL ∧ n = NULL ∧ k1 = k + 3 := by
  unfold result_node_atom at h
  simp only at h
  split at h
  · simp at h
  · rename_i d0 c0 n0 k0 hnew
    have hk := result_node_new_counter _ _ _ _ _ _ _ hnew
    obtain ⟨hd, hc, hn⟩ := result_node_new_node _ _ _ _ _ _ _ hnew
    subst hd hc hn hk
    split at h
    · simp at h
    · simp at h
      obtain ⟨⟨hd, hc, hn⟩, hk⟩ := h
      exact ⟨hd.symm, hc.symm, hn.symm, hk.symm⟩

theorem result_node_add_area_result (E : Env) (d : freesasa_result_node) (c n : NodePtr)
    (k : Nat) (h : d.type = FREESASA_NODE_RESULT) :
    result_node_add_area E (node d c n) k = some (FREESASA_SUCCESS, node d c n, k) := by
  simp [result_node_add_area, h]

theorem gen_children_shape (E : Env) (pd : freesasa_result_node) (pc pn : NodePtr)
    (S : freesasa_structure) (R : freesasa_result) (first last : Int) (ng : node_generator)
    (k : Nat) (p : NodePtr) (k1 : Nat)
    (h : result_node_gen_children E (node pd pc pn) S R first last ng k = some (true, p, k1)) :
    ∃ fd fc fn k2 rest a,
      ng S R first k = some (node fd fc fn, k2) ∧
      p = node { pd with area := a } (node { fd with parent := some pd.addr } fc rest) pn ∧
      (sibling_list rest).length = (last - first).toNat := by
  obtain ⟨fd, fc, fn, k2, rest, k3, st, hng, hloop, harea⟩ :=
    gen_children_inv _ _ _ _ _ _ _ _ _ _ _ _ h
  obtain ⟨a, ha⟩ := result_node_add_area_node _ _ _ _ _ _ _ _ harea
  exact ⟨fd, fc, fn, k2, rest, a, hng, ha, gen_children_loop_length _ _ _ _ _ _ _ _ _ hloop⟩

theorem add_result_shape (E : Env) (tree : NodePtr) (R : freesasa_result)
    (S : freesasa_structure) (name : Option String) (k : Nat) (tree1 : NodePtr) (k1 : Nat)
    (h : freesasa_result_tree_add_result E tree R S name k
      = some (FREESASA_SUCCESS, tree1, k1)) :
    ∃ td tc tn sd sc sn k2 k3,
      tree = node td tc tn ∧
      tree1 = node td
        (node { addr := k, name := name, type := FREESASA_NODE_RESULT,
                prop := result_prop (some S.classifier_name) 1, area := none,
                parent := none }
          (node { sd with parent := some k } sc NULL) tc) tn ∧
      result_node_structure E S R 0 k2 = some (node sd sc sn, k3) := by
  obtain ⟨td, tc, tn, rd, rc, rn, k2, ht, ht1, hgen⟩ := add_result_inv _ _ _ _ _ _ _ _ h
  obtain ⟨fd, fc, fn, k3, rest, k4, st, hfirst, hloop, harea⟩ :=
    gen_children_inv _ _ _ _ _ _ _ _ _ _ _ _ hgen
  simp only [sub_self, Int.toNat_zero, gen_children_loop, Option.some.injEq, Prod.mk.injEq,
    true_and] at hloop
  obtain ⟨hrest, _⟩ := hloop
  subst hrest
  rw [result_node_add_area_result _ _ _ _ _ rfl] at harea
  simp only [Option.some.injEq, Prod.mk.injEq, node.injEq, true_and] at harea
  obtain ⟨_, ⟨hrd, hrc, _⟩, _⟩ := harea
  refine ⟨td, tc, tn, fd, fc, fn, _, _, ht, ?_, hfirst⟩
  rw [ht1, ← hrd, ← hrc]

theorem result_node_structure_shape (E : Env) (S : freesasa_structure) (R : freesasa_result)
    (i : Int) (k : Nat) (d : freesasa_result_node) (c n : NodePtr) (k1 : Nat)
    (h : result_node_structure E S R i k = some (node d c n, k1)) :
    ∃ a cd cc cn k2 k3 rest,
      d = { addr := k, name := some S.chain_labels, type := FREESASA_NODE_STRUCTURE,
            prop := structure_prop S.n_chains (some S.chain_labels), area := a,
            parent := none } ∧
      c = node { cd with parent := some k } cc rest ∧ n = NULL ∧
      result_node_chain E S R 0 k2 = some (node cd cc cn, k3) ∧
      (sibling_list rest).length = (S.n_chains - 1 - 0).toNat := by
  obtain ⟨k2, hgen⟩ := result_node_structure_inv _ _ _ _ _ _ _ _ _ h
  obtain ⟨fd, fc, fn, k3, rest, a, hng, hp, hlen⟩ :=
    gen_children_shape _ _ _ _ _ _ _ _ _ _ _ _ hgen
  simp only [node.injEq] at hp
  obtain ⟨hd, hc, hn⟩ := hp
  exact ⟨a, fd, fc, fn, k2, k3, rest, hd, hc, hn, hng, hlen⟩

theorem result_node_chain_shape (E : Env) (S : freesasa_structure) (R : freesasa_result)
    (i : Int) (k : Nat) (d : freesasa_result_node) (c n : NodePtr) (k1 : Nat)
    (h : result_node_chain E S R i k = some (node d c n, k1)) :
    ∃ ch a rd rc rn k2 k3 rest,
      chain_label S.chain_labels i = some ch ∧
      d = { addr := k, name := some (String.singleton ch), type := FREESASA_NODE_CHAIN,
            prop := chain_prop ((S.chain_residues ch).2 - (S.chain_residues ch).1 + 1),
            area := a, parent := none } ∧
      c = node { rd with parent := some k } rc rest ∧ n = NULL ∧
      result_node_residue E S R (S.chain_residues ch).1 k2 = some (node rd rc rn, k3) ∧
      (sibling_list rest).length = ((S.chain_residues ch).2 - (S.chain_residues ch).1).toNat := by
  obtain ⟨ch, k2, hch, hgen⟩ := result_node_chain_inv _ _ _ _ _ _ _ _ _ h
  obtain ⟨fd, fc, fn, k3, rest, a, hng, hp, hlen⟩ :=
    gen_children_shape _ _ _ _ _ _ _ _ _ _ _ _ hgen
  simp only [node.injEq] at hp
  obtain ⟨hd, hc, hn⟩ := hp
  exact ⟨ch, a, fd, fc, fn, k2, k3, rest, hch, hd, hc, hn, hng, hlen⟩

theorem result_node_residue_shape (E : Env) (S : freesasa_structure) (R : freesasa_result)
    (i : Int) (k : Nat) (d : freesasa_result_node) (c n : NodePtr) (k1 : Nat)
    (h : result_node_residue E S R i k = some (node d c n, k1)) :
    ∃ a ad ac an k2 k3 rest,
      d = { addr := k, name := some (S.residue_name i), type := FREESASA_NODE_RESIDUE,
            prop := residue_prop (S.residue_reference i) (some (S.residue_number i))
              ((S.residue_atoms i).2 - (S.residue_atoms i).1 + 1),
            area := a, parent := none } ∧
      c = node { ad with parent := some k } ac rest ∧ n = NULL ∧
      result_node_atom E S R (S.residue_atoms i).1 k2 = some (node ad ac an, k3) ∧
      (sibling_list rest).length = ((S.residue_atoms i).2 - (S.residue_atoms i).1).toNat := by
  obtain ⟨k2, hgen⟩ := result_node_residue_inv _ _ _ _ _ _ _ _ _ h
  obtain ⟨fd, fc, fn, k3, rest, a, hng, hp, hlen⟩ :=
    gen_children_shape _ _ _ _ _ _ _ _ _ _ _ _ hgen
  simp only [node.injEq] at hp
  obtain ⟨hd, hc, hn⟩ := hp
  exact ⟨a, fd, fc, fn, k2, k3, rest, hd, hc, hn, hng, hlen⟩

theorem generated_payload (E : Env) (S : freesasa_structure) (R : freesasa_result)
    (i : Int) (k : Nat) (d : freesasa_result_node) (c n : NodePtr) (k1 : Nat) :
    (result_node_atom E S R i k = some (node d c n, k1) →
      d.type = FREESASA_NODE_ATOM ∧
      d.prop = atom_prop (if S.atom_class i = FREESASA_ATOM_POLAR then 1 else 0)
        (E.freesasa_atom_is_backbone (S.atom_name i)) (S.atom_radius i)) ∧
    (result_node_residue E S R i k = some (node d c n, k1) →
      d.type = FREESASA_NODE_RESIDUE ∧
      d.prop = residue_prop (S.residue_reference i) (some (S.residue_number i))
        ((S.residue_atoms i).2 - (S.residue_atoms i).1 + 1)) ∧
    (result_node_chain E S R i k = some (node d c n, k1) →
      d.type = FREESASA_NODE_CHAIN ∧
      ∃ ch, chain_label S.chain_labels i = some ch ∧
        d.prop = chain_prop ((S.chain_residues ch).2 - (S.chain_residues ch).1 + 1)) ∧
    (result_node_structure E S R i k = some (node d c n, k1) →
      d.type = FREESASA_NODE_STRUCTURE ∧
      d.prop = structure_prop S.n_chains (some S.chain_labels)) := by
  refine ⟨?_, ?_, ?_, ?_⟩
  · intro h
    obtain ⟨hd, _⟩ := result_node_atom_inv _ _ _ _ _ _ _ _ _ h
    rw [hd]; exact ⟨rfl, rfl⟩
  · intro h
    obtain ⟨a, _, _, _, _, _, _, hd, _⟩ := result_node_residue_shape _ _ _ _ _ _ _ _ _ h
    rw [hd]; exact ⟨rfl, rfl⟩
  · intro h
    obtain ⟨ch, a, _, _, _, _, _, _, hch, hd, _⟩ := result_node_chain_shape _ _ _ _ _ _ _ _ _ h
    rw [hd]; exact ⟨rfl, ch, hch, rfl⟩
  · intro h
    obtain ⟨a, _, _, _, _, _, _, hd, _⟩ := result_node_structure_shape _ _ _ _ _ _ _ _ _ h
    rw [hd]; exact ⟨rfl, rfl⟩

/-! ## Joining two trees -/

theorem join_last_all_nodes (d : freesasa_result_node) :
    ∀ (c n tail : NodePtr),
      all_nodes (join_last (node d c n) tail) = all_nodes (node d c n) ++ all_nodes tail := by
  intro c n
  induction n generalizing d c with
  | NULL => intro tail; simp [join_last, all_nodes]
  | node d1 c1 n1 _ ih2 =>
    intro tail
    rw [join_last]
    have := ih2 d1 c1 tail
    simp only [all_nodes, List.cons_append, List.append_assoc, List.cons.injEq, true_and] at this ⊢
    rw [this]

theorem join_inv (tree1 : NodePtr) (tree2 : Option NodePtr) (st : Int) (t1 h2 : NodePtr)
    (h : freesasa_result_tree_join tree1 tree2 = some (st, t1, h2)) :
    ∃ d1 cd cc cn n1 d2 c2 n2,
      tree1 = node d1 (node cd cc cn) n1 ∧ tree2 = some (node d2 c2 n2) ∧
      d1.type = FREESASA_NODE_ROOT ∧ d2.type = FREESASA_NODE_ROOT ∧
      st = FREESASA_SUCCESS ∧ t1 = node d1 (join_last (node cd cc cn) c2) n1 ∧ h2 = NULL := by
  unfold freesasa_result_tree_join at h
  split at h
  · rename_i d1 c1 n1 d2 c2 n2
    split at h
    · rename_i hty
      split at h
      · simp at h
      · rename_i cd cc cn
        simp at h
        obtain ⟨h1, h2, h3⟩ := h
        exact ⟨d1, cd, cc, cn, n1, d2, c2, n2, rfl, rfl, hty.1, hty.2, h1.symm, h2.symm, h3.symm⟩
    · simp at h
  · simp at h

/-! ## The aggregation as a fold over the children -/

theorem add_children_area_fold :
    ∀ (p : NodePtr) (sum : freesasa_nodearea),
      (∀ x ∈ sibling_list p, x.1.area ≠ none) →
      add_children_area sum p = some ((child_areas p).foldl freesasa_add_nodearea sum) := by
  intro p
  induction p with
  | NULL => intro sum _; rfl
  | node d c n _ ihn =>
    intro sum h
    have hd := h (d, c) (by simp [sibling_list])
    cases ha : d.area with
    | none => exact absurd ha hd
    | some a =>
      rw [add_children_area]
      simp only [ha]
      rw [ihn _ (fun x hx => h x (by simp [sibling_list, hx]))]
      simp [child_areas, sibling_list, ha]

theorem fold_add_nodearea_fields :
    ∀ (l : List freesasa_nodearea) (sum : freesasa_nodearea),
      (l.foldl freesasa_add_nodearea sum).name = sum.name ∧
      (l.foldl freesasa_add_nodearea sum).total = l.foldl (fun s t => s + t.total) sum.total ∧
      (l.foldl freesasa_add_nodearea sum).main_chain
        = l.foldl (fun s t => s + t.main_chain) sum.main_chain ∧
      (l.foldl freesasa_add_nodearea sum).side_chain
        = l.foldl (fun s t => s + t.side_chain) sum.side_chain ∧
      (l.foldl freesasa_add_nodearea sum).polar = l.foldl (fun s t => s + t.polar) sum.polar ∧
      (l.foldl freesasa_add_nodearea sum).apolar
        = l.foldl (fun s t => s + t.apolar) sum.apolar ∧
      (l.foldl freesasa_add_nodearea sum).unknown
        = l.foldl (fun s t => s + t.unknown) sum.unknown := by
  intro l
  induction l with
  | nil => intro sum; simp
  | cons t l ih =>
    intro sum
    simp only [List.foldl_cons]
    have := ih (freesasa_add_nodearea sum t)
    simpa [freesasa_add_nodearea] using this

/-! ## The children are the nodes generated in index order -/

theorem loop_of_generate (ng : node_generator) (S : freesasa_structure) (R : freesasa_result)
    (parent : Nat) :
    ∀ (n : Nat) (i : Int) (k : Nat) (l : List (freesasa_result_node × NodePtr)) (k1 : Nat),
      generate_in_order ng S R n i k = some (l, k1) →
      gen_children_loop ng S R parent n i k = some (true, link_children parent l, k1) := by
  intro n
  induction n with
  | zero =>
    intro i k l k1 h
    simp [generate_in_order] at h
    obtain ⟨h1, h2⟩ := h
    subst h1 h2
    rfl
  | succ n ih =>
    intro i k l k1 h
    rw [generate_in_order] at h
    split at h
    · rename_i d c nx k2 hng
      split at h
      · rename_i l1 k3 hrest
        simp at h
        obtain ⟨h1, h2⟩ := h
        subst h1 h2
        rw [gen_children_loop, hng]
        simp only [ih _ _ _ _ hrest, link_children]
      · simp at h
    · simp at h

theorem generate_of_loop (ng : node_generator) (S : freesasa_structure) (R : freesasa_result)
    (parent : Nat) :
    ∀ (n : Nat) (i : Int) (k : Nat) (rest : NodePtr) (k1 : Nat),
      gen_children_loop ng S R parent n i k = some (true, rest, k1) →
      ∃ l, generate_in_order ng S R n i k = some (l, k1) ∧ rest = link_children parent l := by
  intro n
  induction n with
  | zero =>
    intro i k rest k1 h
    simp [gen_children_loop] at h
    obtain ⟨h1, h2⟩ := h
    subst h1 h2
    exact ⟨[], rfl, rfl⟩
  | succ n ih =>
    intro i k rest k1 h
    rw [gen_children_loop] at h
    split at h
    · simp at h
    · simp at h
    · rename_i d c nx k2 hng
      split at h
      · simp at h
      · rename_i ok rest1 k3 heq
        simp at h
        obtain ⟨h1, h2, h3⟩ := h
        subst h1 h2 h3
        obtain ⟨l, hl, hrest⟩ := ih _ _ _ _ heq
        refine ⟨(d, c) :: l, ?_, ?_⟩
        · rw [generate_in_order, hng]
          simp only [hl]
        · simp only [link_children, hrest]

theorem generate_in_order_length (ng : node_generator) (S : freesasa_structure)
    (R : freesasa_result) :
    ∀ (n : Nat) (i : Int) (k : Nat) (l : List (freesasa_result_node × NodePtr)) (k1 : Nat),
      generate_in_order ng S R n i k = some (l, k1) → l.length = n := by
  intro n
  induction n with
  | zero =>
    intro i k l k1 h
    simp [generate_in_order] at h
    rw [h.1]; rfl
  | succ n ih =>
    intro i k l k1 h
    rw [generate_in_order] at h
    split at h
    · split at h
      · rename_i l1 k3 hrest
        simp at h
        rw [← h.1]
        simp [ih _ _ _ _ hrest]
      · simp at h
    · simp at h

theorem generate_in_order_elem (ng : node_generator) (S : freesasa_structure)
    (R : freesasa_result) :
    ∀ (n : Nat) (i : Int) (k : Nat) (l : List (freesasa_result_node × NodePtr)) (k1 : Nat),
      generate_in_order ng S R n i k = some (l, k1) →
      ∀ (j : Nat) (x : freesasa_result_node × NodePtr), l[j]? = some x →
        ∃ k0 n0 k2, ng S R (i + j) k0 = some (node x.1 x.2 n0, k2) := by
  intro n
  induction n with
  | zero =>
    intro i k l k1 h j x hx
    simp [generate_in_order] at h
    rw [h.1] at hx
    simp at hx
  | succ n ih =>
    intro i k l k1 h j x hx
    rw [generate_in_order] at h
    split at h
    · rename_i d c nx k2 hng
      split at h
      · rename_i l1 k3 hrest
        simp at h
        obtain ⟨h1, _⟩ := h
        subst h1
        cases j with
        | zero =>
          simp at hx
          subst hx
          exact ⟨k, nx, k2, by simpa using hng⟩
        | succ j =>
          simp at hx
          obtain ⟨k0, n0, k4, h4⟩ := ih _ _ _ _ hrest j x hx
          refine ⟨k0, n0, k4, ?_⟩
          have : i + ((j + 1 : Nat) : Int) = i + 1 + (j : Int) := by push_cast; ring
          rw [this]
          exact h4
      · simp at h
    · simp at h

theorem sibling_list_link_children (parent : Nat) :
    ∀ l : List (freesasa_result_node × NodePtr),
      sibling_list (link_children parent l)
        = l.map (fun x => ({ x.1 with parent := some parent }, x.2)) := by
  intro l
  induction l with
  | nil => rfl
  | cons x l ih =>
    obtain ⟨d, c⟩ := x
    simp [link_children, sibling_list, ih]

theorem gen_children_children (E : Env) (pd : freesasa_result_node) (pc pn : NodePtr)
    (S : freesasa_structure) (R : freesasa_result) (first last : Int) (ng : node_generator)
    (k : Nat) (d : freesasa_result_node) (c n : NodePtr) (k1 : Nat)
    (h : result_node_gen_children E (node pd pc pn) S R first last ng k
      = some (true, node d c n, k1)) :
    (sibling_list c).length = (last - first).toNat + 1 ∧
    ∀ (j : Nat) (x : freesasa_result_node × NodePtr), (sibling_list c)[j]? = some x →
      ∃ d0 n0 k0 k2, ng S R (first + j) k0 = some (node d0 x.2 n0, k2) ∧
        x.1 = { d0 with parent := some pd.addr } := by
  obtain ⟨fd, fc, fn, k2, rest, k3, st, hng, hloop, harea⟩ :=
    gen_children_inv _ _ _ _ _ _ _ _ _ _ _ _ h
  obtain ⟨a, ha⟩ := result_node_add_area_node _ _ _ _ _ _ _ _ harea
  simp only [node.injEq] at ha
  obtain ⟨_, hc, _⟩ := ha
  obtain ⟨l, hl, hrest⟩ := generate_of_loop _ _ _ _ _ _ _ _ _ hloop
  subst hc hrest
  constructor
  · simp [sibling_list, sibling_list_link_children, generate_in_order_length _ _ _ _ _ _ _ _ hl]
  · intro j x hx
    cases j with
    | zero =>
      simp [sibling_list] at hx
      subst hx
      exact ⟨fd, fn, k, k2, by simpa using hng, rfl⟩
    | succ j =>
      simp only [sibling_list, List.getElem?_cons_succ, sibling_list_link_children,
        List.getElem?_map, Option.map_eq_some'] at hx
      obtain ⟨y, hy, hxy⟩ := hx
      obtain ⟨k0, n0, k4, h4⟩ := generate_in_order_elem _ _ _ _ _ _ _ _ hl j y hy
      refine ⟨y.1, n0, k0, k4, ?_, by rw [← hxy]⟩
      have : first + ((j + 1 : Nat) : Int) = first + 1 + (j : Int) := by push_cast; ring
      rw [this, ← hxy]
      exact h4

/-! ## The build succeeds when no allocation fails -/

theorem result_node_new_succeeds (E : Env) (hm : ∀ j, E.malloc_fails j = false)
    (name : String) (k : Nat) :
    result_node_new E (some name) k
      = (node { addr := k, name := some name, type := FREESASA_NODE_ATOM, prop := zero_prop,
                area := none, parent := none } NULL NULL, k + 2) := by
  simp [result_node_new, hm]

theorem atom_succeeds (E : Env) (hm : ∀ j, E.malloc_fails j = false)
    (S : freesasa_structure) (R : freesasa_result) (i : Int) (k : Nat) :
    ∃ d c n k1, result_node_atom E S R i k = some (node d c n, k1) ∧ d.area ≠ none := by
  unfold result_node_atom
  rw [result_node_new_succeeds E hm]
  simp only [hm, Bool.false_eq_true, if_false]
  exact ⟨_, _, _, _, rfl, by simp⟩

theorem loop_succeeds (ng : node_generator) (S : freesasa_structure) (R : freesasa_result)
    (parent : Nat) (ok : Int → Prop)
    (hng : ∀ j, ok j → ∀ k, ∃ d c n k1, ng S R j k = some (node d c n, k1) ∧ d.area ≠ none) :
    ∀ (n : Nat) (i : Int) (k : Nat), (∀ j, i ≤ j → j < i + n → ok j) →
      ∃ rest k1, gen_children_loop ng S R parent n i k = some (true, rest, k1) ∧
        ∀ x ∈ sibling_list rest, x.1.area ≠ none := by
  intro n
  induction n with
  | zero =>
    intro i k _
    exact ⟨NULL, k, rfl, by intro x hx; simp [sibling_list] at hx⟩
  | succ n ih =>
    intro i k hok
    obtain ⟨d, c, nx, k1, hg, ha⟩ := hng i (hok i (le_refl _) (by push_cast; omega)) k
    obtain ⟨rest, k2, hl, hr⟩ := ih (i + 1) k1 (fun j h1 h2 => hok j (by omega) (by push_cast; omega))
    refine ⟨node { d with parent := some parent } c rest, k2, ?_, ?_⟩
    · rw [gen_children_loop, hg]
      simp only [hl]
    · intro x hx
      simp only [sibling_list, List.mem_cons] at hx
      rcases hx with hx | hx
      · rw [hx]; exact ha
      · exact hr x hx

theorem gen_children_succeeds (E : Env) (hm : ∀ j, E.malloc_fails j = false)
    (pd : freesasa_result_node) (pc pn : NodePtr) (S : freesasa_structure)
    (R : freesasa_result) (first last : Int) (ng : node_generator) (k : Nat)
    (ok : Int → Prop)
    (hng : ∀ j, ok j → ∀ k, ∃ d c n k1, ng S R j k = some (node d c n, k1) ∧ d.area ≠ none)
    (hok : ∀ j, first ≤ j → j < first + ((last - first).toNat + 1 : Nat) → ok j) :
    ∃ a c k1, result_node_gen_children E (node pd pc pn) S R first last ng k
        = some (true, node { pd with area := a } c pn, k1) ∧
      (pd.type ≠ FREESASA_NODE_RESULT → pd.type ≠ FREESASA_NODE_ATOM → a ≠ none) := by
  obtain ⟨fd, fc, fn, k1, hg, ha⟩ := hng first (hok first (le_refl _) (by push_cast; omega)) k
  obtain ⟨rest, k2, hl, hr⟩ := loop_succeeds ng S R pd.addr ok hng (last - first).toNat
    (first + 1) k1 (fun j h1 h2 => hok j (by omega) (by push_cast; omega))
  unfold result_node_gen_children
  rw [hg]
  simp only [hl]
  have hall : ∀ x ∈ sibling_list (node { fd with parent := some pd.addr } fc rest),
      x.1.area ≠ none := by
    intro x hx
    simp only [sibling_list, List.mem_cons] at hx
    rcases hx with hx | hx
    · rw [hx]; exact ha
    · exact hr x hx
  by_cases hty : pd.type = FREESASA_NODE_RESULT ∨ pd.type = FREESASA_NODE_ATOM
  · have heq : result_node_add_area E
        (node pd (node { fd with parent := some pd.addr } fc rest) pn) k2
        = some (FREESASA_SUCCESS,
            node pd (node { fd with parent := some pd.addr } fc rest) pn, k2) := by
      simp [result_node_add_area, hty]
    rw [heq]
    refine ⟨pd.area, _, _, rfl, ?_⟩
    intro h1 h2
    rcases hty with h | h
    · exact absurd h h1
    · exact absurd h h2
  · have heq : result_node_add_area E
        (node pd (node { fd with parent := some pd.addr } fc rest) pn) k2
        = some (FREESASA_SUCCESS,
            node { pd with area := some ((child_areas
                (node { fd with parent := some pd.addr } fc rest)).foldl freesasa_add_nodearea
                { freesasa_nodearea_null with name := pd.name }) }
              (node { fd with parent := some pd.addr } fc rest) pn, k2 + 1) := by
      simp only [result_node_add_area, hty, if_false, hm, Bool.false_eq_true,
        add_children_area_fold _ _ hall]
    rw [heq]
    exact ⟨_, _, _, rfl, by simp⟩

theorem residue_succeeds (E : Env) (hm : ∀ j, E.malloc_fails j = false)
    (S : freesasa_structure) (R : freesasa_result) (i : Int) (k : Nat) :
    ∃ d c n k1, result_node_residue E S R i k = some (node d c n, k1) ∧ d.area ≠ none := by
  unfold result_node_residue
  rw [result_node_new_succeeds E hm]
  simp only [hm, Bool.false_eq_true, if_false]
  cases S.residue_reference i with
  | none =>
    simp only
    obtain ⟨a, c, k1, hg, ha⟩ := gen_children_succeeds E hm
      { addr := k, name := some (S.residue_name i), type := FREESASA_NODE_RESIDUE,
        prop := residue_prop none (some (S.residue_number i))
          ((S.residue_atoms i).2 - (S.residue_atoms i).1 + 1),
        area := none, parent := none } NULL NULL S R (S.residue_atoms i).1
      (S.residue_atoms i).2 (result_node_atom E) (k + 2 + 1) (fun _ => True)
      (fun j _ k => atom_succeeds E hm S R j k) (fun _ _ _ => trivial)
    rw [hg]
    exact ⟨_, _, _, _, rfl, ha (by simp) (by simp)⟩
  | some ref =>
    simp only
    obtain ⟨a, c, k1, hg, ha⟩ := gen_children_succeeds E hm
      { addr := k, name := some (S.residue_name i), type := FREESASA_NODE_RESIDUE,
        prop := residue_prop (some ref) (some (S.residue_number i))
          ((S.residue_atoms i).2 - (S.residue_atoms i).1 + 1),
        area := none, parent := none } NULL NULL S R (S.residue_atoms i).1
      (S.residue_atoms i).2 (result_node_atom E) (k + 2 + 2) (fun _ => True)
      (fun j _ k => atom_succeeds E hm S R j k) (fun _ _ _ => trivial)
    rw [hg]
    exact ⟨_, _, _, _, rfl, ha (by simp) (by simp)⟩

theorem chain_succeeds (E : Env) (hm : ∀ j, E.malloc_fails j = false)
    (S : freesasa_structure) (R : freesasa_result) (i : Int)
    (hl : ∃ ch, chain_label S.chain_labels i = some ch) (k : Nat) :
    ∃ d c n k1, result_node_chain E S R i k = some (node d c n, k1) ∧ d.area ≠ none := by
  obtain ⟨ch, hch⟩ := hl
  unfold result_node_chain
  simp only [hch]
  rw [result_node_new_succeeds E hm]
  simp only
  obtain ⟨a, c, k1, hg, ha⟩ := gen_children_succeeds E hm
    { addr := k, name := some (String.singleton ch), type := FREESASA_NODE_CHAIN,
      prop := chain_prop ((S.chain_residues ch).2 - (S.chain_residues ch).1 + 1),
      area := none, parent := none } NULL NULL S R (S.chain_residues ch).1
    (S.chain_residues ch).2 (result_node_residue E) (k + 2) (fun _ => True)
    (fun j _ k => residue_succeeds E hm S R j k) (fun _ _ _ => trivial)
  rw [hg]
  exact ⟨_, _, _, _, rfl, ha (by simp) (by simp)⟩

theorem structure_succeeds (E : Env) (hm : ∀ j, E.malloc_fails j = false)
    (S : freesasa_structure) (R : freesasa_result)
    (hl : ∀ j : Int, 0 ≤ j → j < (0 : Int) + (((S.n_chains - 1 - 0).toNat + 1 : Nat) : Int) →
      ∃ ch, chain_label S.chain_labels j = some ch)
    (i : Int) (k : Nat) :
    ∃ d c n k1, result_node_structure E S R i k = some (node d c n, k1) ∧ d.area ≠ none := by
  unfold result_node_structure
  rw [result_node_new_succeeds E hm]
  simp only [hm, Bool.false_eq_true, if_false]
  obtain ⟨a, c, k1, hg, ha⟩ := gen_children_succeeds E hm
    { addr := k, name := some S.chain_labels, type := FREESASA_NODE_STRUCTURE,
      prop := structure_prop S.n_chains (some S.chain_labels),
      area := none, parent := none } NULL NULL S R 0
    (S.n_chains - 1) (result_node_chain E) (k + 2 + 1)
    (fun j => ∃ ch, chain_label S.chain_labels j = some ch)
    (fun j hj k => chain_succeeds E hm S R j hj k) hl
  rw [hg]
  exact ⟨_, _, _, _, rfl, ha (by simp) (by simp)⟩

theorem add_result_succeeds (E : Env) (hm : ∀ j, E.malloc_fails j = false)
    (S : freesasa_structure) (R : freesasa_result)
    (hl : ∀ j : Int, 0 ≤ j → j < (0 : Int) + (((S.n_chains - 1 - 0).toNat + 1 : Nat) : Int) →
      ∃ ch, chain_label S.chain_labels j = some ch)
    (td : freesasa_result_node) (tc tn : NodePtr) (name : Option String) (k : Nat) :
    ∃ tree1 k1, freesasa_result_tree_add_result E (node td tc tn) R S name k
      = some (FREESASA_SUCCESS, tree1, k1) := by
  have hnew : ∃ k0, result_node_new E name k
      = (node { addr := k, name := name, type := FREESASA_NODE_ATOM, prop := zero_prop,
                area := none, parent := none } NULL NULL, k0) := by
    cases name with
    | none => exact ⟨k + 1, by simp [result_node_new, hm]⟩
    | some s => exact ⟨k + 2, by simp [result_node_new, hm]⟩
  obtain ⟨k0, hnew⟩ := hnew
  unfold freesasa_result_tree_add_result
  rw [hnew]
  simp only [hm, Bool.false_eq_true, if_false]
  obtain ⟨a, c, k1, hg, _⟩ := gen_children_succeeds E hm
    { addr := k, name := name, type := FREESASA_NODE_RESULT,
      prop := result_prop (some S.classifier_name) 1,
      area := none, parent := none } NULL NULL S R 0 0 (result_node_structure E) (k0 + 1)
    (fun _ => True)
    (fun j _ k => structure_succeeds E hm S R hl j k) (fun _ _ _ => trivial)
  rw [hg]
  exact ⟨_, _, rfl⟩

theorem sibling_list_length_zero (p : NodePtr) (h : (sibling_list p).length = 0) : p = NULL := by
  cases p with
  | NULL => rfl
  | node d c n => simp [sibling_list] at h

theorem structure_children_count (E : Env) (S : freesasa_structure) (R : freesasa_result)
    (i : Int) (k : Nat) (d : freesasa_result_node) (c n : NodePtr) (k1 : Nat)
    (h : result_node_structure E S R i k = some (node d c n, k1))
    (hS : structure_consistent S) : (sibling_list c).length = S.chain_labels.length := by
  obtain ⟨k2, hgen⟩ := result_node_structure_inv _ _ _ _ _ _ _ _ _ h
  obtain ⟨hlen, helem⟩ := gen_children_children _ _ _ _ _ _ _ _ _ _ _ _ _ _ hgen
  have h0 : ∃ x, (sibling_list c)[0]? = some x := by
    cases hc : sibling_list c with
    | nil => rw [hc] at hlen; simp at hlen
    | cons x xs => exact ⟨x, by simp⟩
  obtain ⟨x, hx⟩ := h0
  obtain ⟨d0, n0, k0, k3, hng, _⟩ := helem 0 x hx
  obtain ⟨ch, _, _, _, _, _, _, _, hch, _⟩ := result_node_chain_shape _ _ _ _ _ _ _ _ _ hng
  have hpos : 1 ≤ S.chain_labels.length := by
    simp only [chain_label, Nat.cast_zero, add_zero, le_refl, if_true, Int.toNat_zero] at hch
    cases hdata : S.chain_labels.data with
    | nil => rw [hdata] at hch; simp at hch
    | cons y ys =>
      have : S.chain_labels.length = (y :: ys).length := by rw [← hdata]; rfl
      rw [this]; simp
  unfold structure_consistent at hS
  rw [hlen]
  omega

/-! ## Properties of every node of a built tree -/

theorem result_node_add_area_cases (E : Env) (d : freesasa_result_node) (c n : NodePtr)
    (k : Nat) (st : Int) (p : NodePtr) (k1 : Nat)
    (h : result_node_add_area E (node d c n) k = some (st, p, k1)) :
    p = node d c n ∨ p = node { d with area := none } c n ∨
    ∃ a, p = node { d with area := some a } c n ∧
      d.type ≠ FREESASA_NODE_RESULT ∧ d.type ≠ FREESASA_NODE_ATOM := by
  unfold result_node_add_area at h
  simp only at h
  split at h
  · simp at h
    exact Or.inl h.2.1.symm
  · rename_i hty
    split at h
    · simp at h
      exact Or.inr (Or.inl h.2.1.symm)
    · split at h
      · simp at h
      · rename_i a _
        simp at h
        exact Or.inr (Or.inr ⟨a, h.2.1.symm, fun h1 => hty (Or.inl h1), fun h1 => hty (Or.inr h1)⟩)

theorem gen_children_loop_nodes (P : freesasa_result_node → Prop)
    (hp : ∀ d q, P d → P { d with parent := some q }) (ng : node_generator)
    (S : freesasa_structure) (R : freesasa_result) (hng : gen_nodes_ok P ng S R)
    (parent : Nat) :
    ∀ (n : Nat) (i : Int) (k : Nat) (ok : Bool) (rest : NodePtr) (k1 : Nat),
      gen_children_loop ng S R parent n i k = some (ok, rest, k1) →
      ∀ e ∈ all_nodes rest, P e := by
  intro n
  induction n with
  | zero =>
    intro i k ok rest k1 h
    simp [gen_children_loop] at h
    rw [← h.2.1]
    intro e he
    simp [all_nodes] at he
  | succ n ih =>
    intro i k ok rest k1 h
    rw [gen_children_loop] at h
    split at h
    · simp at h
    · simp at h
      rw [← h.2.1]
      intro e he
      simp [all_nodes] at he
    · rename_i d c nx k2 hgen
      split at h
      · simp at h
      · rename_i ok1 rest1 k3 heq
        simp at h
        obtain ⟨_, h2, _⟩ := h
        obtain ⟨hd, hc⟩ := hng _ _ _ _ _ _ hgen
        rw [← h2]
        intro e he
        simp only [all_nodes, List.mem_cons, List.mem_append] at he
        rcases he with he | he | he
        · rw [he]; exact hp _ _ hd
        · exact hc e he
        · exact ih _ _ _ _ _ heq e he

theorem gen_children_nodes (P : freesasa_result_node → Prop)
    (hp : ∀ d q, P d → P { d with parent := some q }) (E : Env) (ng : node_generator)
    (S : freesasa_structure) (R : freesasa_result) (hng : gen_nodes_ok P ng S R)
    (pd : freesasa_result_node) (pc pn : NodePtr) (first last : Int) (k : Nat)
    (d : freesasa_result_node) (c n : NodePtr) (k1 : Nat)
    (hpd : P pd) (hpn : P { pd with area := none })
    (hpa : pd.type ≠ FREESASA_NODE_RESULT → pd.type ≠ FREESASA_NODE_ATOM →
      ∀ a, P { pd with area := some a })
    (h : result_node_gen_children E (node pd pc pn) S R first last ng k
      = some (true, node d c n, k1)) :
    P d ∧ ∀ e ∈ all_nodes c, P e := by
  obtain ⟨fd, fc, fn, k2, rest, k3, st, hfirst, hloop, harea⟩ :=
    gen_children_inv _ _ _ _ _ _ _ _ _ _ _ _ h
  obtain ⟨hfd, hfc⟩ := hng _ _ _ _ _ _ hfirst
  have hrest := gen_children_loop_nodes P hp ng S R hng _ _ _ _ _ _ _ hloop
  have hall : ∀ e ∈ all_nodes (node { fd with parent := some pd.addr } fc rest), P e := by
    intro e he
    simp only [all_nodes, List.mem_cons, List.mem_append] at he
    rcases he with he | he | he
    · rw [he]; exact hp _ _ hfd
    · exact hfc e he
    · exact hrest e he
  rcases result_node_add_area_cases _ _ _ _ _ _ _ _ harea with h1 | h1 | ⟨a, h1, h2, h3⟩
  · simp only [node.injEq] at h1
    obtain ⟨hd, hc, _⟩ := h1
    subst hd hc
    exact ⟨hpd, hall⟩
  · simp only [node.injEq] at h1
    obtain ⟨hd, hc, _⟩ := h1
    subst hd hc
    exact ⟨hpn, hall⟩
  · simp only [node.injEq] at h1
    obtain ⟨hd, hc, _⟩ := h1
    subst hd hc
    exact ⟨hpa h2 h3 a, hall⟩

theorem area_by_type_parent (d : freesasa_result_node) (q : Nat) (h : area_by_type d) :
    area_by_type { d with parent := some q } := h

theorem atom_area_by_type (E : Env) (S : freesasa_structure) (R : freesasa_result) :
    gen_nodes_ok area_by_type (result_node_atom E) S R := by
  intro i k d c n k1 h
  obtain ⟨hd, hc, _, _⟩ := result_node_atom_inv _ _ _ _ _ _ _ _ _ h
  subst hd hc
  exact ⟨⟨fun _ => Or.inr (Or.inr (Or.inr rfl)), fun _ => by simp⟩,
    by intro e he; simp [all_nodes] at he⟩

theorem residue_area_by_type (E : Env) (S : freesasa_structure) (R : freesasa_result) :
    gen_nodes_ok area_by_type (result_node_residue E) S R := by
  intro i k d c n k1 h
  obtain ⟨k2, hgen⟩ := result_node_residue_inv _ _ _ _ _ _ _ _ _ h
  refine gen_children_nodes area_by_type area_by_type_parent E _ S R (atom_area_by_type E S R)
    _ _ _ _ _ _ _ _ _ _ ?_ ?_ ?_ hgen
  · exact ⟨fun h => absurd rfl h, fun h => by simp at h⟩
  · exact ⟨fun h => absurd rfl h, fun h => by simp at h⟩
  · intro _ _ a
    exact ⟨fun _ => Or.inr (Or.inr (Or.inl rfl)), fun h => by simp at h⟩

theorem chain_area_by_type (E : Env) (S : freesasa_structure) (R : freesasa_result) :
    gen_nodes_ok area_by_type (result_node_chain E) S R := by
  intro i k d c n k1 h
  obtain ⟨ch, k2, _, hgen⟩ := result_node_chain_inv _ _ _ _ _ _ _ _ _ h
  refine gen_children_nodes area_by_type area_by_type_parent E _ S R
    (residue_area_by_type E S R) _ _ _ _ _ _ _ _ _ _ ?_ ?_ ?_ hgen
  · exact ⟨fun h => absurd rfl h, fun h => by simp at h⟩
  · exact ⟨fun h => absurd rfl h, fun h => by simp at h⟩
  · intro _ _ a
    exact ⟨fun _ => Or.inr (Or.inl rfl), fun h => by simp at h⟩

theorem structure_area_by_type (E : Env) (S : freesasa_structure) (R : freesasa_result) :
    gen_nodes_ok area_by_type (result_node_structure E) S R := by
  intro i k d c n k1 h
  obtain ⟨k2, hgen⟩ := result_node_structure_inv _ _ _ _ _ _ _ _ _ h
  refine gen_children_nodes area_by_type area_by_type_parent E _ S R
    (chain_area_by_type E S R) _ _ _ _ _ _ _ _ _ _ ?_ ?_ ?_ hgen
  · exact ⟨fun h => absurd rfl h, fun h => by simp at h⟩
  · exact ⟨fun h => absurd rfl h, fun h => by simp at h⟩
  · intro _ _ a
    exact ⟨fun _ => Or.inl rfl, fun h => by simp at h⟩

/-- The part of the area-by-type rule that the code keeps: in every tree produced by
`freesasa_result_tree_new` and successful calls of `freesasa_result_tree_add_result` and
`freesasa_result_tree_join`, a node that has an area is a structure, chain, residue or atom
node (so root and run nodes have none), and every atom node has an area. -/
theorem joined_tree_area_by_type (t : NodePtr) (ht : joined_tree t) :
    ∀ d ∈ all_nodes t, area_by_type d := by
  induction ht with
  | new E k d c n k1 h =>
    unfold freesasa_result_tree_new at h
    split at h
    · simp at h
    · rename_i d0 c0 n0 k0 hnew
      obtain ⟨hd, hc, hn⟩ := result_node_new_node _ _ _ _ _ _ _ hnew
      subst hd hc hn
      simp at h
      obtain ⟨⟨hd, hc, hn⟩, _⟩ := h
      subst hd hc hn
      intro e he
      simp only [all_nodes, List.append_nil, List.mem_singleton] at he
      rw [he]
      exact ⟨fun h => absurd rfl h, fun h => by simp at h⟩
  | add E tree R S name k tree1 k1 _ h ih =>
    obtain ⟨td, tc, tn, sd, sc, sn, k2, k3, ht, ht1, hs⟩ := add_result_shape _ _ _ _ _ _ _ _ h
    obtain ⟨hsd, hsc⟩ := structure_area_by_type E S R _ _ _ _ _ _ hs
    subst ht ht1
    intro e he
    simp only [all_nodes, List.mem_cons, List.mem_append, List.append_nil] at he
    rcases he with he | (he | (he | he) | he) | he
    · exact ih e (by simp [all_nodes, he])
    · rw [he]
      exact ⟨fun h => absurd rfl h, fun h => by simp at h⟩
    · rw [he]; exact hsd
    · exact hsc e he
    · exact ih e (by simp [all_nodes, he])
    · exact ih e (by simp [all_nodes, he])
  | join tree1 tree2 st t1 h2 _ _ h ih1 ih2 =>
    obtain ⟨d1, cd, cc, cn, n1, d2, c2, n2, ht1, ht2, _, _, _, ht, _⟩ := join_inv _ _ _ _ _ h
    simp only [Option.some.injEq] at ht2
    subst ht1 ht2 ht
    intro e he
    have hmem : e = d1 ∨ (e ∈ all_nodes (node cd cc cn) ∨ e ∈ all_nodes c2) ∨
        e ∈ all_nodes n1 := by
      rw [all_nodes, join_last_all_nodes] at he
      simpa only [List.mem_cons, List.mem_append] using he
    rcases hmem with he | (he | he) | he
    · exact ih1 e (by rw [he, all_nodes]; exact List.mem_cons_self _ _)
    · exact ih1 e (by rw [all_nodes]; exact List.mem_cons_of_mem _ (List.mem_append_left _ he))
    · exact ih2 e (by rw [all_nodes]; exact List.mem_cons_of_mem _ (List.mem_append_left _ he))
    · exact ih1 e (by rw [all_nodes]; exact List.mem_cons_of_mem _ (List.mem_append_right _ he))

theorem gen_children_loop_parents (ng : node_generator) (S : freesasa_structure)
    (R : freesasa_result)
    (hng : ∀ (i : Int) (k : Nat) (d : freesasa_result_node) (c n : NodePtr) (k1 : Nat),
      ng S R i k = some (node d c n, k1) → parents_ok c d.addr)
    (parent : Nat) :
    ∀ (n : Nat) (i : Int) (k : Nat) (ok : Bool) (rest : NodePtr) (k1 : Nat),
      gen_children_loop ng S R parent n i k = some (ok, rest, k1) →
      parents_ok rest parent := by
  intro n
  induction n with
  | zero =>
    intro i k ok rest k1 h
    simp [gen_children_loop] at h
    rw [← h.2.1]
    trivial
  | succ n ih =>
    intro i k ok rest k1 h
    rw [gen_children_loop] at h
    split at h
    · simp at h
    · simp at h
      rw [← h.2.1]
      trivial
    · rename_i d c nx k2 hgen
      split at h
      · simp at h
      · rename_i ok1 rest1 k3 heq
        simp at h
        obtain ⟨_, h2, _⟩ := h
        rw [← h2]
        exact ⟨rfl, hng i k d c nx k2 hgen, ih _ _ _ _ _ heq⟩

theorem gen_children_parents (E : Env) (ng : node_generator) (S : freesasa_structure)
    (R : freesasa_result)
    (hng : ∀ (i : Int) (k : Nat) (d : freesasa_result_node) (c n : NodePtr) (k1 : Nat),
      ng S R i k = some (node d c n, k1) → parents_ok c d.addr)
    (pd : freesasa_result_node) (pc pn : NodePtr) (first last : Int) (k : Nat)
    (d : freesasa_result_node) (c n : NodePtr) (k1 : Nat)
    (h : result_node_gen_children E (node pd pc pn) S R first last ng k
      = some (true, node d c n, k1)) :
    d.addr = pd.addr ∧ d.parent = pd.parent ∧ parents_ok c d.addr := by
  obtain ⟨fd, fc, fn, k2, rest, k3, st, hfirst, hloop, harea⟩ :=
    gen_children_inv _ _ _ _ _ _ _ _ _ _ _ _ h
  obtain ⟨a, ha⟩ := result_node_add_area_node _ _ _ _ _ _ _ _ harea
  simp only [node.injEq] at ha
  obtain ⟨hd, hc, _⟩ := ha
  subst hd hc
  exact ⟨rfl, rfl, rfl, hng first k fd fc fn k2 hfirst,
    gen_children_loop_parents ng S R hng _ _ _ _ _ _ _ hloop⟩

theorem atom_parents (E : Env) (S : freesasa_structure) (R : freesasa_result)
    (i : Int) (k : Nat) (d : freesasa_result_node) (c n : NodePtr) (k1 : Nat)
    (h : result_node_atom E S R i k = some (node d c n, k1)) : parents_ok c d.addr := by
  obtain ⟨_, hc, _, _⟩ := result_node_atom_inv _ _ _ _ _ _ _ _ _ h
  rw [hc]
  trivial

theorem residue_parents (E : Env) (S : freesasa_structure) (R : freesasa_result)
    (i : Int) (k : Nat) (d : freesasa_result_node) (c n : NodePtr) (k1 : Nat)
    (h : result_node_residue E S R i k = some (node d c n, k1)) : parents_ok c d.addr := by
  obtain ⟨k2, hgen⟩ := result_node_residue_inv _ _ _ _ _ _ _ _ _ h
  exact (gen_children_parents E _ S R (atom_parents E S R) _ _ _ _ _ _ _ _ _ _ hgen).2.2

theorem chain_parents (E : Env) (S : freesasa_structure) (R : freesasa_result)
    (i : Int) (k : Nat) (d : freesasa_result_node) (c n : NodePtr) (k1 : Nat)
    (h : result_node_chain E S R i k = some (node d c n, k1)) : parents_ok c d.addr := by
  obtain ⟨ch, k2, _, hgen⟩ := result_node_chain_inv _ _ _ _ _ _ _ _ _ h
  exact (gen_children_parents E _ S R (residue_parents E S R) _ _ _ _ _ _ _ _ _ _ hgen).2.2

theorem structure_parents (E : Env) (S : freesasa_structure) (R : freesasa_result)
    (i : Int) (k : Nat) (d : freesasa_result_node) (c n : NodePtr) (k1 : Nat)
    (h : result_node_structure E S R i k = some (node d c n, k1)) : parents_ok c d.addr := by
  obtain ⟨k2, hgen⟩ := result_node_structure_inv _ _ _ _ _ _ _ _ _ h
  exact (gen_children_parents E _ S R (chain_parents E S R) _ _ _ _ _ _ _ _ _ _ hgen).2.2

/-- The parents the code does set: after a successful `freesasa_result_tree_add_result`
the run node at the head of the root has no parent, and every node below it has as parent
the node whose child list holds it. -/
theorem added_run_parents (E : Env) (tree : NodePtr) (R : freesasa_result)
    (S : freesasa_structure) (name : Option String) (k : Nat) (tree1 : NodePtr) (k1 : Nat)
    (h : freesasa_result_tree_add_result E tree R S name k
      = some (FREESASA_SUCCESS, tree1, k1)) :
    ∃ td tc tn rd rc,
      tree = node td tc tn ∧ tree1 = node td (node rd rc tc) tn ∧
      rd.parent = none ∧ parents_ok rc rd.addr := by
  obtain ⟨td, tc, tn, sd, sc, sn, k2, k3, ht, ht1, hs⟩ := add_result_shape _ _ _ _ _ _ _ _ h
  exact ⟨td, tc, tn, _, _, ht, ht1, rfl, rfl, structure_parents E S R 0 k2 sd sc sn k3 hs, trivial⟩

/-! ## The addition of area records -/

theorem add_nodearea_right_comm (s a b : freesasa_nodearea) :
    freesasa_add_nodearea (freesasa_add_nodearea s a) b
      = freesasa_add_nodearea (freesasa_add_nodearea s b) a := by
  simp only [freesasa_add_nodearea, freesasa_nodearea.mk.injEq, true_and]
  refine ⟨?_, ?_, ?_, ?_, ?_, ?_⟩ <;> ring

theorem fold_add_nodearea_perm (l1 l2 : List freesasa_nodearea) (h : l1.Perm l2) :
    ∀ s, l1.foldl freesasa_add_nodearea s = l2.foldl freesasa_add_nodearea s := by
  induction h with
  | nil => intro s; rfl
  | cons x _ ih => intro s; simp only [List.foldl_cons]; exact ih _
  | swap x y l => intro s; simp only [List.foldl_cons]; rw [add_nodearea_right_comm]
  | trans _ _ ih1 ih2 => intro s; rw [ih1, ih2]

/-! ## The loop of the child generation when a call of the generator fails -/

theorem gen_children_loop_fails (ng : node_generator) (S : freesasa_structure)
    (R : freesasa_result) (parent : Nat) :
    ∀ (m n : Nat) (i : Int) (k : Nat) (l : List (freesasa_result_node × NodePtr))
      (k1 k2 : Nat),
      m < n → generate_in_order ng S R m i k = some (l, k1) →
      ng S R (i + m) k1 = some (NULL, k2) →
      gen_children_loop ng S R parent n i k = some (false, link_children parent l, k2) := by
  intro m
  induction m with
  | zero =>
    intro n i k l k1 k2 hn hg hf
    simp [generate_in_order] at hg
    obtain ⟨h1, h2⟩ := hg
    subst h1 h2
    obtain ⟨n1, rfl⟩ : ∃ n1, n = n1 + 1 := ⟨n - 1, by omega⟩
    simp only [Nat.cast_zero, add_zero] at hf
    simp [gen_children_loop, hf, link_children]
  | succ m ih =>
    intro n i k l k1 k2 hn hg hf
    obtain ⟨n1, rfl⟩ : ∃ n1, n = n1 + 1 := ⟨n - 1, by omega⟩
    unfold generate_in_order at hg
    split at hg
    · rename_i d c nx k3 hng
      split at hg
      · rename_i l1 k4 hrec
        simp at hg
        obtain ⟨h1, h2⟩ := hg
        subst h1 h2
        have hf1 : ng S R (i + 1 + (m : Int)) k4 = some (NULL, k2) := by
          have he : i + 1 + (m : Int) = i + ((m + 1 : Nat) : Int) := by push_cast; ring
          rw [he]; exact hf
        have hl := ih n1 (i + 1) k3 l1 k4 k2 (by omega) hrec hf1
        simp [gen_children_loop, hng, hl, link_children]
      · simp at hg
    · simp at hg

/-! ## The aggregation over a child without area -/

theorem add_children_area_none :
    ∀ (p : NodePtr) (sum : freesasa_nodearea),
      (∃ x ∈ sibling_list p, x.1.area = none) → add_children_area sum p = none := by
  intro p
  induction p with
  | NULL => intro sum h; simp [sibling_list] at h
  | node d c n _ ihn =>
    intro sum h
    cases ha : d.area with
    | none => simp [add_children_area, ha]
    | some a =>
      simp only [add_children_area, ha]
      apply ihn
      obtain ⟨x, hx, hxa⟩ := h
      simp only [sibling_list, List.mem_cons] at hx
      rcases hx with hx | hx
      · subst hx
        simp [ha] at hxa
      · exact ⟨x, hx, hxa⟩

/-! ## The claims -/

/-- C1, at the failing input: when the allocator fails only on the request for the area
record of the structure node, `result_node_gen_children` drops the failure status of
`result_node_add_area` and `freesasa_result_tree_add_result` returns success with a node
of type structure that has no area, so there is no total to compare with the leaf sum. -/
theorem add_result_succeeds_without_structure_area :
    freesasa_result_tree_new (failing_env 20) 0 = (empty_root, 1) ∧
    freesasa_result_tree_add_result (failing_env 20) empty_root small_result small_structure
        (some "run") 1
      = some (FREESASA_SUCCESS, root_with (small_run_node 1 none NULL), 21) ∧
    (small_struct 4 (some 1) none).type = FREESASA_NODE_STRUCTURE ∧
    freesasa_result_node_area (small_struct 4 (some 1) none) = some none := by
  refine ⟨by decide, by with_unfolding_all decide, rfl, by decide⟩

/-- C2, at the failing input: when a fresh block holds 5 where `unknown` lies, the tree is
built with success and, at every node that has an area, `total` differs from
`polar + apolar + unknown`: 3 against 8 at the atoms, 6 against 16 above them. -/
theorem built_tree_breaks_class_split :
    freesasa_result_tree_new garbage_env 0 = (empty_root, 1) ∧
    (freesasa_result_tree_add_result garbage_env empty_root small_result small_structure
        (some "run") 1).map
      (fun r => (r.1, (all_nodes r.2.1).map (fun d => (d.type, d.area.map
        (fun a => (a.total, a.polar + a.apolar + a.unknown))))))
      = some (FREESASA_SUCCESS,
          [(FREESASA_NODE_ROOT, none), (FREESASA_NODE_RESULT, none),
           (FREESASA_NODE_STRUCTURE, some (6, 16)), (FREESASA_NODE_CHAIN, some (6, 16)),
           (FREESASA_NODE_RESIDUE, some (6, 16)), (FREESASA_NODE_ATOM, some (3, 8)),
           (FREESASA_NODE_ATOM, some (3, 8))]) := by
  refine ⟨by decide, by with_unfolding_all decide⟩

/-- C3, at the failing input: on a record whose field `unknown` holds 5, the call for a
polar atom of area 3 sets `total` and `polar` to 3 and leaves `unknown` at 5, not 0. -/
theorem atom_nodearea_keeps_unknown :
    small_structure.atom_class 0 = FREESASA_ATOM_POLAR ∧
    freesasa_atom_nodearea good_env { freesasa_nodearea_null with unknown := 5 }
        small_structure small_result 0
      = { name := some "N", total := 3, main_chain := 3, side_chain := 0, polar := 3,
          apolar := 0, unknown := 5 } := by
  refine ⟨rfl, by with_unfolding_all decide⟩

/-- C4: joining a root whose child list L1 is not empty with a root whose child list is L2
returns success, leaves the first root with the child list L1 followed by L2 and sets the
handle of the second tree to NULL. -/
theorem join_appends_children (d1 d2 : freesasa_result_node) (c1 n1 c2 n2 : NodePtr)
    (h1 : d1.type = FREESASA_NODE_ROOT) (h2 : d2.type = FREESASA_NODE_ROOT)
    (hc : c1 ≠ NULL) :
    ∃ c, freesasa_result_tree_join (node d1 c1 n1) (some (node d2 c2 n2))
          = some (FREESASA_SUCCESS, node d1 c n1, NULL) ∧
      sibling_list c = sibling_list c1 ++ sibling_list c2 := by
  cases c1 with
  | NULL => exact absurd rfl hc
  | node cd cc cn =>
    refine ⟨join_last (node cd cc cn) c2, ?_, join_last_list _ _ _ _⟩
    simp [freesasa_result_tree_join, h1, h2]

/-- Witness of C4: the child lists [r1] and [r2, r3] give [r1, r2, r3]. -/
theorem join_appends_children_witness :
    small_run_node 1 none NULL ≠ NULL ∧
    ∃ c, freesasa_result_tree_join (root_with (small_run_node 1 none NULL))
          (some (root_with (small_run_node 30 none (small_run_node 60 none NULL))))
          = some (FREESASA_SUCCESS, root_with c, NULL) ∧
      sibling_list c = sibling_list (small_run_node 1 none NULL) ++
        sibling_list (small_run_node 30 none (small_run_node 60 none NULL)) :=
  ⟨by decide, join_appends_children _ _ _ _ _ _ rfl rfl (by decide)⟩

/-- C5, at the failing input: joining into a root that has no children, such as a fresh
root, ends abnormally (the walk to the last sibling reads `child->next` with `child`
equal to NULL) instead of attaching the child list of the second tree. -/
theorem join_into_childless_root_aborts (tree2 : Option NodePtr) :
    (freesasa_result_tree_new good_env 0).1 = empty_root ∧
    freesasa_result_tree_join empty_root tree2 = none ∧
    freesasa_result_tree_join empty_root
      (some (root_with (small_run_node 1 (some (small_area "A" 6)) NULL))) = none := by
  refine ⟨by decide, ?_, by decide⟩
  cases tree2 with
  | none => rfl
  | some t =>
    cases t with
    | NULL => rfl
    | node d c n =>
      simp only [freesasa_result_tree_join, empty_root]
      split <;> rfl

/-- C6: `freesasa_result_node_free` returns failure and releases nothing when the node has
a parent; it returns success and releases nothing for NULL; for a node without parent it
returns success and releases the node and every node below it, and nothing else. -/
theorem node_free_guard :
    freesasa_result_node_free NULL = (FREESASA_SUCCESS, []) ∧
    FREESASA_FAIL ≠ FREESASA_SUCCESS ∧
    (∀ (d : freesasa_result_node) (c n : NodePtr) (q : Nat),
      freesasa_result_node_free (node { d with parent := some q } c n) = (FREESASA_FAIL, [])) ∧
    (∀ (d : freesasa_result_node) (c n : NodePtr),
      (freesasa_result_node_free (node { d with parent := none } c n)).1 = FREESASA_SUCCESS ∧
      ∀ x : Nat, x ∈ (freesasa_result_node_free (node { d with parent := none } c n)).2 ↔
        x = d.addr ∨ x ∈ (all_nodes c).map (fun e => e.addr)) := by
  refine ⟨rfl, by decide, ?_, ?_⟩
  · intro d c n q
    simp [freesasa_result_node_free]
  · intro d c n
    refine ⟨by simp [freesasa_result_node_free], ?_⟩
    intro x
    simp only [freesasa_result_node_free, ne_eq, not_true_eq_false, if_false, result_node_free,
      List.mem_append, List.mem_singleton, free_siblings_mem]
    tauto

/-- C7, at the failing input: in the tree built by `freesasa_result_tree_new` and one
successful `freesasa_result_tree_add_result`, the computation-run node is not the root,
yet it has no parent, so `freesasa_result_node_free` on it returns success and releases
its whole subtree while the root still links to it. -/
theorem run_node_free_succeeds :
    freesasa_result_tree_new good_env 0 = (empty_root, 1) ∧
    freesasa_result_tree_add_result good_env empty_root small_result small_structure
        (some "run") 1
      = some (FREESASA_SUCCESS, root_with (small_run_node 1 (some (small_area "A" 6)) NULL), 21) ∧
    (small_run 1).type = FREESASA_NODE_RESULT ∧
    freesasa_result_node_free (small_run_node 1 (some (small_area "A" 6)) NULL)
      = (FREESASA_SUCCESS, [12, 15, 9, 7, 4, 1]) := by
  refine ⟨by decide, by with_unfolding_all decide, rfl, by decide⟩

/-- C8: when `freesasa_result_tree_add_result` returns failure, the tree it returns is the
tree it was given. -/
theorem add_result_failure_keeps_tree (E : Env) (tree : NodePtr) (R : freesasa_result)
    (S : freesasa_structure) (name : Option String) (k : Nat) (st : Int) (tree1 : NodePtr)
    (k1 : Nat)
    (h : freesasa_result_tree_add_result E tree R S name k = some (st, tree1, k1))
    (hf : st ≠ FREESASA_SUCCESS) : st = FREESASA_FAIL ∧ tree1 = tree := by
  unfold freesasa_result_tree_add_result at h
  simp only at h
  split at h
  · simp at h
    exact ⟨h.1.symm, h.2.1.symm⟩
  · split at h
    · simp at h
      exact ⟨h.1.symm, h.2.1.symm⟩
    · split at h
      · simp at h
      · simp at h
        exact ⟨h.1.symm, h.2.1.symm⟩
      · simp at h
      · split at h
        · simp at h
        · simp at h
          exact absurd h.1.symm hf

/-- Witness of C8: the allocator fails on the request for the second atom node, after the
first atom was built and linked; the call fails and returns the tree it was given. -/
theorem add_result_failure_keeps_tree_witness :
    freesasa_result_tree_add_result (failing_env 15) empty_root small_result small_structure
        (some "run") 1 = some (FREESASA_FAIL, empty_root, 16) ∧
    FREESASA_FAIL ≠ FREESASA_SUCCESS ∧
    (FREESASA_FAIL = FREESASA_FAIL ∧ empty_root = empty_root) :=
  ⟨by decide, by decide,
   add_result_failure_keeps_tree (failing_env 15) empty_root small_result small_structure
     (some "run") 1 FREESASA_FAIL empty_root 16 (by decide) (by decide)⟩

/-- C9: a residue node generated for a non-empty atom range records as its atom count the
number of its direct children, and a chain node generated for a non-empty residue range
records as its residue count the number of its direct children. -/
theorem residue_and_chain_counts (E : Env) (S : freesasa_structure) (R : freesasa_result)
    (i : Int) (k : Nat) (d : freesasa_result_node) (c n : NodePtr) (k1 : Nat) :
    (result_node_residue E S R i k = some (node d c n, k1) →
      (S.residue_atoms i).1 ≤ (S.residue_atoms i).2 →
      freesasa_result_node_residue_n_atoms d = some ((sibling_list c).length : Int)) ∧
    (∀ ch, result_node_chain E S R i k = some (node d c n, k1) →
      chain_label S.chain_labels i = some ch →
      (S.chain_residues ch).1 ≤ (S.chain_residues ch).2 →
      freesasa_result_node_chain_n_residues d = some ((sibling_list c).length : Int)) := by
  constructor
  · intro h hr
    obtain ⟨k2, hgen⟩ := result_node_residue_inv _ _ _ _ _ _ _ _ _ h
    obtain ⟨a, c1, hp, hlen, _⟩ := gen_children_success _ _ _ _ _ _ _ _ _ _ _ _ hgen
    simp only [node.injEq] at hp
    obtain ⟨hd, hc, _⟩ := hp
    subst hd hc
    simp only [freesasa_result_node_residue_n_atoms, if_true, hlen, Option.some.injEq]
    push_cast
    omega
  · intro ch h hch hr
    obtain ⟨ch1, k2, hch1, hgen⟩ := result_node_chain_inv _ _ _ _ _ _ _ _ _ h
    rw [hch] at hch1
    simp only [Option.some.injEq] at hch1
    subst hch1
    obtain ⟨a, c1, hp, hlen, _⟩ := gen_children_success _ _ _ _ _ _ _ _ _ _ _ _ hgen
    simp only [node.injEq] at hp
    obtain ⟨hd, hc, _⟩ := hp
    subst hd hc
    simp only [freesasa_result_node_chain_n_residues, if_true, hlen, Option.some.injEq]
    push_cast
    omega

/-- Witness of C9: the residue of `small_structure` has two atoms and two children, and
its chain has one residue and one child. -/
theorem residue_and_chain_counts_witness :
    (result_node_residue good_env small_structure small_result 0 0
        = some (node (small_residue 0 none) (small_atoms 3 0) NULL, 10) ∧
      (small_structure.residue_atoms 0).1 ≤ (small_structure.residue_atoms 0).2 ∧
      freesasa_result_node_residue_n_atoms (small_residue 0 none)
        = some ((sibling_list (small_atoms 3 0)).length : Int)) ∧
    (result_node_chain good_env small_structure small_result 0 0
        = some (node (small_chain 0 none) (small_chain_children 0) NULL, 13) ∧
      chain_label small_structure.chain_labels 0 = some 'A' ∧
      (small_structure.chain_residues 'A').1 ≤ (small_structure.chain_residues 'A').2 ∧
      freesasa_result_node_chain_n_residues (small_chain 0 none)
        = some ((sibling_list (small_chain_children 0)).length : Int)) :=
  ⟨⟨by with_unfolding_all decide, by decide,
    (residue_and_chain_counts good_env small_structure small_result 0 0 (small_residue 0 none)
      (small_atoms 3 0) NULL 10).1 (by with_unfolding_all decide) (by decide)⟩,
   ⟨by with_unfolding_all decide, by decide, by decide,
    (residue_and_chain_counts good_env small_structure small_result 0 0 (small_chain 0 none)
      (small_chain_children 0) NULL 13).2 (Char.ofNat 65) (by with_unfolding_all decide)
      (by decide) (by decide)⟩⟩

/-- C10: a generated structure node of a consistent structure records as its chain count
the number of its direct children, which is also the length of the chain-label string it
records. -/
theorem structure_counts (E : Env) (S : freesasa_structure) (R : freesasa_result)
    (i : Int) (k : Nat) (d : freesasa_result_node) (c n : NodePtr) (k1 : Nat)
    (h : result_node_structure E S R i k = some (node d c n, k1))
    (hS : structure_consistent S) :
    freesasa_result_node_structure_n_chains d = some ((sibling_list c).length : Int) ∧
    ∃ labels : String,
      freesasa_result_node_structure_chain_labels d = some (some labels) ∧
      freesasa_result_node_structure_n_chains d = some (labels.length : Int) := by
  obtain ⟨k2, hgen⟩ := result_node_structure_inv _ _ _ _ _ _ _ _ _ h
  obtain ⟨a, c1, hp, hlen, fd, fc, fn, k3, hng⟩ :=
    gen_children_success _ _ _ _ _ _ _ _ _ _ _ _ hgen
  simp only [node.injEq] at hp
  obtain ⟨hd, hc, _⟩ := hp
  subst hd hc
  obtain ⟨ch, _, hch, _⟩ := result_node_chain_inv _ _ _ _ _ _ _ _ _ hng
  have hpos : 1 ≤ S.chain_labels.length := by
    simp only [chain_label, le_refl, if_true, Int.toNat_zero] at hch
    cases hdata : S.chain_labels.data with
    | nil => rw [hdata] at hch; simp at hch
    | cons x xs =>
      have : S.chain_labels.length = (x :: xs).length := by rw [← hdata]; rfl
      rw [this]; simp
  unfold structure_consistent at hS
  refine ⟨?_, S.chain_labels, ?_, ?_⟩
  · simp only [freesasa_result_node_structure_n_chains, if_true, hlen, Option.some.injEq]
    push_cast
    omega
  · simp [freesasa_result_node_structure_chain_labels]
  · simp [freesasa_result_node_structure_n_chains, hS]

/-- Witness of C10: the structure node of `small_structure`, one chain and the label
string "A". -/
theorem structure_counts_witness :
    result_node_structure good_env small_structure small_result 0 0
      = some (node (small_struct 0 none (some (small_area "A" 6))) (small_struct_children 0)
          NULL, 17) ∧
    structure_consistent small_structure ∧
    freesasa_result_node_structure_n_chains (small_struct 0 none (some (small_area "A" 6)))
      = some ((sibling_list (small_struct_children 0)).length : Int) :=
  ⟨by with_unfolding_all decide, by unfold structure_consistent; decide,
   (structure_counts good_env small_structure small_result 0 0
      (small_struct 0 none (some (small_area "A" 6))) (small_struct_children 0) NULL 17
      (by with_unfolding_all decide) (by unfold structure_consistent; decide)).1⟩

/-- C11: the direct children of a generated structure node are chain nodes, and the child
at position `j` is named by the one character at position `j` of the chain-label string
the node records; for a consistent structure there are as many children as labels, so for
the labels "AB" the children are chain "A" then chain "B". -/
theorem structure_children_follow_labels (E : Env) (S : freesasa_structure)
    (R : freesasa_result) (i : Int) (k : Nat) (d : freesasa_result_node) (c n : NodePtr)
    (k1 : Nat) (h : result_node_structure E S R i k = some (node d c n, k1)) :
    freesasa_result_node_structure_chain_labels d = some (some S.chain_labels) ∧
    (structure_consistent S → (sibling_list c).length = S.chain_labels.length) ∧
    ∀ (j : Nat) (x : freesasa_result_node × NodePtr), (sibling_list c)[j]? = some x →
      x.1.type = FREESASA_NODE_CHAIN ∧
      ∃ ch, S.chain_labels.data[j]? = some ch ∧ x.1.name = some (String.singleton ch) := by
  obtain ⟨k2, hgen⟩ := result_node_structure_inv _ _ _ _ _ _ _ _ _ h
  obtain ⟨hty, hp⟩ := (generated_payload E S R i k d c n k1).2.2.2 h
  refine ⟨by simp [freesasa_result_node_structure_chain_labels, hty, hp],
    structure_children_count E S R i k d c n k1 h, ?_⟩
  intro j x hx
  obtain ⟨d0, n0, k0, k3, hng, hx1⟩ := (gen_children_children _ _ _ _ _ _ _ _ _ _ _ _ _ _ hgen).2 j x hx
  obtain ⟨ch, a, _, _, _, _, _, _, hch, hd0, _⟩ := result_node_chain_shape _ _ _ _ _ _ _ _ _ hng
  rw [hx1, hd0]
  refine ⟨rfl, ch, ?_, rfl⟩
  simpa [chain_label] using hch

/-- Witness of C11: for the labels "AB" the first child is chain "A" and the second is
chain "B". -/
theorem structure_children_follow_labels_witness :
    result_node_structure good_env two_chain_structure small_result 0 0
      = some (node (two_chain_struct 0) (two_chain_children 0) NULL, 30) ∧
    ((sibling_list (two_chain_children 0)).map (fun x => (x.1.type, x.1.name))
      = [(FREESASA_NODE_CHAIN, some "A"), (FREESASA_NODE_CHAIN, some "B")]) ∧
    ∀ (j : Nat) (x : freesasa_result_node × NodePtr),
      (sibling_list (two_chain_children 0))[j]? = some x →
      x.1.type = FREESASA_NODE_CHAIN ∧
      ∃ ch, two_chain_structure.chain_labels.data[j]? = some ch ∧
        x.1.name = some (String.singleton ch) :=
  ⟨by with_unfolding_all decide, by decide,
   (structure_children_follow_labels good_env two_chain_structure small_result 0 0
      (two_chain_struct 0) (two_chain_children 0) NULL 30 (by with_unfolding_all decide)).2.2⟩

/-- C12, at the failing input: in the tree built by `freesasa_result_tree_new` and one
successful `freesasa_result_tree_add_result`, the child list of the root (address 0) holds
the run node (address 1), whose parent is NULL and not the root; below it every node has
as parent the node whose child list holds it. -/
theorem run_node_has_no_parent :
    freesasa_result_tree_new good_env 0 = (empty_root, 1) ∧
    freesasa_result_tree_add_result good_env empty_root small_result small_structure
        (some "run") 1
      = some (FREESASA_SUCCESS, root_with (small_run_node 1 (some (small_area "A" 6)) NULL), 21) ∧
    (sibling_list (root_with (small_run_node 1 (some (small_area "A" 6)) NULL)).child_ptr).map
        (fun x => (x.1.addr, x.1.type, x.1.parent))
      = [(1, FREESASA_NODE_RESULT, none)] ∧
    (all_nodes (root_with (small_run_node 1 (some (small_area "A" 6)) NULL))).map
        (fun d => (d.addr, d.parent))
      = [(0, none), (1, none), (4, some 1), (7, some 4), (9, some 7), (12, some 9),
         (15, some 9)] := by
  refine ⟨by decide, by with_unfolding_all decide, by decide, by decide⟩

/-- C13, at the failing input: when the allocator fails only on the request for the area
record of the structure node, the build returns success and the tree holds a structure
node without area, next to a chain, a residue and atoms that have one. -/
theorem built_structure_node_without_area :
    freesasa_result_tree_new (failing_env 20) 0 = (empty_root, 1) ∧
    (freesasa_result_tree_add_result (failing_env 20) empty_root small_result
        small_structure (some "run") 1).map
      (fun r => (r.1, (all_nodes r.2.1).map (fun d => (d.type, d.area.isSome))))
      = some (FREESASA_SUCCESS,
          [(FREESASA_NODE_ROOT, false), (FREESASA_NODE_RESULT, false),
           (FREESASA_NODE_STRUCTURE, false), (FREESASA_NODE_CHAIN, true),
           (FREESASA_NODE_RESIDUE, true), (FREESASA_NODE_ATOM, true),
           (FREESASA_NODE_ATOM, true)]) := by
  refine ⟨by decide, by with_unfolding_all decide⟩

/-- C14: whenever `freesasa_result_tree_join` returns, the fields and the next pointer of
the first root are as before, the handle of the second tree is NULL, and the child list of
the first root is the old one followed by the child list of the second root: every
top-level node keeps its fields and its whole subtree, and the nodes below the two roots
are the same nodes in the same order. -/
theorem join_only_relinks (tree1 : NodePtr) (tree2 : Option NodePtr) (st : Int)
    (t1 h2 : NodePtr) (h : freesasa_result_tree_join tree1 tree2 = some (st, t1, h2)) :
    ∃ d1 c1 n1 d2 c2 n2 c,
      tree1 = node d1 c1 n1 ∧ tree2 = some (node d2 c2 n2) ∧
      t1 = node d1 c n1 ∧ h2 = NULL ∧
      sibling_list c = sibling_list c1 ++ sibling_list c2 ∧
      all_nodes c = all_nodes c1 ++ all_nodes c2 := by
  obtain ⟨d1, cd, cc, cn, n1, d2, c2, n2, ht1, ht2, _, _, _, ht, hh⟩ := join_inv _ _ _ _ _ h
  exact ⟨d1, _, n1, d2, c2, n2, _, ht1, ht2, ht, hh, join_last_list _ _ _ _,
    join_last_all_nodes _ _ _ _⟩

/-- Witness of C14: joining the root with the one run at address 1 and the root with the
runs at addresses 30 and 60. -/
theorem join_only_relinks_witness :
    freesasa_result_tree_join (root_with (small_run_node 1 none NULL))
        (some (root_with (small_run_node 30 none (small_run_node 60 none NULL))))
      = some (FREESASA_SUCCESS,
          root_with (small_run_node 1 none (small_run_node 30 none (small_run_node 60 none NULL))),
          NULL) ∧
    ∃ d1 c1 n1 d2 c2 n2 c,
      root_with (small_run_node 1 none NULL) = node d1 c1 n1 ∧
      some (root_with (small_run_node 30 none (small_run_node 60 none NULL)))
        = some (node d2 c2 n2) ∧
      root_with (small_run_node 1 none (small_run_node 30 none (small_run_node 60 none NULL)))
        = node d1 c n1 ∧
      NULL = NULL ∧
      sibling_list c = sibling_list c1 ++ sibling_list c2 ∧
      all_nodes c = all_nodes c1 ++ all_nodes c2 :=
  ⟨by decide, join_only_relinks _ _ FREESASA_SUCCESS _ _ (by decide)⟩

/-- C15: after a successful `freesasa_result_tree_add_result` the new first child of the
root is a node of type computation run, with the name given, the classifier name of the
structure, structure count 1, no area, and exactly one child, a structure node. -/
theorem add_result_attaches_run_node (E : Env) (tree : NodePtr) (R : freesasa_result)
    (S : freesasa_structure) (name : Option String) (k : Nat) (tree1 : NodePtr) (k1 : Nat)
    (h : freesasa_result_tree_add_result E tree R S name k
      = some (FREESASA_SUCCESS, tree1, k1)) :
    ∃ td tc tn rd sd sc,
      tree = node td tc tn ∧ tree1 = node td (node rd (node sd sc NULL) tc) tn ∧
      rd.type = FREESASA_NODE_RESULT ∧ rd.name = name ∧
      freesasa_result_node_classified_by rd = some (some S.classifier_name) ∧
      rd.prop = result_prop (some S.classifier_name) 1 ∧
      rd.area = none ∧
      sibling_list (node sd sc NULL) = [(sd, sc)] ∧
      sd.type = FREESASA_NODE_STRUCTURE := by
  obtain ⟨td, tc, tn, sd, sc, sn, k2, k3, ht, ht1, hs⟩ := add_result_shape _ _ _ _ _ _ _ _ h
  obtain ⟨hty, _⟩ := (generated_payload E S R 0 k2 sd sc sn k3).2.2.2 hs
  exact ⟨td, tc, tn, _, { sd with parent := some k }, sc, ht, ht1, rfl, rfl, rfl, rfl, rfl, rfl,
    hty⟩

/-- Witness of C15: the run node attached for `small_structure` under the name "run". -/
theorem add_result_attaches_run_node_witness :
    freesasa_result_tree_add_result good_env empty_root small_result small_structure
        (some "run") 1
      = some (FREESASA_SUCCESS, root_with (small_run_node 1 (some (small_area "A" 6)) NULL), 21) ∧
    ∃ td tc tn rd sd sc,
      empty_root = node td tc tn ∧
      root_with (small_run_node 1 (some (small_area "A" 6)) NULL)
        = node td (node rd (node sd sc NULL) tc) tn ∧
      rd.type = FREESASA_NODE_RESULT ∧ rd.name = some "run" ∧
      freesasa_result_node_classified_by rd = some (some small_structure.classifier_name) ∧
      rd.prop = result_prop (some small_structure.classifier_name) 1 ∧
      rd.area = none ∧
      sibling_list (node sd sc NULL) = [(sd, sc)] ∧
      sd.type = FREESASA_NODE_STRUCTURE :=
  ⟨by with_unfolding_all decide,
   add_result_attaches_run_node good_env empty_root small_result small_structure (some "run") 1
     _ 21 (by with_unfolding_all decide)⟩

/-- C16: for a structure with a non-empty classifier name, chain labels "A", one chain,
residue range [0,75] for chain A, residue 0 "MET" with number "1" and atoms [0,7], atom 0
"N", backbone, polar, with positive radius and positive area: the build on a root returns
success when no allocation fails, and every successful build puts at the head of the root
a run node with that classifier name, over one structure node (labels "A", 1 chain), over
one chain node "A" with 76 residues and 76 children, whose first child is the residue
"MET" number "1" with 8 atoms and 8 children, whose first child is the atom "N" with
is_polar and is_mainchain true, positive radius and positive area total. -/
theorem end_to_end_tree (E : Env) (S : freesasa_structure) (R : freesasa_result)
    (td : freesasa_result_node) (tc tn : NodePtr) (name : Option String) (k : Nat)
    (hcls : S.classifier_name ≠ "") (hlab : S.chain_labels = "A") (hnc : S.n_chains = 1)
    (hres : S.chain_residues 'A' = (0, 75))
    (hname : S.residue_name 0 = "MET") (hnum : S.residue_number 0 = "1")
    (hatoms : S.residue_atoms 0 = (0, 7))
    (haname : S.atom_name 0 = "N") (hbb : E.freesasa_atom_is_backbone "N" ≠ 0)
    (hpol : S.atom_class 0 = FREESASA_ATOM_POLAR) (hrad : 0 < S.atom_radius 0)
    (hsasa : 0 < R.sasa 0) :
    ((∀ j, E.malloc_fails j = false) →
      ∃ tree1 k1, freesasa_result_tree_add_result E (node td tc tn) R S name k
        = some (FREESASA_SUCCESS, tree1, k1)) ∧
    ∀ tree1 k1,
      freesasa_result_tree_add_result E (node td tc tn) R S name k
        = some (FREESASA_SUCCESS, tree1, k1) →
      ∃ rund sd cd resd ress ad atoms,
        tree1 = node td
          (node rund (node sd (node cd (node resd (node ad NULL atoms) ress) NULL) NULL) tc)
          tn ∧
        rund.type = FREESASA_NODE_RESULT ∧
        (∃ cls, freesasa_result_node_classified_by rund = some (some cls) ∧ cls ≠ "") ∧
        freesasa_result_node_structure_chain_labels sd = some (some "A") ∧
        freesasa_result_node_structure_n_chains sd = some 1 ∧
        cd.type = FREESASA_NODE_CHAIN ∧ cd.name = some "A" ∧
        freesasa_result_node_chain_n_residues cd = some 76 ∧
        (sibling_list (node resd (node ad NULL atoms) ress)).length = 76 ∧
        resd.name = some "MET" ∧
        freesasa_result_node_residue_number resd = some (some "1") ∧
        freesasa_result_node_residue_n_atoms resd = some 8 ∧
        (sibling_list (node ad NULL atoms)).length = 8 ∧
        ad.name = some "N" ∧
        freesasa_result_node_atom_is_polar ad = some 1 ∧
        (∃ b, freesasa_result_node_atom_is_mainchain ad = some b ∧ b ≠ 0) ∧
        (∃ r, freesasa_result_node_atom_radius ad = some r ∧ 0 < r) ∧
        (∃ a, freesasa_result_node_area ad = some (some a) ∧ 0 < a.total) := by
  have hl0 : chain_label S.chain_labels 0 = some 'A' := by rw [hlab]; decide
  constructor
  · intro hm
    apply add_result_succeeds E hm
    intro j h0 h1
    have : j = 0 := by rw [hnc] at h1; simp at h1; omega
    rw [this]
    exact ⟨_, hl0⟩
  · intro tree1 k1 h
    obtain ⟨td1, tc1, tn1, sd, sc, sn, k2, k3, ht, ht1, hs⟩ := add_result_shape _ _ _ _ _ _ _ _ h
    simp only [node.injEq] at ht
    obtain ⟨htd, htc, htn⟩ := ht
    subst htd htc htn
    obtain ⟨sa, cd, cc, cn, k4, k5, srest, hsd, hsc, _, hc, hslen⟩ :=
      result_node_structure_shape _ _ _ _ _ _ _ _ _ hs
    have hsrest : srest = NULL := by
      apply sibling_list_length_zero
      rw [hslen, hnc]; rfl
    obtain ⟨ch, ca, rd, rc, rn, k6, k7, crest, hch, hcd, hcc, _, hr, hclen⟩ :=
      result_node_chain_shape _ _ _ _ _ _ _ _ _ hc
    rw [hl0] at hch
    simp only [Option.some.injEq] at hch
    subst hch
    rw [hres] at hr hclen hcd
    simp only at hr hclen hcd
    obtain ⟨ra, ad, ac, an, k8, k9, rrest, hrd, hrc, _, ha, hrlen⟩ :=
      result_node_residue_shape _ _ _ _ _ _ _ _ _ hr
    rw [hatoms] at ha hrlen hrd
    simp only at ha hrlen hrd
    obtain ⟨had, hac, _, _⟩ := result_node_atom_inv _ _ _ _ _ _ _ _ _ ha
    subst hsrest hac
    refine ⟨{ addr := k, name := name, type := FREESASA_NODE_RESULT,
              prop := result_prop (some S.classifier_name) 1, area := none, parent := none },
      { sd with parent := some k }, { cd with parent := some k2 },
      { rd with parent := some k4 }, crest, { ad with parent := some k6 }, rrest, ?_, rfl,
      ⟨S.classifier_name, rfl, hcls⟩, ?_, ?_, ?_, ?_, ?_, ?_, ?_, ?_, ?_, ?_, ?_, ?_, ?_, ?_, ?_⟩
    · rw [ht1, hsc, hcc, hrc]
    · simp [freesasa_result_node_structure_chain_labels, hsd, hlab]
    · simp [freesasa_result_node_structure_n_chains, hsd, hnc]
    · simp [hcd]
    · simp [hcd]; rfl
    · simp [freesasa_result_node_chain_n_residues, hcd]
    · simp [sibling_list, hclen]
    · simp [hrd, hname]
    · simp [freesasa_result_node_residue_number, hrd, hnum]
    · simp [freesasa_result_node_residue_n_atoms, hrd]
    · simp [sibling_list, hrlen]
    · simp [had, haname]
    · simp [freesasa_result_node_atom_is_polar, had, hpol]
    · refine ⟨E.freesasa_atom_is_backbone "N", ?_, hbb⟩
      simp [freesasa_result_node_atom_is_mainchain, had, haname]
    · exact ⟨S.atom_radius 0, by simp [freesasa_result_node_atom_radius, had], hrad⟩
    · refine ⟨freesasa_atom_nodearea E (E.malloc_garbage (k8 + 2)) S R 0, ?_, ?_⟩
      · simp [freesasa_result_node_area, had]
      · rw [freesasa_atom_nodearea_total]; exact hsasa

/-- Witness of C16: `ubq_structure` with areas 3 under an allocator that never fails. -/
theorem end_to_end_tree_witness :
    (ubq_structure.classifier_name ≠ "" ∧ ubq_structure.chain_labels = "A" ∧
      ubq_structure.n_chains = 1 ∧ ubq_structure.chain_residues 'A' = (0, 75) ∧
      ubq_structure.residue_name 0 = "MET" ∧ ubq_structure.residue_number 0 = "1" ∧
      ubq_structure.residue_atoms 0 = (0, 7) ∧ ubq_structure.atom_name 0 = "N" ∧
      good_env.freesasa_atom_is_backbone "N" ≠ 0 ∧
      ubq_structure.atom_class 0 = FREESASA_ATOM_POLAR ∧ 0 < ubq_structure.atom_radius 0 ∧
      0 < small_result.sasa 0) ∧
    (∀ j, good_env.malloc_fails j = false) ∧
    ∃ tree1 k1, freesasa_result_tree_add_result good_env empty_root small_result
        ubq_structure (some "run") 1 = some (FREESASA_SUCCESS, tree1, k1) :=
  ⟨⟨by decide, by decide, by decide, by decide, by decide, by decide, by decide, by decide,
    by decide, by decide, by with_unfolding_all decide, by with_unfolding_all decide⟩,
   fun _ => rfl,
   (end_to_end_tree good_env ubq_structure small_result _ NULL NULL (some "run") 1
      (by decide) (by decide) (by decide) (by decide) (by decide) (by decide) (by decide)
      (by decide) (by decide) (by decide) (by with_unfolding_all decide)
      (by with_unfolding_all decide)).1 (fun _ => rfl)⟩

/-- C17: on a node whose union holds the member of its type, each type-gated accessor
fails its `assert` exactly when the node has another type, and otherwise returns the field
of the payload; and the payload of a node a generator returns is what the generator
recorded from the structure. -/
theorem accessors_type_gated :
    (∀ d : freesasa_result_node, well_tagged d = true →
      ((freesasa_result_node_classified_by d = none ↔ d.type ≠ FREESASA_NODE_RESULT) ∧
       (freesasa_result_node_atom_is_polar d = none ↔ d.type ≠ FREESASA_NODE_ATOM) ∧
       (freesasa_result_node_atom_is_mainchain d = none ↔ d.type ≠ FREESASA_NODE_ATOM) ∧
       (freesasa_result_node_atom_radius d = none ↔ d.type ≠ FREESASA_NODE_ATOM) ∧
       (freesasa_result_node_residue_n_atoms d = none ↔ d.type ≠ FREESASA_NODE_RESIDUE) ∧
       (freesasa_result_node_residue_number d = none ↔ d.type ≠ FREESASA_NODE_RESIDUE) ∧
       (freesasa_result_node_residue_reference d = none ↔ d.type ≠ FREESASA_NODE_RESIDUE) ∧
       (freesasa_result_node_chain_n_residues d = none ↔ d.type ≠ FREESASA_NODE_CHAIN) ∧
       (freesasa_result_node_structure_n_chains d = none ↔
          d.type ≠ FREESASA_NODE_STRUCTURE) ∧
       (freesasa_result_node_structure_chain_labels d = none ↔
          d.type ≠ FREESASA_NODE_STRUCTURE)) ∧
      (∀ cb ns, d.prop = result_prop cb ns →
        freesasa_result_node_classified_by d = some cb) ∧
      (∀ p b r, d.prop = atom_prop p b r →
        freesasa_result_node_atom_is_polar d = some p ∧
        freesasa_result_node_atom_is_mainchain d = some b ∧
        freesasa_result_node_atom_radius d = some r) ∧
      (∀ ref num na, d.prop = residue_prop ref num na →
        freesasa_result_node_residue_n_atoms d = some na ∧
        freesasa_result_node_residue_number d = some num ∧
        freesasa_result_node_residue_reference d = some ref) ∧
      (∀ nr, d.prop = chain_prop nr → freesasa_result_node_chain_n_residues d = some nr) ∧
      (∀ nc l, d.prop = structure_prop nc l →
        freesasa_result_node_structure_n_chains d = some nc ∧
        freesasa_result_node_structure_chain_labels d = some l)) ∧
    (∀ (E : Env) (S : freesasa_structure) (R : freesasa_result) (i : Int) (k : Nat)
        (d : freesasa_result_node) (c n : NodePtr) (k1 : Nat),
      (result_node_atom E S R i k = some (node d c n, k1) →
        well_tagged d = true ∧
        freesasa_result_node_atom_is_polar d
          = some (if S.atom_class i = FREESASA_ATOM_POLAR then 1 else 0) ∧
        freesasa_result_node_atom_is_mainchain d
          = some (E.freesasa_atom_is_backbone (S.atom_name i)) ∧
        freesasa_result_node_atom_radius d = some (S.atom_radius i)) ∧
      (result_node_residue E S R i k = some (node d c n, k1) →
        well_tagged d = true ∧
        freesasa_result_node_residue_n_atoms d
          = some ((S.residue_atoms i).2 - (S.residue_atoms i).1 + 1) ∧
        freesasa_result_node_residue_number d = some (some (S.residue_number i)) ∧
        freesasa_result_node_residue_reference d = some (S.residue_reference i)) ∧
      (result_node_chain E S R i k = some (node d c n, k1) →
        well_tagged d = true ∧
        ∃ ch, chain_label S.chain_labels i = some ch ∧
          freesasa_result_node_chain_n_residues d
            = some ((S.chain_residues ch).2 - (S.chain_residues ch).1 + 1)) ∧
      (result_node_structure E S R i k = some (node d c n, k1) →
        well_tagged d = true ∧
        freesasa_result_node_structure_n_chains d = some S.n_chains ∧
        freesasa_result_node_structure_chain_labels d = some (some S.chain_labels))) ∧
    (∀ (E : Env) (tree : NodePtr) (R : freesasa_result) (S : freesasa_structure)
        (name : Option String) (k : Nat) (tree1 : NodePtr) (k1 : Nat),
      freesasa_result_tree_add_result E tree R S name k
        = some (FREESASA_SUCCESS, tree1, k1) →
      ∃ rd, tree1.child_ptr.fields = some rd ∧ well_tagged rd = true ∧
        freesasa_result_node_classified_by rd = some (some S.classifier_name)) := by
  refine ⟨?_, ?_, ?_⟩
  · intro d hd
    obtain ⟨addr, name, type, prop, area, parent⟩ := d
    cases type <;> cases prop <;>
      simp_all [well_tagged, freesasa_result_node_classified_by,
        freesasa_result_node_atom_is_polar, freesasa_result_node_atom_is_mainchain,
        freesasa_result_node_atom_radius, freesasa_result_node_residue_n_atoms,
        freesasa_result_node_residue_number, freesasa_result_node_residue_reference,
        freesasa_result_node_chain_n_residues, freesasa_result_node_structure_n_chains,
        freesasa_result_node_structure_chain_labels]
  · intro E S R i k d c n k1
    obtain ⟨ha, hr, hc, hs⟩ := generated_payload E S R i k d c n k1
    refine ⟨?_, ?_, ?_, ?_⟩
    · intro h
      obtain ⟨hty, hp⟩ := ha h
      simp [well_tagged, freesasa_result_node_atom_is_polar,
        freesasa_result_node_atom_is_mainchain, freesasa_result_node_atom_radius, hty, hp]
    · intro h
      obtain ⟨hty, hp⟩ := hr h
      simp [well_tagged, freesasa_result_node_residue_n_atoms,
        freesasa_result_node_residue_number, freesasa_result_node_residue_reference, hty, hp]
    · intro h
      obtain ⟨hty, ch, hch, hp⟩ := hc h
      refine ⟨by simp [well_tagged, hty, hp], ch, hch, ?_⟩
      simp [freesasa_result_node_chain_n_residues, hty, hp]
    · intro h
      obtain ⟨hty, hp⟩ := hs h
      simp [well_tagged, freesasa_result_node_structure_n_chains,
        freesasa_result_node_structure_chain_labels, hty, hp]
  · intro E tree R S name k tree1 k1 h
    obtain ⟨td, tc, tn, sd, sc, sn, k2, k3, _, ht1, _⟩ := add_result_shape _ _ _ _ _ _ _ _ h
    rw [ht1]
    exact ⟨_, rfl, rfl, rfl⟩

/-- Witness of C17: the atom node of `small_structure` built at address 0 answers the atom
accessors and fails the residue accessor. -/
theorem accessors_type_gated_witness :
    well_tagged (small_atom 0 none) = true ∧
    result_node_atom good_env small_structure small_result 0 0
      = some (node (small_atom 0 none) NULL NULL, 3) ∧
    (freesasa_result_node_residue_n_atoms (small_atom 0 none) = none ↔
      (small_atom 0 none).type ≠ FREESASA_NODE_RESIDUE) ∧
    freesasa_result_node_atom_radius (small_atom 0 none)
      = some (small_structure.atom_radius 0) :=
  ⟨by decide, by with_unfolding_all decide,
   (accessors_type_gated.1 (small_atom 0 none) (by decide)).1.2.2.2.2.1,
   ((accessors_type_gated.2.1 good_env small_structure small_result 0 0 (small_atom 0 none)
      NULL NULL 3).1 (by with_unfolding_all decide)).2.2.2⟩

/-- C18, the claim as stated fails: with a first argument of type computation run the call
returns nothing at all, so no failure status reaches the caller. -/
theorem join_non_root_returns_nothing :
    (small_run 1).type ≠ FREESASA_NODE_ROOT ∧
    freesasa_result_tree_join (small_run_node 1 none NULL) (some empty_root) = none ∧
    ¬ ∃ st t1 h2, freesasa_result_tree_join (small_run_node 1 none NULL) (some empty_root)
        = some (st, t1, h2) := by
  refine ⟨by decide, by decide, ?_⟩
  rintro ⟨st, t1, h2, h⟩
  have : freesasa_result_tree_join (small_run_node 1 none NULL) (some empty_root) = none := by
    decide
  rw [this] at h
  exact Option.noConfusion h

/-- C18 as amended: when either argument is not of type root, the call ends on a failed
`assert` before it writes anything; it returns no status. -/
theorem join_non_root_aborts (d1 d2 : freesasa_result_node) (c1 n1 c2 n2 : NodePtr)
    (h : d1.type ≠ FREESASA_NODE_ROOT ∨ d2.type ≠ FREESASA_NODE_ROOT) :
    freesasa_result_tree_join (node d1 c1 n1) (some (node d2 c2 n2)) = none := by
  unfold freesasa_result_tree_join
  simp only
  split
  · rename_i hty
    rcases h with h | h
    · exact absurd hty.1 h
    · exact absurd hty.2 h
  · rfl

/-- Witness of C18 as amended: a second argument of type computation run. -/
theorem join_non_root_aborts_witness :
    (small_run 1).type ≠ FREESASA_NODE_ROOT ∧
    freesasa_result_tree_join empty_root (some (small_run_node 1 none NULL)) = none :=
  ⟨by decide,
   join_non_root_aborts _ (small_run 1) NULL NULL _ NULL (Or.inr (by decide))⟩

/-- C19: for a range `first <= last` on which every call of the generator, made in
ascending index order, returns a node, `result_node_gen_children` makes the child list of
the parent exactly those `last - first + 1` nodes in that order, each with its parent set
to the parent, the last one without next sibling, and then runs the aggregation on the
parent. -/
theorem gen_children_in_order (E : Env) (pd : freesasa_result_node) (pc pn : NodePtr)
    (S : freesasa_structure) (R : freesasa_result) (first last : Int) (ng : node_generator)
    (k : Nat) (l : List (freesasa_result_node × NodePtr)) (k1 : Nat) (hr : first ≤ last)
    (hg : generate_in_order ng S R (last - first + 1).toNat first k = some (l, k1)) :
    result_node_gen_children E (node pd pc pn) S R first last ng k
      = (result_node_add_area E (node pd (link_children pd.addr l) pn) k1).map
          (fun r => (true, r.2.1, r.2.2)) ∧
    (l.length : Int) = last - first + 1 ∧
    sibling_list (link_children pd.addr l)
      = l.map (fun x => ({ x.1 with parent := some pd.addr }, x.2)) ∧
    ∀ (j : Nat) (x : freesasa_result_node × NodePtr), l[j]? = some x →
      ∃ k0 n0 k2, ng S R (first + j) k0 = some (node x.1 x.2 n0, k2) := by
  have hn : (last - first + 1).toNat = (last - first).toNat + 1 := by omega
  refine ⟨?_, ?_, sibling_list_link_children _ _, generate_in_order_elem _ _ _ _ _ _ _ _ hg⟩
  · rw [hn, generate_in_order] at hg
    split at hg
    · rename_i d c nx k2 hng
      split at hg
      · rename_i l1 k3 hrest
        simp at hg
        obtain ⟨h1, h2⟩ := hg
        subst h1 h2
        unfold result_node_gen_children
        rw [hng]
        simp only [loop_of_generate _ _ _ pd.addr _ _ _ _ _ hrest, link_children]
        cases result_node_add_area E
          (node pd (node { d with parent := some pd.addr } c (link_children pd.addr l1)) pn) k3 with
        | none => rfl
        | some r => rfl
      · simp at hg
    · simp at hg
  · rw [generate_in_order_length _ _ _ _ _ _ _ _ hg]
    omega

/-- Witness of C19: the two atoms of the residue of `small_structure`, generated under the
residue node at address 0. -/
theorem gen_children_in_order_witness :
    (0 : Int) ≤ 1 ∧
    generate_in_order (result_node_atom good_env) small_structure small_result
        ((1 : Int) - 0 + 1).toNat 0 3
      = some ([(small_atom 3 none, NULL), (small_atom 6 none, NULL)], 9) ∧
    result_node_gen_children good_env
        (node { small_residue 0 none with area := none } NULL NULL) small_structure
        small_result 0 1 (result_node_atom good_env) 3
      = some (true, node (small_residue 0 none) (small_atoms 3 0) NULL, 10) :=
  ⟨by decide, by with_unfolding_all decide,
   ((gen_children_in_order good_env { small_residue 0 none with area := none } NULL NULL
      small_structure small_result 0 1 (result_node_atom good_env) 3
      [(small_atom 3 none, NULL), (small_atom 6 none, NULL)] 9 (by decide)
      (by with_unfolding_all decide)).1).trans (by with_unfolding_all decide)⟩

/-- C20, the claim as stated fails: on a residue node whose two children carry an area,
when the request for the area record returns NULL the call returns failure and the node
has no area. -/
theorem add_area_allocation_failure :
    ({ small_residue 0 none with area := none } : freesasa_result_node).type
      = FREESASA_NODE_RESIDUE ∧
    (∀ x ∈ sibling_list (small_atoms 3 0), x.1.area ≠ none) ∧
    result_node_add_area (failing_env 9)
        (node { small_residue 0 none with area := none } (small_atoms 3 0) NULL) 9
      = some (FREESASA_FAIL,
          node { small_residue 0 none with area := none } (small_atoms 3 0) NULL, 10) := by
  refine ⟨rfl, by with_unfolding_all decide, by with_unfolding_all decide⟩

/-- C20 as amended: for a node of type structure, chain or residue whose direct children
all carry an area, when the request for the area record succeeds `result_node_add_area`
returns success and sets the area to the null area under the name of the node with the
areas of the children added in child order, so every numeric field is zero plus the sum
of that field over the children; when the request fails it returns failure and the node
has no area. -/
theorem add_area_sums_children (E : Env) (d : freesasa_result_node) (c n : NodePtr) (k : Nat)
    (hty : d.type = FREESASA_NODE_STRUCTURE ∨ d.type = FREESASA_NODE_CHAIN ∨
      d.type = FREESASA_NODE_RESIDUE)
    (hch : ∀ x ∈ sibling_list c, x.1.area ≠ none) :
    (E.malloc_fails k = false →
      ∃ a, result_node_add_area E (node d c n) k
          = some (FREESASA_SUCCESS, node { d with area := some a } c n, k + 1) ∧
        a = (child_areas c).foldl freesasa_add_nodearea
              { freesasa_nodearea_null with name := d.name } ∧
        a.name = d.name ∧
        a.total = (child_areas c).foldl (fun s t => s + t.total) 0 ∧
        a.main_chain = (child_areas c).foldl (fun s t => s + t.main_chain) 0 ∧
        a.side_chain = (child_areas c).foldl (fun s t => s + t.side_chain) 0 ∧
        a.polar = (child_areas c).foldl (fun s t => s + t.polar) 0 ∧
        a.apolar = (child_areas c).foldl (fun s t => s + t.apolar) 0 ∧
        a.unknown = (child_areas c).foldl (fun s t => s + t.unknown) 0) ∧
    (E.malloc_fails k = true →
      result_node_add_area E (node d c n) k
        = some (FREESASA_FAIL, node { d with area := none } c n, k + 1)) := by
  have h1 : ¬ (d.type = FREESASA_NODE_RESULT ∨ d.type = FREESASA_NODE_ATOM) := by
    rcases hty with h | h | h <;> simp [h]
  constructor
  · intro hm
    refine ⟨_, ?_, rfl, ?_⟩
    · simp only [result_node_add_area, h1, if_false, hm, Bool.false_eq_true,
        add_children_area_fold c _ hch]
    · have := fold_add_nodearea_fields (child_areas c)
        { freesasa_nodearea_null with name := d.name }
      simpa [freesasa_nodearea_null] using this
  · intro hm
    simp only [result_node_add_area, h1, if_false, hm, if_true]

/-- Witness of C20 as amended: the residue of `small_structure` with its two atoms of
area 3; the request succeeds and the total is 0 + 3 + 3. -/
theorem add_area_sums_children_witness :
    (small_residue 0 none).type = FREESASA_NODE_RESIDUE ∧
    (∀ x ∈ sibling_list (small_atoms 3 0), x.1.area ≠ none) ∧
    good_env.malloc_fails 9 = false ∧
    ∃ a, result_node_add_area good_env (node (small_residue 0 none) (small_atoms 3 0) NULL) 9
        = some (FREESASA_SUCCESS,
            node { small_residue 0 none with area := some a } (small_atoms 3 0) NULL, 10) ∧
      a.total = (child_areas (small_atoms 3 0)).foldl (fun s t => s + t.total) 0 :=
  ⟨rfl, by with_unfolding_all decide, rfl,
   match (add_area_sums_children good_env (small_residue 0 none) (small_atoms 3 0) NULL 9
      (Or.inr (Or.inr rfl)) (by with_unfolding_all decide)).1 rfl with
   | ⟨a, h1, _, _, h2, _⟩ => ⟨a, h1, h2⟩⟩

/-- C21, the claim as stated fails: on a root node the call is not a no-op; with a
successful allocation it gives the root an area record, the null area. -/
theorem add_area_on_root_sets_area :
    (freesasa_result_tree_new good_env 0).1 = empty_root ∧
    result_node_add_area good_env empty_root 1
      = some (FREESASA_SUCCESS, root_with_null_area, 2) ∧
    result_node_add_area good_env empty_root 1 ≠ some (FREESASA_SUCCESS, empty_root, 1) := by
  refine ⟨by decide, by with_unfolding_all decide, by with_unfolding_all decide⟩

/-- C21 as amended: for every node whose type is computation run or atom,
`result_node_add_area` returns success, requests nothing and leaves the node, its area
included, unchanged.  For a node of any other type, root included, it requests an area
record: when the request fails it returns failure and the node has no area; when the
request succeeds and every child has an area it returns success and the area of the node
is the null record with the name of the node to which the areas of the children are added
in child order; when the request succeeds and some child has no area the call does not
return. -/
theorem add_area_noop_on_run_and_atom (E : Env) (d : freesasa_result_node) (c n : NodePtr)
    (k : Nat) :
    (d.type = FREESASA_NODE_RESULT ∨ d.type = FREESASA_NODE_ATOM →
      result_node_add_area E (node d c n) k = some (FREESASA_SUCCESS, node d c n, k)) ∧
    (d.type ≠ FREESASA_NODE_RESULT → d.type ≠ FREESASA_NODE_ATOM →
      (E.malloc_fails k = true →
        result_node_add_area E (node d c n) k
          = some (FREESASA_FAIL, node { d with area := none } c n, k + 1)) ∧
      (E.malloc_fails k = false → (∀ x ∈ sibling_list c, x.1.area ≠ none) →
        ∃ a, result_node_add_area E (node d c n) k
            = some (FREESASA_SUCCESS, node { d with area := some a } c n, k + 1) ∧
          a = (child_areas c).foldl freesasa_add_nodearea
                { freesasa_nodearea_null with name := d.name }) ∧
      (E.malloc_fails k = false → (∃ x ∈ sibling_list c, x.1.area = none) →
        result_node_add_area E (node d c n) k = none)) := by
  constructor
  · intro h
    simp [result_node_add_area, h]
  · intro hr ha
    have h1 : ¬ (d.type = FREESASA_NODE_RESULT ∨ d.type = FREESASA_NODE_ATOM) := by
      simp [hr, ha]
    refine ⟨?_, ?_, ?_⟩
    · intro hm
      simp only [result_node_add_area, h1, if_false, hm, if_true]
    · intro hm hch
      refine ⟨_, ?_, rfl⟩
      simp only [result_node_add_area, h1, if_false, hm, Bool.false_eq_true,
        add_children_area_fold c _ hch]
    · intro hm hch
      simp only [result_node_add_area, h1, if_false, hm, Bool.false_eq_true,
        add_children_area_none c _ hch]

/-- Witness of C21 as amended: an atom node keeps its area of total 3; the root with one
run node, which has no area, as child makes the call end abnormally. -/
theorem add_area_noop_on_run_and_atom_witness :
    ((small_atom 3 none).type = FREESASA_NODE_RESULT ∨
      (small_atom 3 none).type = FREESASA_NODE_ATOM) ∧
    result_node_add_area good_env (node (small_atom 3 none) NULL NULL) 6
      = some (FREESASA_SUCCESS, node (small_atom 3 none) NULL NULL, 6) ∧
    good_env.malloc_fails 21 = false ∧
    (∃ x ∈ sibling_list (small_run_node 1 none NULL), x.1.area = none) ∧
    result_node_add_area good_env (root_with (small_run_node 1 none NULL)) 21 = none :=
  ⟨Or.inr rfl,
   (add_area_noop_on_run_and_atom good_env (small_atom 3 none) NULL NULL 6).1 (Or.inr rfl),
   rfl, by with_unfolding_all decide,
   ((add_area_noop_on_run_and_atom good_env _ (small_run_node 1 none NULL) NULL 21).2
      (by decide) (by decide)).2.2 rfl (by with_unfolding_all decide)⟩

/-- C22, the claim as stated fails: with the generator failing at index 1 of the range
[0,1], `result_node_gen_children` returns failure and the parent, childless before the
call, has the atom generated for index 0 as its child; the caller `result_node_residue`
then returns `NULL`. -/
theorem gen_children_failure_leaves_first_child :
    result_node_gen_children (failing_env 6) childless_residue small_structure small_result
        0 1 (result_node_atom (failing_env 6)) 3
      = some (false, residue_with_one_atom, 7) ∧
    residue_with_one_atom.child_ptr ≠ childless_residue.child_ptr ∧
    result_node_residue (failing_env 6) small_structure small_result 0 0 = some (NULL, 7) := by
  refine ⟨by with_unfolding_all decide, by decide, by with_unfolding_all decide⟩

/-- C22 as amended: when the generator returns nodes for the first `m` indices of the range
and `NULL` at index `first + m`, `result_node_gen_children` returns failure; for `m = 0`
the parent is as it was before the call, and for `m > 0` the child list of the parent is
the `m` nodes generated so far, in order, each with the parent set and the last without
next sibling, while the fields of the parent, its area included, and its next sibling are
unchanged and the counter is the one the failing call of the generator left. -/
theorem gen_children_failure_keeps_generated (E : Env) (pd : freesasa_result_node)
    (pc pn : NodePtr) (S : freesasa_structure) (R : freesasa_result) (first last : Int)
    (ng : node_generator) (k m : Nat) (l : List (freesasa_result_node × NodePtr))
    (k1 k2 : Nat) (hm : m ≤ (last - first).toNat)
    (hg : generate_in_order ng S R m first k = some (l, k1))
    (hf : ng S R (first + m) k1 = some (NULL, k2)) :
    result_node_gen_children E (node pd pc pn) S R first last ng k
      = some (false,
          (if m = 0 then node pd pc pn else node pd (link_children pd.addr l) pn), k2) := by
  cases m with
  | zero =>
    simp [generate_in_order] at hg
    obtain ⟨h1, h2⟩ := hg
    subst h1 h2
    simp only [Nat.cast_zero, add_zero] at hf
    simp [result_node_gen_children, hf]
  | succ m =>
    unfold generate_in_order at hg
    split at hg
    · rename_i d c nx k3 hng
      split at hg
      · rename_i l1 k4 hrec
        simp at hg
        obtain ⟨h1, h2⟩ := hg
        subst h1 h2
        have hf1 : ng S R (first + 1 + (m : Int)) k4 = some (NULL, k2) := by
          have he : first + 1 + (m : Int) = first + ((m + 1 : Nat) : Int) := by
            push_cast; ring
          rw [he]; exact hf
        have hl := gen_children_loop_fails ng S R pd.addr m (last - first).toNat (first + 1)
          k3 l1 k4 k2 (by omega) hrec hf1
        simp [result_node_gen_children, hng, hl, link_children]
      · simp at hg
    · simp at hg

/-- Witness of C22 as amended: the atom generator fails at index 1 of the range [0,1]. -/
theorem gen_children_failure_keeps_generated_witness :
    1 ≤ ((1 : Int) - 0).toNat ∧
    generate_in_order (result_node_atom (failing_env 6)) small_structure small_result 1 0 3
      = some ([(small_atom 3 none, NULL)], 6) ∧
    result_node_atom (failing_env 6) small_structure small_result (0 + (1 : Nat)) 6
      = some (NULL, 7) ∧
    result_node_gen_children (failing_env 6) childless_residue small_structure small_result
        0 1 (result_node_atom (failing_env 6)) 3
      = some (false, residue_with_one_atom, 7) :=
  ⟨by decide, by with_unfolding_all decide, by with_unfolding_all decide,
   gen_children_failure_keeps_generated (failing_env 6) _ NULL NULL small_structure
      small_result 0 1 (result_node_atom (failing_env 6)) 3 1 [(small_atom 3 none, NULL)] 6 7
      (by decide) (by with_unfolding_all decide) (by with_unfolding_all decide)⟩

/-- C23: a residue node that `result_node_residue` returns for index `r` has the name
`residue_name(r)`, the number `residue_number(r)`, the atom count `last - first + 1` of
the atom range of `r`, and as reference NULL when the structure supplies none for `r` and
otherwise a record equal field for field to the one supplied. -/
theorem residue_node_payload (E : Env) (S : freesasa_structure) (R : freesasa_result)
    (r : Int) (k : Nat) (d : freesasa_result_node) (c n : NodePtr) (k1 : Nat)
    (h : result_node_residue E S R r k = some (node d c n, k1)) :
    d.type = FREESASA_NODE_RESIDUE ∧
    d.name = some (S.residue_name r) ∧
    freesasa_result_node_residue_number d = some (some (S.residue_number r)) ∧
    freesasa_result_node_residue_n_atoms d
      = some ((S.residue_atoms r).2 - (S.residue_atoms r).1 + 1) ∧
    freesasa_result_node_residue_reference d = some (S.residue_reference r) ∧
    (freesasa_result_node_residue_reference d = some none ↔ S.residue_reference r = none) := by
  obtain ⟨a, _, _, _, _, _, _, hd, _⟩ := result_node_residue_shape _ _ _ _ _ _ _ _ _ h
  subst hd
  simp [freesasa_result_node_residue_number, freesasa_result_node_residue_n_atoms,
    freesasa_result_node_residue_reference]

/-- Witness of C23: the residue of `ref_structure`, whose reference has total 10. -/
theorem residue_node_payload_witness :
    result_node_residue good_env ref_structure small_result 0 0
      = some (node (ref_residue 0) (small_atoms 4 0) NULL, 11) ∧
    (ref_residue 0).name = some (ref_structure.residue_name 0) ∧
    freesasa_result_node_residue_reference (ref_residue 0)
      = some (some (small_area "MET" 10)) :=
  ⟨by with_unfolding_all decide,
   (residue_node_payload good_env ref_structure small_result 0 0 (ref_residue 0)
      (small_atoms 4 0) NULL 11 (by with_unfolding_all decide)).2.1,
   (residue_node_payload good_env ref_structure small_result 0 0 (ref_residue 0)
      (small_atoms 4 0) NULL 11 (by with_unfolding_all decide)).2.2.2.2.1⟩

/-- C24: `freesasa_add_nodearea` adds the six numeric fields field by field and keeps the
name of the sum; on the numeric fields it is commutative and associative, and
`freesasa_nodearea_null` is its identity; so the aggregate of a list of areas, and the
aggregate `add_children_area` computes over a child list, is the same for every order of
the children. -/
theorem add_nodearea_algebra :
    (∀ s t : freesasa_nodearea,
      freesasa_add_nodearea s t
        = { name := s.name, total := s.total + t.total,
            main_chain := s.main_chain + t.main_chain,
            side_chain := s.side_chain + t.side_chain, polar := s.polar + t.polar,
            apolar := s.apolar + t.apolar, unknown := s.unknown + t.unknown }) ∧
    (∀ s t : freesasa_nodearea,
      freesasa_add_nodearea s t = { freesasa_add_nodearea t s with name := s.name }) ∧
    (∀ a b c : freesasa_nodearea,
      freesasa_add_nodearea (freesasa_add_nodearea a b) c
        = freesasa_add_nodearea a (freesasa_add_nodearea b c)) ∧
    (∀ s : freesasa_nodearea, freesasa_add_nodearea s freesasa_nodearea_null = s) ∧
    (∀ t : freesasa_nodearea,
      freesasa_add_nodearea freesasa_nodearea_null t = { t with name := none }) ∧
    (∀ (l1 l2 : List freesasa_nodearea) (s : freesasa_nodearea), l1.Perm l2 →
      l1.foldl freesasa_add_nodearea s = l2.foldl freesasa_add_nodearea s) ∧
    (∀ (p1 p2 : NodePtr) (s : freesasa_nodearea),
      (∀ x ∈ sibling_list p1, x.1.area ≠ none) → (∀ x ∈ sibling_list p2, x.1.area ≠ none) →
      (child_areas p1).Perm (child_areas p2) →
      add_children_area s p1 = add_children_area s p2 ∧
      add_children_area s p1 ≠ none) := by
  refine ⟨?_, ?_, ?_, ?_, ?_, ?_, ?_⟩
  · intro s t
    rfl
  · intro s t
    simp only [freesasa_add_nodearea, freesasa_nodearea.mk.injEq, true_and]
    refine ⟨?_, ?_, ?_, ?_, ?_, ?_⟩ <;> ring
  · intro a b c
    simp only [freesasa_add_nodearea, freesasa_nodearea.mk.injEq, true_and]
    refine ⟨?_, ?_, ?_, ?_, ?_, ?_⟩ <;> ring
  · intro s
    simp [freesasa_add_nodearea, freesasa_nodearea_null]
  · intro t
    simp [freesasa_add_nodearea, freesasa_nodearea_null]
  · intro l1 l2 s h
    exact fold_add_nodearea_perm l1 l2 h s
  · intro p1 p2 s h1 h2 h
    rw [add_children_area_fold p1 s h1, add_children_area_fold p2 s h2,
      fold_add_nodearea_perm _ _ h s]
    exact ⟨rfl, by simp⟩

/-- Witness of C24: two areas added in either order to the null area. -/
theorem add_nodearea_algebra_witness :
    [small_area "N" 3, small_area "O" 4].Perm [small_area "O" 4, small_area "N" 3] ∧
    [small_area "N" 3, small_area "O" 4].foldl freesasa_add_nodearea freesasa_nodearea_null
      = [small_area "O" 4, small_area "N" 3].foldl freesasa_add_nodearea
          freesasa_nodearea_null :=
  ⟨List.Perm.swap _ _ _,
   add_nodearea_algebra.2.2.2.2.2.1 _ _ _ (List.Perm.swap _ _ _)⟩

/-- C25: when the allocation succeeds, `freesasa_result_tree_new` returns a node of type
root with no name, no area, no parent, no children and no next sibling. -/
theorem tree_new_returns_empty_root (E : Env) (k : Nat) (h : E.malloc_fails k = false) :
    freesasa_result_tree_new E k
      = (node { addr := k, name := none, type := FREESASA_NODE_ROOT, prop := zero_prop,
                area := none, parent := none } NULL NULL, k + 1) := by
  simp [freesasa_result_tree_new, result_node_new, h]

/-- Witness of C25: the root built at address 0 by an allocator that never fails. -/
theorem tree_new_returns_empty_root_witness :
    good_env.malloc_fails 0 = false ∧
    freesasa_result_tree_new good_env 0 = (empty_root, 1) :=
  ⟨rfl, tree_new_returns_empty_root good_env 0 rfl⟩

/-- C26: a successful `freesasa_result_tree_add_result` puts the new run node at the head
of the child list of the root and leaves the old list behind it, unchanged and in the same
order; after a second successful call the child list is the second run, the first run,
then the old list. -/
theorem add_result_inserts_at_head (E : Env) (tree : NodePtr) (R : freesasa_result)
    (S : freesasa_structure) (name : Option String) (k : Nat) (tree1 : NodePtr) (k1 : Nat)
    (h : freesasa_result_tree_add_result E tree R S name k
      = some (FREESASA_SUCCESS, tree1, k1)) :
    ∃ rd rc,
      rd.type = FREESASA_NODE_RESULT ∧ rd.name = name ∧
      sibling_list tree1.child_ptr = (rd, rc) :: sibling_list tree.child_ptr ∧
      ∀ (E2 : Env) (R2 : freesasa_result) (S2 : freesasa_structure) (name2 : Option String)
        (k2 : Nat) (tree2 : NodePtr) (k3 : Nat),
        freesasa_result_tree_add_result E2 tree1 R2 S2 name2 k2
          = some (FREESASA_SUCCESS, tree2, k3) →
        ∃ rd2 rc2, rd2.type = FREESASA_NODE_RESULT ∧ rd2.name = name2 ∧
          sibling_list tree2.child_ptr
            = (rd2, rc2) :: (rd, rc) :: sibling_list tree.child_ptr := by
  obtain ⟨td, tc, tn, sd, sc, sn, k4, k5, ht, ht1, _⟩ := add_result_shape _ _ _ _ _ _ _ _ h
  subst ht ht1
  refine ⟨_, _, rfl, rfl, rfl, ?_⟩
  intro E2 R2 S2 name2 k2 tree2 k3 h2
  obtain ⟨td2, tc2, tn2, sd2, sc2, sn2, k6, k7, ht2, ht3, _⟩ :=
    add_result_shape _ _ _ _ _ _ _ _ h2
  simp only [node.injEq] at ht2
  obtain ⟨h1, h3, h4⟩ := ht2
  subst h1 h3 h4 ht3
  exact ⟨_, _, rfl, rfl, rfl⟩

/-- Witness of C26: the run "run" added to the empty root. -/
theorem add_result_inserts_at_head_witness :
    freesasa_result_tree_add_result good_env empty_root small_result small_structure
        (some "run") 1
      = some (FREESASA_SUCCESS, root_with (small_run_node 1 (some (small_area "A" 6)) NULL), 21) ∧
    ∃ rd rc,
      rd.type = FREESASA_NODE_RESULT ∧ rd.name = some "run" ∧
      sibling_list (root_with (small_run_node 1 (some (small_area "A" 6)) NULL)).child_ptr
        = (rd, rc) :: sibling_list empty_root.child_ptr :=
  ⟨by with_unfolding_all decide,
   match add_result_inserts_at_head good_env empty_root small_result small_structure
      (some "run") 1 (root_with (small_run_node 1 (some (small_area "A" 6)) NULL)) 21
      (by with_unfolding_all decide) with
   | ⟨rd, rc, h1, h2, h3, _⟩ => ⟨rd, rc, h1, h2, h3⟩⟩

/-- C27, at the failing input: over the range [0,1], atom 0 of class unknown and atom 1 of
class polar, each of area 3, the call on the all-zero area gives `total` 6 and `polar` 3
and `unknown` 6, not 3: the field `unknown` of the local term still holds the area of
atom 0 when atom 1 is added; `total` is 6 and `polar + apolar + unknown` is 9. -/
theorem range_nodearea_counts_unknown_twice :
    mixed_class_structure.atom_class 0 = FREESASA_ATOM_UNKNOWN ∧
    mixed_class_structure.atom_class 1 = FREESASA_ATOM_POLAR ∧
    freesasa_range_nodearea good_env freesasa_nodearea_null mixed_class_structure
        small_result 0 1
      = some { name := none, total := 6, main_chain := 6, side_chain := 0, polar := 3,
               apolar := 0, unknown := 6 } ∧
    index_sum (fun i => if mixed_class_structure.atom_class i = FREESASA_ATOM_UNKNOWN
        then small_result.sasa i else 0) 2 0 = 3 := by
  refine ⟨rfl, rfl, by with_unfolding_all decide, by with_unfolding_all decide⟩

/-- C28, the claim as stated fails: a buried side-chain atom, area 0, has the flag
`is_mainchain` 0 while `main_chain` equals `total` and `side_chain` is zero. -/
theorem buried_side_chain_atom_flag :
    result_node_atom good_env side_chain_structure buried_result 0 0
      = some (node (buried_atom 0) NULL NULL, 3) ∧
    freesasa_result_node_atom_is_mainchain (buried_atom 0) = some 0 ∧
    (buried_atom 0).area.map
        (fun a => (decide (a.main_chain = a.total), decide (a.side_chain = 0)))
      = some (true, true) := by
  refine ⟨by with_unfolding_all decide, by decide, by with_unfolding_all decide⟩

/-- C28 as amended: for every generated atom node, when `is_mainchain` is set the area has
`main_chain = total` and `side_chain = 0`, and when it is not set the area has
`side_chain = total` and `main_chain = 0`, so for a non-zero total the flag is set exactly
when `main_chain` carries the whole total; `is_polar` is 1 exactly when the class of the
atom is polar, and 0 otherwise, and then `polar = total`; an atom of class unknown has
`is_polar` 0. -/
theorem atom_flags_agree_with_area (E : Env) (S : freesasa_structure) (R : freesasa_result)
    (i : Int) (k : Nat) (d : freesasa_result_node) (c n : NodePtr) (k1 : Nat)
    (h : result_node_atom E S R i k = some (node d c n, k1)) :
    ∃ a bb pol, freesasa_result_node_area d = some (some a) ∧
      freesasa_result_node_atom_is_mainchain d = some bb ∧
      freesasa_result_node_atom_is_polar d = some pol ∧
      (bb ≠ 0 → a.main_chain = a.total ∧ a.side_chain = 0) ∧
      (bb = 0 → a.side_chain = a.total ∧ a.main_chain = 0) ∧
      (a.total ≠ 0 → (bb ≠ 0 ↔ a.main_chain = a.total ∧ a.side_chain = 0)) ∧
      (pol = 1 ↔ S.atom_class i = FREESASA_ATOM_POLAR) ∧
      (pol = 0 ↔ S.atom_class i ≠ FREESASA_ATOM_POLAR) ∧
      (S.atom_class i = FREESASA_ATOM_POLAR → a.polar = a.total) ∧
      (S.atom_class i = FREESASA_ATOM_UNKNOWN → pol = 0) := by
  obtain ⟨hd, _, _, _⟩ := result_node_atom_inv _ _ _ _ _ _ _ _ _ h
  subst hd
  refine ⟨_, _, _, rfl, rfl, rfl, ?_, ?_, ?_, ?_, ?_, ?_, ?_⟩
  · intro hb
    cases hc : S.atom_class i <;> simp [freesasa_atom_nodearea, hb, hc]
  · intro hb
    cases hc : S.atom_class i <;> simp [freesasa_atom_nodearea, hb, hc]
  · intro ht
    by_cases hb : E.freesasa_atom_is_backbone (S.atom_name i) = 0
    · cases hc : S.atom_class i <;>
        simp [freesasa_atom_nodearea, hb, hc] at ht ⊢ <;> exact fun h0 => absurd h0.symm ht
    · cases hc : S.atom_class i <;> simp [freesasa_atom_nodearea, hb, hc]
  · by_cases hc : S.atom_class i = FREESASA_ATOM_POLAR <;> simp [hc]
  · by_cases hc : S.atom_class i = FREESASA_ATOM_POLAR <;> simp [hc]
  · intro hc
    simp [freesasa_atom_nodearea, hc]
    split <;> rfl
  · intro hc
    simp [hc]

/-- Witness of C28 as amended: the backbone atom "N" of `small_structure`, polar, area 3. -/
theorem atom_flags_agree_with_area_witness :
    result_node_atom good_env small_structure small_result 0 0
      = some (node (small_atom 0 none) NULL NULL, 3) ∧
    ∃ a bb pol, freesasa_result_node_area (small_atom 0 none) = some (some a) ∧
      freesasa_result_node_atom_is_mainchain (small_atom 0 none) = some bb ∧
      freesasa_result_node_atom_is_polar (small_atom 0 none) = some pol ∧
      (bb ≠ 0 → a.main_chain = a.total ∧ a.side_chain = 0) ∧
      (pol = 1 ↔ small_structure.atom_class 0 = FREESASA_ATOM_POLAR) :=
  ⟨by with_unfolding_all decide,
   match atom_flags_agree_with_area good_env small_structure small_result 0 0
      (small_atom 0 none) NULL NULL 3 (by with_unfolding_all decide) with
   | ⟨a, bb, pol, h1, h2, h3, h4, _, _, h7, _⟩ => ⟨a, bb, pol, h1, h2, h3, h4, h7⟩⟩

/-- C29: for a range with `last < first`, `result_node_gen_children` still calls the
generator once, on `first`, and when that call returns a node it makes that node the only
child of the parent and runs the aggregation; so a residue or chain node generated for an
empty range records a count `last - first + 1 <= 0` and has one child. -/
theorem empty_range_generates_one_child (E : Env) (S : freesasa_structure)
    (R : freesasa_result) :
    (∀ (pd : freesasa_result_node) (pc pn : NodePtr) (first last : Int)
        (ng : node_generator) (k : Nat) (fd : freesasa_result_node) (fc fn : NodePtr)
        (k2 : Nat),
      last < first → ng S R first k = some (node fd fc fn, k2) →
      generate_in_order ng S R 1 first k = some ([(fd, fc)], k2) ∧
      result_node_gen_children E (node pd pc pn) S R first last ng k
        = (result_node_add_area E
            (node pd (node { fd with parent := some pd.addr } fc NULL) pn) k2).map
            (fun r => (true, r.2.1, r.2.2))) ∧
    (∀ (r : Int) (k : Nat) (d : freesasa_result_node) (c n : NodePtr) (k1 : Nat),
      result_node_residue E S R r k = some (node d c n, k1) →
      (S.residue_atoms r).2 < (S.residue_atoms r).1 →
      ∃ na, freesasa_result_node_residue_n_atoms d = some na ∧ na ≤ 0 ∧
        (sibling_list c).length = 1) ∧
    (∀ (i : Int) (k : Nat) (d : freesasa_result_node) (c n : NodePtr) (k1 : Nat) (ch : Char),
      result_node_chain E S R i k = some (node d c n, k1) →
      chain_label S.chain_labels i = some ch →
      (S.chain_residues ch).2 < (S.chain_residues ch).1 →
      ∃ nr, freesasa_result_node_chain_n_residues d = some nr ∧ nr ≤ 0 ∧
        (sibling_list c).length = 1) := by
  refine ⟨?_, ?_, ?_⟩
  · intro pd pc pn first last ng k fd fc fn k2 hr hg
    have hn : (last - first).toNat = 0 := by omega
    constructor
    · simp [generate_in_order, hg]
    · unfold result_node_gen_children
      rw [hg]
      simp only [hn, gen_children_loop]
      cases result_node_add_area E
        (node pd (node { fd with parent := some pd.addr } fc NULL) pn) k2 with
      | none => rfl
      | some r => rfl
  · intro r k d c n k1 h hr
    obtain ⟨a, ad, ac, an, k2, k3, rest, hd, hc, _, _, hlen⟩ :=
      result_node_residue_shape _ _ _ _ _ _ _ _ _ h
    subst hd hc
    refine ⟨(S.residue_atoms r).2 - (S.residue_atoms r).1 + 1,
      by simp [freesasa_result_node_residue_n_atoms], by omega, ?_⟩
    simp only [sibling_list, List.length_cons, hlen]
    omega
  · intro i k d c n k1 ch h hch hr
    obtain ⟨ch1, a, rd, rc, rn, k2, k3, rest, hch1, hd, hc, _, _, hlen⟩ :=
      result_node_chain_shape _ _ _ _ _ _ _ _ _ h
    rw [hch] at hch1
    simp only [Option.some.injEq] at hch1
    subst hch1 hd hc
    refine ⟨(S.chain_residues ch).2 - (S.chain_residues ch).1 + 1,
      by simp [freesasa_result_node_chain_n_residues], by omega, ?_⟩
    simp only [sibling_list, List.length_cons, hlen]
    omega

/-- Witness of C29: the residue of `empty_range_structure`, atom range [0,-1], records 0
atoms and has one child. -/
theorem empty_range_generates_one_child_witness :
    result_node_residue good_env empty_range_structure small_result 0 0
      = some (node (empty_range_residue 0) (node (small_atom 3 (some 0)) NULL NULL) NULL, 7) ∧
    (empty_range_structure.residue_atoms 0).2 < (empty_range_structure.residue_atoms 0).1 ∧
    ∃ na, freesasa_result_node_residue_n_atoms (empty_range_residue 0) = some na ∧ na ≤ 0 ∧
      (sibling_list (node (small_atom 3 (some 0)) NULL NULL)).length = 1 :=
  ⟨by with_unfolding_all decide, by decide,
   (empty_range_generates_one_child good_env empty_range_structure small_result).2.1 0 0
      (empty_range_residue 0) (node (small_atom 3 (some 0)) NULL NULL) NULL 7
      (by with_unfolding_all decide) (by decide)⟩
